import Mathlib

/-!
EnvironmentReader: the time-axis selection engine.

A shallow embedding of the selection and cache logic of `src/app.js`
(class `EnvironmentReader`) and theorems about it.

Conventions of the embedding

* A JavaScript `Date` is represented by its time value, an `Instant`
  (milliseconds since the epoch, an integer).  A date string held by the
  program (an element of `hourly.time` or `daily.time`, or the value of
  `selectedDate`) is represented by the instant `new Date(string)` denotes;
  all such strings are non-empty, hence truthy, and denote valid dates.
* The local-time getters (`getFullYear`, `getMonth`, `getDate`, `getHours`)
  are the ECMAScript ones: the calendar fields of `LocalTime(t)`.  The time
  zone is a parameter `Zone`, an arbitrary map from instants to local time
  values, so daylight-saving zones are covered.  "Calendar day" and "hour of
  day" of a timestamp always mean what these getters report for it, which is
  how the program compares dates.
* An asynchronous method is followed from its call to the arrival of the
  response as one step, with one clock reading `now` standing for the calls of
  `Date.now()` and `new Date()` made on the way.
* Integer-valued JavaScript numbers (indices, array lengths) are `Int`.
* DOM rendering is not modelled; only the fields of `this` are.
-/

namespace EnvironmentReader

/-! ## The JavaScript runtime: dates -/

/-- Time value of a JavaScript `Date`: milliseconds since 1970-01-01T00:00Z. -/
abbrev Instant := Int

/-- ECMAScript `msPerDay`. -/
def msPerDay : Int := 86400000

/-- ECMAScript `msPerHour`. -/
def msPerHour : Int := 3600000

/-- ECMAScript `Day(t)`: the day number of a time value (floor division). -/
def Day (t : Int) : Int := t / msPerDay

/-- Proleptic Gregorian calendar date `(year, month 1..12, day 1..31)` of a
day number counted from 1970-01-01. -/
def civilFromDays (days : Int) : Int × Int × Int :=
  let z := days + 719468
  let era := z / 146097
  let doe := z - era * 146097
  let yoe := (doe - doe / 1460 + doe / 36524 - doe / 146096) / 365
  let doy := doe - (365 * yoe + yoe / 4 - yoe / 100)
  let mp := (5 * doy + 2) / 153
  let d := doy - (153 * mp + 2) / 5 + 1
  let m := if mp < 10 then mp + 3 else mp - 9
  let y := yoe + era * 400
  (if m ≤ 2 then y + 1 else y, m, d)

/-- ECMAScript `YearFromTime(t)`. -/
def YearFromTime (t : Int) : Int := (civilFromDays (Day t)).1

/-- ECMAScript `MonthFromTime(t)`: 0 for January up to 11 for December. -/
def MonthFromTime (t : Int) : Int := (civilFromDays (Day t)).2.1 - 1

/-- ECMAScript `DateFromTime(t)`: the day of the month, 1..31. -/
def DateFromTime (t : Int) : Int := (civilFromDays (Day t)).2.2

/-- ECMAScript `HourFromTime(t)`: the hour of the day, 0..23. -/
def HourFromTime (t : Int) : Int := (t / msPerHour) % 24

/-- The time zone of the browser: ECMAScript `LocalTime`, mapping a time
value to the local time value whose calendar fields the getters report. -/
structure Zone where
  localTime : Instant → Int

/-- A zone with a fixed offset from UTC, in minutes east of Greenwich. -/
def Zone.fixed (minutesEast : Int) : Zone :=
  { localTime := fun t => t + minutesEast * 60000 }

/-- Method `Date.prototype.getFullYear`. -/
def getFullYear (z : Zone) (t : Instant) : Int := YearFromTime (z.localTime t)

/-- Method `Date.prototype.getMonth`. -/
def getMonth (z : Zone) (t : Instant) : Int := MonthFromTime (z.localTime t)

/-- Method `Date.prototype.getDate`. -/
def getDate (z : Zone) (t : Instant) : Int := DateFromTime (z.localTime t)

/-- Method `Date.prototype.getHours`. -/
def getHours (z : Zone) (t : Instant) : Int := HourFromTime (z.localTime t)

/-- The instant denoted by `t.toISOString().split("T")[0]`: the string is the
UTC calendar date of `t`, and a date-only string denotes UTC midnight. -/
def isoDate (t : Instant) : Instant := Day t * msPerDay

/-- Time value of the UTC date-time `year-month-day hour:00`, `month` being
1..12; used to write down concrete timestamps. -/
def utc (year month day hour : Int) : Instant :=
  let y := if month ≤ 2 then year - 1 else year
  let era := y / 400
  let yoe := y - era * 400
  let mp := if month > 2 then month - 3 else month + 9
  let doy := (153 * mp + 2) / 5 + day - 1
  let doe := yoe * 365 + yoe / 4 - yoe / 100 + doy
  (era * 146097 + doe - 719468) * msPerDay + hour * msPerHour

/-! ## The data model -/

/-- A value read from a numeric field of the payload: `undefined`, `null`
or a number. -/
inductive Val where
  | undefined
  | null
  | num (x : ℚ)
deriving DecidableEq, Repr

/-- A parallel array of the payload (`hourly.temperature_2m`, ...): absent,
or a list whose elements are numbers or `null`. -/
abbrev NumArray := Option (List (Option ℚ))

/-- The `hourly` block of a forecast payload: its `time` array and the
parallel arrays that `getSelectedHourData` reads, each possibly absent. -/
structure Hourly where
  time : List Instant
  temperature_2m : NumArray := none
  apparent_temperature : NumArray := none
  relative_humidity_2m : NumArray := none
  weather_code : NumArray := none
  pressure_msl : NumArray := none
  wind_speed_10m : NumArray := none
  wind_direction_10m : NumArray := none
  visibility : NumArray := none
  uv_index : NumArray := none
  cloud_cover : NumArray := none
  is_day : NumArray := none
deriving DecidableEq, Repr

/-- The object `getSelectedHourData` returns; the `current` block of a payload
has the same fields.  The empty object has every field `undefined`. -/
structure HourRow where
  temperature_2m : Val := Val.undefined
  apparent_temperature : Val := Val.undefined
  relative_humidity_2m : Val := Val.undefined
  weather_code : Val := Val.undefined
  pressure_msl : Val := Val.undefined
  wind_speed_10m : Val := Val.undefined
  wind_direction_10m : Val := Val.undefined
  visibility : Val := Val.undefined
  uv_index : Val := Val.undefined
  cloud_cover : Val := Val.undefined
  is_day : Val := Val.undefined
  time : Option Instant := none
deriving DecidableEq, Repr

/-- The `daily` block of a forecast payload: its `time` array and the
parallel arrays the views read, each possibly absent. -/
structure Daily where
  time : List Instant
  weather_code : NumArray := none
  temperature_2m_max : NumArray := none
  temperature_2m_min : NumArray := none
deriving DecidableEq, Repr

/-- A forecast payload as returned by `res.json()`; each block may be
absent. -/
structure WeatherData where
  hourly : Option Hourly
  daily : Option Daily
  current : Option HourRow := none
deriving DecidableEq, Repr

/-- The coordinates of `this.currentLocation`. -/
structure Location where
  latitude : ℚ
  longitude : ℚ
deriving DecidableEq

/-- The fields of `this.cache` that the forecast logic uses. -/
structure Cache where
  weatherData : Option WeatherData
  locationData : Option Location
  timestamp : Int
deriving DecidableEq

/-- The fields of an `EnvironmentReader` instance that the selection engine
reads and writes. -/
structure App where
  currentLocation : Option Location
  weatherData : Option WeatherData
  selectedHourIndex : Int
  selectedDayIndex : Int
  selectedDate : Option Instant
  isLoading : Bool
  cache : Cache
deriving DecidableEq

/-- The state the constructor builds. -/
def App.init : App :=
  { currentLocation := none
    weatherData := none
    selectedHourIndex := 0
    selectedDayIndex := 0
    selectedDate := none
    isLoading := false
    cache := { weatherData := none, locationData := none, timestamp := 0 } }

/-- Reading `xs[i]` for an integer `i`: `undefined` outside `0..length-1`. -/
def getAt {α : Type} (xs : List α) (i : Int) : Option α :=
  if i < 0 then none else xs[i.toNat]?

/-- The array `this.weatherData?.hourly?.time`. -/
def App.hourlyTime (s : App) : Option (List Instant) :=
  (s.weatherData.bind (fun w => w.hourly)).map (fun h => h.time)

/-- The array `this.weatherData?.daily?.time`. -/
def App.dailyTime (s : App) : Option (List Instant) :=
  (s.weatherData.bind (fun w => w.daily)).map (fun d => d.time)

/-! ## The forecast cache -/

/-- Method `Number.prototype.toFixed(digits)` for a number below `10^21`: the
printed string is a minus sign when `x < 0`, followed by the decimal digits of
the integer `n` for which `n / 10^digits` is nearest to `|x|` (the larger `n`
on a tie).  The string is represented by the pair `(x < 0, n)`. -/
def toFixed (digits : Nat) (x : ℚ) : Bool × Int :=
  (decide (x < 0), ⌊|x| * (10 : ℚ) ^ digits + 1 / 2⌋)

/-- The JavaScript expression `x || 0` for a number `x`. -/
def orZero (x : Int) : Int := if x = 0 then 0 else x

/-- Method `isCacheValid()` with `Date.now()` returning `now`.  The result is `none`
when the call throws: it reads `this.currentLocation.latitude`, a `TypeError`
when no location is set. -/
def isCacheValid (s : App) (now : Int) : Option Bool :=
  match s.cache.weatherData, s.cache.locationData with
  | some _, some cached =>
    match s.currentLocation with
    | none => none
    | some loc =>
      let isSameLocation : Bool :=
        toFixed 4 cached.latitude = toFixed 4 loc.latitude &&
        toFixed 4 cached.longitude = toFixed 4 loc.longitude
      if !isSameLocation then some false
      else
        let age := now - orZero s.cache.timestamp
        some (decide (age < 5 * 60 * 1000))
  | _, _ => some false

/-! ## Locating the current hour -/

/-- The `for` loop of `getCurrentHourIndex`, entered at index `i` with the
remaining elements of `times`; `0` when the loop runs to its end. -/
def getCurrentHourIndexLoop (z : Zone) (now : Instant) : List Instant → Nat → Int
  | [], _ => 0
  | t :: rest, i =>
    if getHours z t = getHours z now ∧ getDate z t = getDate z now ∧
        getMonth z t = getMonth z now ∧ getFullYear z t = getFullYear z now then (i : Int)
    else getCurrentHourIndexLoop z now rest (i + 1)

/-- Method `getCurrentHourIndex()` with `new Date()` returning `now`. -/
def getCurrentHourIndex (z : Zone) (s : App) (now : Instant) : Int :=
  match s.weatherData with
  | none => 0
  | some w =>
    match w.hourly with
    | none => 0
    | some hourly => getCurrentHourIndexLoop z now hourly.time 0

/-! ## Fetching -/

/-- Method `fetchWeatherData()`, run from the call to the arrival of the response.
`now` is the clock reading, `response` the parsed body of a successful request
(`none` for a transport error, a timeout or a non-OK status). -/
def fetchWeatherData (z : Zone) (s : App) (now : Instant)
    (response : Option WeatherData) : App :=
  match s.currentLocation with
  | none => s
  | some loc =>
    if isCacheValid s now = some true then
      { s with weatherData := s.cache.weatherData, isLoading := false }
    else
      match response with
      | none => { s with isLoading := false }
      | some json =>
        let s1 : App :=
          { s with
            weatherData := some json
            cache := { weatherData := some json, locationData := some loc, timestamp := now } }
        let s2 : App :=
          if s1.selectedDate = none then
            { s1 with
              selectedHourIndex := getCurrentHourIndex z s1 now
              selectedDayIndex := 0 }
          else s1
        { s2 with isLoading := false }

/-- Method `refreshWeatherData()`. -/
def refreshWeatherData (z : Zone) (s : App) (now : Instant)
    (response : Option WeatherData) : App :=
  if s.currentLocation = none ∨ s.isLoading = true then s
  else fetchWeatherData z { s with cache := { s.cache with timestamp := 0 } } now response

/-- Method `selectLocation(loc)` for a location object carrying both coordinates,
followed to the arrival of the forecast it requests. -/
def selectLocation (z : Zone) (s : App) (loc : Location) (now : Instant)
    (response : Option WeatherData) : App :=
  fetchWeatherData z { s with currentLocation := some loc } now response

/-- Method `fetchDataForDate(date)`, run to the arrival of the response; the date
only selects what is requested.  Reading `daily.time[0]` of a body without
a first daily entry throws inside the `try`, after `weatherData` was
assigned. -/
def fetchDataForDate (s : App) (response : Option WeatherData) : App :=
  match s.currentLocation with
  | none => { s with isLoading := false }
  | some _ =>
    match response with
    | none => { s with isLoading := false }
    | some json =>
      let s1 : App := { s with weatherData := some json }
      match (json.daily.map (fun d => d.time)).bind (fun ts => ts[0]?) with
      | none => { s1 with isLoading := false }
      | some t0 =>
        { s1 with
          selectedDate := some (isoDate t0)
          selectedDayIndex := 0
          selectedHourIndex := 12
          isLoading := false }

/-! ## Selection and navigation -/

/-- The `for` loop of `selectHour` over `daily.time`, entered at index `i`:
`some i` when the body assigns `selectedDayIndex = i` and breaks, `none` when
the loop runs to its end. -/
def selectHourLoop (z : Zone) (selectedTime : Instant) : List Instant → Nat → Option Nat
  | [], _ => none
  | d :: rest, i =>
    if getFullYear z d = getFullYear z selectedTime ∧
        getMonth z d = getMonth z selectedTime ∧
        getDate z d = getDate z selectedTime then some i
    else selectHourLoop z selectedTime rest (i + 1)

/-- Method `selectHour(index)`. -/
def selectHour (z : Zone) (s : App) (index : Int) : App :=
  let s1 : App := { s with selectedHourIndex := index }
  match s.hourlyTime.bind (fun ts => getAt ts index) with
  | none => s1
  | some selectedTime =>
    let s2 : App := { s1 with selectedDate := some (isoDate selectedTime) }
    match s.weatherData.bind (fun w => w.daily) with
    | none => s2
    | some daily =>
      match selectHourLoop z selectedTime daily.time 0 with
      | some i => { s2 with selectedDayIndex := (i : Int) }
      | none => s2

/-- The `for` loop of `selectDay` over `hourly.time`, entered at index `i`
with the current value of `targetHour`; returns the final `targetHour`. -/
def selectDayLoop (z : Zone) (target : Instant) : List Instant → Nat → Int → Int
  | [], _, targetHour => targetHour
  | t :: rest, i, targetHour =>
    if getFullYear z t = getFullYear z target ∧
        getMonth z t = getMonth z target ∧
        getDate z t = getDate z target then
      let targetHour1 : Int := if targetHour = -1 then (i : Int) else targetHour
      if getHours z t = 12 then (i : Int)
      else selectDayLoop z target rest (i + 1) targetHour1
    else selectDayLoop z target rest (i + 1) targetHour

/-- Method `selectDay(index)`. -/
def selectDay (z : Zone) (s : App) (index : Int) : App :=
  let s1 : App := { s with selectedDayIndex := index }
  match s.dailyTime.bind (fun ts => getAt ts index), s.hourlyTime with
  | some selectedDate, some times =>
    let s2 : App := { s1 with selectedDate := some selectedDate }
    let targetHour := selectDayLoop z selectedDate times 0 (-1)
    if targetHour ≠ -1 then { s2 with selectedHourIndex := targetHour } else s2
  | _, _ => s1

/-- Method `navigateHour(direction)`. -/
def navigateHour (z : Zone) (s : App) (direction : Int) : App :=
  match s.hourlyTime with
  | none => s
  | some times =>
    let idx := s.selectedHourIndex + direction
    let idx := if idx < 0 then (times.length : Int) - 1 else idx
    let idx := if idx ≥ (times.length : Int) then 0 else idx
    selectHour z s idx

/-- Method `navigateDay(direction)`. -/
def navigateDay (z : Zone) (s : App) (direction : Int) : App :=
  match s.dailyTime with
  | none => s
  | some times =>
    let idx := s.selectedDayIndex + direction
    let idx := if idx < 0 then (times.length : Int) - 1 else idx
    let idx := if idx ≥ (times.length : Int) then 0 else idx
    selectDay z s idx

/-- Method `goToCurrentWeather()` with `new Date()` returning `now`. -/
def goToCurrentWeather (z : Zone) (s : App) (now : Instant) : App :=
  let s1 : App := { s with selectedDate := none }
  let s2 : App := { s1 with selectedHourIndex := getCurrentHourIndex z s1 now }
  { s2 with selectedDayIndex := 0 }

/-! ## Predicates used in the statements -/

/-- Two dates fall on the same local calendar day: equal `getFullYear`,
`getMonth` and `getDate`. -/
def sameCalendarDay (z : Zone) (a b : Instant) : Prop :=
  getFullYear z a = getFullYear z b ∧ getMonth z a = getMonth z b ∧ getDate z a = getDate z b

instance (z : Zone) (a b : Instant) : Decidable (sameCalendarDay z a b) := by
  unfold sameCalendarDay; infer_instance

/-- Two dates fall in the same local calendar hour: equal `getHours`,
`getDate`, `getMonth` and `getFullYear`. -/
def sameCalendarHour (z : Zone) (a b : Instant) : Prop :=
  getHours z a = getHours z b ∧ getDate z a = getDate z b ∧
    getMonth z a = getMonth z b ∧ getFullYear z a = getFullYear z b

instance (z : Zone) (a b : Instant) : Decidable (sameCalendarHour z a b) := by
  unfold sameCalendarHour; infer_instance

/-! ## Concrete data used to instantiate the theorems -/

/-- A browser in a zone five and a half hours east of Greenwich. -/
def exampleZone : Zone := Zone.fixed 330

/-- The instant whose local reading in `exampleZone` is `year-month-day
hour:00`, as `new Date` gives for a string without a zone designator. -/
def localIST (year month day hour : Int) : Instant :=
  utc year month day hour - 330 * 60000

/-- Forty-eight hourly rows: every hour of 1 and 2 January 2024, local time. -/
def exampleHourly : List Instant :=
  (List.range 48).map (fun h => localIST 2024 1 1 0 + (h : Int) * msPerHour)

/-- The two daily rows `2024-01-01` and `2024-01-02` (date-only strings denote
UTC midnight). -/
def exampleDaily : List Instant := [utc 2024 1 1 0, utc 2024 1 2 0]

/-- A payload with the rows above. -/
def exampleData : WeatherData :=
  { hourly := some { time := exampleHourly }, daily := some { time := exampleDaily } }

/-- Coordinates used in the examples. -/
def exampleLocation : Location := { latitude := 129716 / 10000, longitude := 775946 / 10000 }

/-- The state after the first forecast arrived, at 10:00 local time on
1 January 2024. -/
def exampleApp : App :=
  selectLocation exampleZone App.init exampleLocation (localIST 2024 1 1 10) (some exampleData)

/-- Scenario A: a payload with the 24 hourly rows of 1 January 2024 (local
time) and the one daily row of that date. -/
def scenarioAData : WeatherData :=
  { hourly := some { time := exampleHourly.take 24 }, daily := some { time := [utc 2024 1 1 0] } }

/-- Scenario A: the state after that payload arrived. -/
def scenarioAApp : App :=
  selectLocation exampleZone App.init exampleLocation (localIST 2024 1 1 7) (some scenarioAData)

/-- Scenario B: a seven-day payload with rows at 00:00, 06:00, 12:00 and
18:00 local time on each day from 1 January 2024. -/
def scenarioBData : WeatherData :=
  { hourly := some
      { time := (List.range 28).map (fun k => localIST 2024 1 1 0 + (k : Int) * 6 * msPerHour) }
    daily := some
      { time := (List.range 7).map (fun d => utc 2024 1 1 0 + (d : Int) * msPerDay) } }

/-- Scenario B: the state after that payload arrived. -/
def scenarioBApp : App :=
  selectLocation exampleZone App.init exampleLocation (localIST 2024 1 1 7) (some scenarioBData)

/-! ## Runs of the selection engine -/

/-- Number of rows of `hourly.time` in a payload (0 when the block is absent). -/
def WeatherData.hourlyRows (w : WeatherData) : Nat :=
  match w.hourly with
  | some h => h.time.length
  | none => 0

/-- Number of rows of `daily.time` in a payload (0 when the block is absent). -/
def WeatherData.dailyRows (w : WeatherData) : Nat :=
  match w.daily with
  | some d => d.time.length
  | none => 0

/-- The payload has non-empty hourly and daily arrays. -/
def WeatherData.hasRows (w : WeatherData) : Bool :=
  decide (0 < w.hourlyRows) && decide (0 < w.dailyRows)

/-- Length of the loaded hourly series (0 when nothing is loaded). -/
def App.hourlyLen (s : App) : Int :=
  match s.weatherData with
  | some w => (w.hourlyRows : Int)
  | none => 0

/-- Length of the loaded daily series (0 when nothing is loaded). -/
def App.dailyLen (s : App) : Int :=
  match s.weatherData with
  | some w => (w.dailyRows : Int)
  | none => 0

/-- The operations that move the selection, each with what it receives from
outside: the location supplied, the clock reading, the payload of a successful
request, the index or direction passed by the caller. -/
inductive Action where
  | locate (loc : Location) (now : Instant) (series : WeatherData)
  | refresh (now : Instant) (series : WeatherData)
  | jumpToDate (series : WeatherData)
  | goToNow (now : Instant)
  | selectHour (index : Int)
  | selectDay (index : Int)
  | navigateHour (direction : Int)
  | navigateDay (direction : Int)

/-- One operation: a new location whose forecast request succeeds, a refresh
whose request succeeds, a completed `fetchDataForDate`, `goToCurrentWeather`,
`selectHour`, `selectDay`, `navigateHour`, `navigateDay`. -/
def step (z : Zone) (s : App) : Action → App
  | .locate loc now series => selectLocation z s loc now (some series)
  | .refresh now series => refreshWeatherData z s now (some series)
  | .jumpToDate series => fetchDataForDate s (some series)
  | .goToNow now => goToCurrentWeather z s now
  | .selectHour index => selectHour z s index
  | .selectDay index => selectDay z s index
  | .navigateHour direction => navigateHour z s direction
  | .navigateDay direction => navigateDay z s direction

/-- The state after a sequence of operations. -/
def run (z : Zone) (s : App) (acts : List Action) : App :=
  acts.foldl (step z) s

/-- The bounds of the selection invariant: when a series with non-empty hourly
and daily arrays is loaded, both indices point at loaded rows. -/
def SelectionInBounds (s : App) : Prop :=
  s.weatherData.map WeatherData.hasRows = some true →
    0 ≤ s.selectedHourIndex ∧ s.selectedHourIndex < s.hourlyLen ∧
      0 ≤ s.selectedDayIndex ∧ s.selectedDayIndex < s.dailyLen

instance (s : App) : Decidable (SelectionInBounds s) := by
  unfold SelectionInBounds; infer_instance

/-- The series loaded in `s'` is at least as long as the one loaded in `s`. -/
def notShorter (s s' : App) : Prop :=
  s.hourlyLen ≤ s'.hourlyLen ∧ s.dailyLen ≤ s'.dailyLen

instance (s s' : App) : Decidable (notShorter s s') := by
  unfold notShorter; infer_instance

/-- The operations under which the selection stays within the loaded rows:
every payload has non-empty hourly and daily arrays; a forecast fetch either
happens while Live with no valid cache entry (so the indices are recomputed) or
loads a series at least as long as the one before; `fetchDataForDate` receives
at least 13 hourly rows; `selectHour` and `selectDay` receive the index of a
loaded row. -/
def Admissible (z : Zone) (s : App) : Action → Prop
  | .locate loc now series =>
    series.hasRows = true ∧
      ((s.selectedDate = none ∧
          isCacheValid { s with currentLocation := some loc } now ≠ some true) ∨
        notShorter s (step z s (.locate loc now series)))
  | .refresh now series =>
    series.hasRows = true ∧
      ((s.selectedDate = none ∧
          isCacheValid { s with cache := { s.cache with timestamp := 0 } } now ≠ some true) ∨
        notShorter s (step z s (.refresh now series)))
  | .jumpToDate series => series.hasRows = true ∧ 13 ≤ series.hourlyRows
  | .goToNow _ => True
  | .selectHour index => 0 ≤ index ∧ index < s.hourlyLen
  | .selectDay index => 0 ≤ index ∧ index < s.dailyLen
  | .navigateHour _ => True
  | .navigateDay _ => True

instance (z : Zone) (s : App) (a : Action) : Decidable (Admissible z s a) := by
  cases a <;> (unfold Admissible; infer_instance)

/-- Every operation of the sequence is admissible in the state it starts
from. -/
def AdmissibleRun (z : Zone) (s : App) : List Action → Prop
  | [] => True
  | a :: rest => Admissible z s a ∧ AdmissibleRun z (step z s a) rest

instance (z : Zone) (s : App) (acts : List Action) : Decidable (AdmissibleRun z s acts) := by
  induction acts generalizing s with
  | nil => unfold AdmissibleRun; infer_instance
  | cons a rest ih => unfold AdmissibleRun; exact instDecidableAnd

/-- A payload for a single date with only six hourly rows. -/
def shortDayData : WeatherData :=
  { hourly := some { time := exampleHourly.take 6 }, daily := some { time := [utc 2024 1 1 0] } }

/-- The payload of a `fetchDataForDate` request for 2 January 2024. -/
def secondDayData : WeatherData :=
  { hourly := some { time := exampleHourly.drop 24 }, daily := some { time := [utc 2024 1 2 0] } }

/-- The invariant carried along admissible runs: each index is non-negative
and either 0 or the index of a loaded row, and every payload held (loaded or
cached) has non-empty hourly and daily arrays. -/
def SelectionInvariant (s : App) : Prop :=
  0 ≤ s.selectedHourIndex ∧ (s.selectedHourIndex = 0 ∨ s.selectedHourIndex < s.hourlyLen) ∧
    0 ≤ s.selectedDayIndex ∧ (s.selectedDayIndex = 0 ∨ s.selectedDayIndex < s.dailyLen) ∧
    (∀ w, s.weatherData = some w → w.hasRows = true) ∧
    (∀ w, s.cache.weatherData = some w → w.hasRows = true)

/-! ## The periodic tick and the selected row -/

/-- Method `updateTime()` with `new Date()` returning `now`.  It returns at once
when `selectedDate` is set; otherwise it formats `now` and writes the text into
the element `currentTime`.  No field of `this` is assigned on either path. -/
def updateTime (s : App) (_now : Instant) : App :=
  match s.selectedDate with
  | some _ => s
  | none => s

/-- Reading `array?.[idx]` from a parallel array of the payload. -/
def readArray (a : NumArray) (idx : Int) : Val :=
  match a with
  | none => Val.undefined
  | some xs =>
    match getAt xs idx with
    | none => Val.undefined
    | some none => Val.null
    | some (some x) => Val.num x

/-- Method `getSelectedHourData()`. -/
def getSelectedHourData (s : App) : HourRow :=
  match s.weatherData with
  | none => {}
  | some w =>
    match w.hourly with
    | none =>
      match w.current with
      | some current => current
      | none => {}
    | some h =>
      let idx := min (max s.selectedHourIndex 0) ((h.time.length : Int) - 1)
      { temperature_2m := readArray h.temperature_2m idx
        apparent_temperature := readArray h.apparent_temperature idx
        relative_humidity_2m := readArray h.relative_humidity_2m idx
        weather_code := readArray h.weather_code idx
        pressure_msl := readArray h.pressure_msl idx
        wind_speed_10m := readArray h.wind_speed_10m idx
        wind_direction_10m := readArray h.wind_direction_10m idx
        visibility := readArray h.visibility idx
        uv_index := readArray h.uv_index idx
        cloud_cover := readArray h.cloud_cover idx
        is_day := readArray h.is_day idx
        time := getAt h.time idx }

/-- The composite row of an hourly series at index `idx`: the element of each
parallel array at that index. -/
def compositeRow (h : Hourly) (idx : Int) : HourRow :=
  { temperature_2m := readArray h.temperature_2m idx
    apparent_temperature := readArray h.apparent_temperature idx
    relative_humidity_2m := readArray h.relative_humidity_2m idx
    weather_code := readArray h.weather_code idx
    pressure_msl := readArray h.pressure_msl idx
    wind_speed_10m := readArray h.wind_speed_10m idx
    wind_direction_10m := readArray h.wind_direction_10m idx
    visibility := readArray h.visibility idx
    uv_index := readArray h.uv_index idx
    cloud_cover := readArray h.cloud_cover idx
    is_day := readArray h.is_day idx
    time := getAt h.time idx }

/-- The sentinel "unknown" row: every field `undefined`. -/
def unknownRow : HourRow := {}

/-! ## Statement-side notions for the cache and the selection -/

/-- A number rounded to `digits` decimal places (ties away from zero, as
`toFixed` rounds), as a number. -/
def roundedTo (digits : Nat) (x : ℚ) : ℚ :=
  (if x < 0 then -1 else 1) * ((⌊|x| * (10 : ℚ) ^ digits + 1 / 2⌋ : Int) : ℚ) / (10 : ℚ) ^ digits

/-- The contract of `isValid(candidateLocation)` in the words of the
specification: a series and a location are stored, the stored latitude and
longitude each equal the candidate's when rounded to 4 decimal places, and the
entry is younger than 5 minutes. -/
def isValidSpec (c : Cache) (candidate : Location) (now : Int) : Prop :=
  c.weatherData ≠ none ∧
    (∃ stored, c.locationData = some stored ∧
      roundedTo 4 stored.latitude = roundedTo 4 candidate.latitude ∧
      roundedTo 4 stored.longitude = roundedTo 4 candidate.longitude) ∧
    now - c.timestamp < 5 * 60 * 1000

/-- The hourly row at `selectedHourIndex` exists and falls on the calendar day
of `selectedDate`, both read through the local-time getters. -/
def hourOnSelectedDate (z : Zone) (s : App) : Prop :=
  ∃ (d t : Instant), s.selectedDate = some d ∧
    (s.hourlyTime.bind fun ts => getAt ts s.selectedHourIndex) = some t ∧
    sameCalendarDay z t d

instance (z : Zone) (s : App) : Decidable (hourOnSelectedDate z s) :=
  match hd : s.selectedDate, ht : (s.hourlyTime.bind fun ts => getAt ts s.selectedHourIndex) with
  | some d, some t =>
    if h : sameCalendarDay z t d then isTrue ⟨d, t, hd, ht, h⟩
    else isFalse (fun ⟨d', t', h1, h2, h3⟩ => by
      rw [hd] at h1; rw [ht] at h2
      cases h1; cases h2
      exact h h3)
  | none, _ => isFalse (fun ⟨d', t', h1, h2, h3⟩ => by rw [hd] at h1; cases h1)
  | _, none => isFalse (fun ⟨d', t', h1, h2, h3⟩ => by rw [ht] at h2; cases h2)

/-! ## Further concrete data -/

/-- A location a metre south of the equator. -/
def southOfEquator : Location := { latitude := -1 / 100000, longitude := 775946 / 10000 }

/-- A location a metre north of the equator, on the same meridian. -/
def northOfEquator : Location := { latitude := 1 / 100000, longitude := 775946 / 10000 }

/-- A second location: the first example's latitude moved by 0.0001. -/
def nearbyLocation : Location := { latitude := 129717 / 10000, longitude := 775946 / 10000 }

/-- A payload with the 24 hourly rows of 1 January 2024 but daily rows for
1 and 2 January. -/
def missingSecondDayData : WeatherData :=
  { hourly := some { time := exampleHourly.take 24 }, daily := some { time := exampleDaily } }

/-- A payload with two hourly rows and their temperatures. -/
def twoRowData : WeatherData :=
  { hourly := some
      { time := exampleHourly.take 2
        temperature_2m := some [some 10, some 20] }
    daily := some { time := [utc 2024 1 1 0] } }

/-- The state after the two-row payload arrived. -/
def twoRowApp : App :=
  selectLocation exampleZone App.init exampleLocation (localIST 2024 1 1 0) (some twoRowData)

/-- The state after the payload without hourly rows for its second day
arrived, at 10:00 local time on 1 January 2024. -/
def missingSecondDayApp : App :=
  selectLocation exampleZone App.init exampleLocation (localIST 2024 1 1 10)
    (some missingSecondDayData)

/-! ## The weather code table -/

/-- The values of the `sunVisible` field of a table entry: `true`, `false`,
`"dimmed"` and `"intermittent"`. -/
inductive SunVisible where
  | yes
  | no
  | dimmed
  | intermittent
deriving DecidableEq, Repr

/-- An entry of `this.weatherCodes`. -/
structure WeatherInfo where
  icon : String
  desc : String
  bg : String
  effects : List String
  sunVisible : SunVisible
deriving DecidableEq, Repr

/-- The object `this.weatherCodes` built by the constructor, read at an
integer key: `none` stands for `undefined`. -/
def weatherCodes : Int → Option WeatherInfo
  | 0 => some {
      icon := "☀️", desc := "Clear sky", bg := "clear",
      effects := ["sun-rays"], sunVisible := SunVisible.yes }
  | 1 => some {
      icon := "🌤️", desc := "Mainly clear", bg := "clear",
      effects := ["sun-rays"], sunVisible := SunVisible.yes }
  | 2 => some {
      icon := "⛅", desc := "Partly cloudy", bg := "partly-cloudy",
      effects := ["moving-clouds"], sunVisible := SunVisible.intermittent }
  | 3 => some {
      icon := "☁️", desc := "Overcast", bg := "cloudy",
      effects := ["dense-clouds"], sunVisible := SunVisible.no }
  | 45 => some {
      icon := "🌫️", desc := "Fog", bg := "foggy",
      effects := ["fog"], sunVisible := SunVisible.dimmed }
  | 48 => some {
      icon := "🌫️", desc := "Depositing rime fog", bg := "foggy",
      effects := ["fog", "frost"], sunVisible := SunVisible.dimmed }
  | 51 => some {
      icon := "🌦️", desc := "Light drizzle", bg := "rainy",
      effects := ["moderate-rain"], sunVisible := SunVisible.no }
  | 53 => some {
      icon := "🌦️", desc := "Moderate drizzle", bg := "rainy",
      effects := ["moderate-rain"], sunVisible := SunVisible.no }
  | 55 => some {
      icon := "🌧️", desc := "Dense drizzle", bg := "rainy",
      effects := ["heavy-rain"], sunVisible := SunVisible.no }
  | 56 => some {
      icon := "🌧️", desc := "Light freezing drizzle", bg := "snowy",
      effects := ["light-snow", "frost"], sunVisible := SunVisible.dimmed }
  | 57 => some {
      icon := "🌨️", desc := "Dense freezing drizzle", bg := "snowy",
      effects := ["heavy-snow", "frost"], sunVisible := SunVisible.no }
  | 61 => some {
      icon := "🌦️", desc := "Slight rain", bg := "rainy",
      effects := ["moderate-rain"], sunVisible := SunVisible.no }
  | 63 => some {
      icon := "🌧️", desc := "Moderate rain", bg := "rainy",
      effects := ["moderate-rain"], sunVisible := SunVisible.no }
  | 65 => some {
      icon := "🌧️", desc := "Heavy rain", bg := "rainy",
      effects := ["heavy-rain"], sunVisible := SunVisible.no }
  | 66 => some {
      icon := "🌨️", desc := "Light freezing rain", bg := "snowy",
      effects := ["light-snow", "frost"], sunVisible := SunVisible.no }
  | 67 => some {
      icon := "❄️", desc := "Heavy freezing rain", bg := "snowy",
      effects := ["heavy-snow", "frost"], sunVisible := SunVisible.no }
  | 71 => some {
      icon := "🌨️", desc := "Slight snow", bg := "snowy",
      effects := ["light-snow"], sunVisible := SunVisible.dimmed }
  | 73 => some {
      icon := "🌨️", desc := "Moderate snow", bg := "snowy",
      effects := ["moderate-snow"], sunVisible := SunVisible.no }
  | 75 => some {
      icon := "❄️", desc := "Heavy snow", bg := "snowy",
      effects := ["heavy-snow"], sunVisible := SunVisible.no }
  | 77 => some {
      icon := "❄️", desc := "Snow grains", bg := "snowy",
      effects := ["moderate-snow"], sunVisible := SunVisible.no }
  | 80 => some {
      icon := "🌦️", desc := "Slight rain showers", bg := "rainy",
      effects := ["moderate-rain"], sunVisible := SunVisible.no }
  | 81 => some {
      icon := "🌧️", desc := "Moderate rain showers", bg := "rainy",
      effects := ["moderate-rain"], sunVisible := SunVisible.no }
  | 82 => some {
      icon := "⛈️", desc := "Violent rain showers", bg := "rainy",
      effects := ["heavy-rain"], sunVisible := SunVisible.no }
  | 85 => some {
      icon := "🌨️", desc := "Slight snow showers", bg := "snowy",
      effects := ["light-snow"], sunVisible := SunVisible.dimmed }
  | 86 => some {
      icon := "❄️", desc := "Heavy snow showers", bg := "snowy",
      effects := ["heavy-snow"], sunVisible := SunVisible.no }
  | 95 => some {
      icon := "⛈️", desc := "Thunderstorm", bg := "thunderstorm",
      effects := ["heavy-rain", "lightning", "thunder", "stormy-rain"], sunVisible := SunVisible.no }
  | 96 => some {
      icon := "⛈️", desc := "Thunderstorm slight hail", bg := "thunderstorm",
      effects := ["heavy-rain", "lightning", "thunder", "stormy-rain"], sunVisible := SunVisible.no }
  | 99 => some {
      icon := "⛈️", desc := "Thunderstorm heavy hail", bg := "thunderstorm",
      effects := ["heavy-rain", "lightning", "thunder", "stormy-rain"], sunVisible := SunVisible.no }
  | _ => none

/-- The keys of `this.weatherCodes`, in the order the constructor lists them. -/
def mappedCodes : List Int :=
  [0, 1, 2, 3, 45, 48, 51, 53, 55, 56, 57, 61, 63, 65, 66, 67, 71, 73, 75, 77, 80, 81, 82, 85, 86, 95, 96, 99]

/-- Reading `this.weatherCodes[key]`: the property name is the rendering of
`key` as a string, which names an entry only when `key` is a number with an
integer value. -/
def weatherCodesAt (key : Val) : Option WeatherInfo :=
  match key with
  | Val.num x => if x.den = 1 then weatherCodes x.num else none
  | _ => none

/-- The expression `this.weatherCodes[key] || this.weatherCodes[0]` of the
renderers. -/
def lookupWeatherCode (key : Val) : Option WeatherInfo :=
  match weatherCodesAt key with
  | some info => some info
  | none => weatherCodes 0

/-! ## Sun and moon -/

/-- Method `updateCelestialBodies(weatherCode, isDay, time, cloudCover)`: the
opacity it gives the sun element when the document has one, `none` if reading
`info.sunVisible` threw.  At night the sun is given opacity 0.  The argument
`time` only positions the sun and the moon and is left out. -/
def updateCelestialBodies (weatherCode : ℚ) (isDay : Bool) (cloudCover : ℚ) : Option ℚ :=
  match lookupWeatherCode (Val.num weatherCode) with
  | none => none
  | some info =>
    if isDay then
      match info.sunVisible with
      | SunVisible.no => some 0
      | SunVisible.dimmed => some (3 / 10)
      | SunVisible.intermittent => some (if cloudCover > 70 then 2 / 10 else 8 / 10)
      | SunVisible.yes => some 1
    else some 0

/-! ## Weather insights -/

/-- The expression `a ?? b`. -/
def Val.orElse (a b : Val) : Val :=
  match a with
  | Val.undefined => b
  | Val.null => b
  | Val.num x => Val.num x

/-- The expression `v || d` for a numeric default `d`: `undefined`, `null`
and `0` are falsy. -/
def Val.orNumber (v : Val) (d : ℚ) : ℚ :=
  match v with
  | Val.num x => if x = 0 then d else x
  | _ => d

/-- The insight objects `generateWeatherInsights` can push, one for each
title; the `content` text of an insight is not modelled. -/
inductive Insight where
  | temperatureFeel
  | uvProtection
  | strongWinds
  | breezyConditions
  | veryPoorVisibility
  | reducedVisibility
  | thunderstormSafety
  | winterConditions
  | rainyWeather
  | weekAhead
deriving DecidableEq, Repr

/-- The `title` of an insight. -/
def Insight.title : Insight → String
  | temperatureFeel => "Temperature Feel"
  | uvProtection => "UV Protection"
  | strongWinds => "Strong Winds"
  | breezyConditions => "Breezy Conditions"
  | veryPoorVisibility => "Very Poor Visibility"
  | reducedVisibility => "Reduced Visibility"
  | thunderstormSafety => "Thunderstorm Safety"
  | winterConditions => "Winter Conditions"
  | rainyWeather => "Rainy Weather"
  | weekAhead => "Week Ahead"

/-- Method `generateWeatherInsights()`: the insights it returns, in order;
`none` when reading `this.weatherData.current` throws because no payload is
loaded. -/
def generateWeatherInsights (s : App) : Option (List Insight) :=
  match s.weatherData with
  | none => none
  | some w =>
    let sel := getSelectedHourData s
    let cur : HourRow := match w.current with
      | some current => current
      | none => {}
    let insights : List Insight := []
    let temp := (sel.temperature_2m.orElse cur.temperature_2m).orNumber 0
    let feels := (sel.apparent_temperature.orElse cur.apparent_temperature).orNumber 0
    let insights :=
      if |temp - feels| ≥ 3 then insights ++ [Insight.temperatureFeel] else insights
    let uvi := (sel.uv_index.orElse cur.uv_index).orNumber 0
    let insights := if uvi ≥ 6 then insights ++ [Insight.uvProtection] else insights
    let wind := (sel.wind_speed_10m.orElse cur.wind_speed_10m).orNumber 0
    let insights :=
      if wind ≥ 25 then insights ++ [Insight.strongWinds]
      else if wind ≥ 15 then insights ++ [Insight.breezyConditions]
      else insights
    let visKm := (sel.visibility.orElse cur.visibility).orNumber 10000 / 1000
    let insights :=
      if visKm < 1 then insights ++ [Insight.veryPoorVisibility]
      else if visKm < 5 then insights ++ [Insight.reducedVisibility]
      else insights
    let code := sel.weather_code.orNumber 0
    let insights :=
      if code = 95 ∨ code = 96 ∨ code = 99 then insights ++ [Insight.thunderstormSafety]
      else if code ≥ 71 ∧ code ≤ 77 then insights ++ [Insight.winterConditions]
      else if (code ≥ 61 ∧ code ≤ 67) ∨ (code ≥ 80 ∧ code ≤ 82) then
        insights ++ [Insight.rainyWeather]
      else insights
    let maxs : List (Option ℚ) := match w.daily with
      | some daily => daily.temperature_2m_max.getD []
      | none => []
    let mins : List (Option ℚ) := match w.daily with
      | some daily => daily.temperature_2m_min.getD []
      | none => []
    let insights :=
      if maxs.length ≠ 0 ∧ mins.length ≠ 0 then insights ++ [Insight.weekAhead] else insights
    some (insights.take 4)

/-! ### The rules of the insight list, one by one -/

/-- The position of the rule an insight belongs to, in rule order:
temperature feel, UV, wind, visibility, weather code, week ahead. -/
def Insight.rule : Insight → Nat
  | temperatureFeel => 0
  | uvProtection => 1
  | strongWinds => 2
  | breezyConditions => 2
  | veryPoorVisibility => 3
  | reducedVisibility => 3
  | thunderstormSafety => 4
  | winterConditions => 4
  | rainyWeather => 4
  | weekAhead => 5

/-- The temperature-feel rule: actual and apparent temperature differ by 3
degrees or more. -/
def temperatureFeelRule (sel cur : HourRow) : Option Insight :=
  if |(sel.temperature_2m.orElse cur.temperature_2m).orNumber 0
      - (sel.apparent_temperature.orElse cur.apparent_temperature).orNumber 0| ≥ 3 then
    some Insight.temperatureFeel
  else none

/-- The UV rule: UV index 6 or more. -/
def uvRule (sel cur : HourRow) : Option Insight :=
  if (sel.uv_index.orElse cur.uv_index).orNumber 0 ≥ 6 then some Insight.uvProtection else none

/-- The wind rule: 25 km/h or more, else 15 km/h or more. -/
def windRule (sel cur : HourRow) : Option Insight :=
  if (sel.wind_speed_10m.orElse cur.wind_speed_10m).orNumber 0 ≥ 25 then
    some Insight.strongWinds
  else if (sel.wind_speed_10m.orElse cur.wind_speed_10m).orNumber 0 ≥ 15 then
    some Insight.breezyConditions
  else none

/-- The visibility rule: below 1 km, else below 5 km, of the visibility in
metres with 10000 standing in for a missing or zero reading. -/
def visibilityRule (sel cur : HourRow) : Option Insight :=
  if (sel.visibility.orElse cur.visibility).orNumber 10000 / 1000 < 1 then
    some Insight.veryPoorVisibility
  else if (sel.visibility.orElse cur.visibility).orNumber 10000 / 1000 < 5 then
    some Insight.reducedVisibility
  else none

/-- The weather-code rule: thunderstorm codes, else snow codes, else rain
codes. -/
def weatherCodeRule (sel : HourRow) : Option Insight :=
  if sel.weather_code.orNumber 0 = 95 ∨ sel.weather_code.orNumber 0 = 96 ∨
      sel.weather_code.orNumber 0 = 99 then some Insight.thunderstormSafety
  else if sel.weather_code.orNumber 0 ≥ 71 ∧ sel.weather_code.orNumber 0 ≤ 77 then
    some Insight.winterConditions
  else if (sel.weather_code.orNumber 0 ≥ 61 ∧ sel.weather_code.orNumber 0 ≤ 67) ∨
      (sel.weather_code.orNumber 0 ≥ 80 ∧ sel.weather_code.orNumber 0 ≤ 82) then
    some Insight.rainyWeather
  else none

/-- The week-ahead rule: the daily maxima and minima are both non-empty. -/
def weekAheadRule (daily : Option Daily) : Option Insight :=
  match daily with
  | some d =>
    if (d.temperature_2m_max.getD []).length ≠ 0 ∧ (d.temperature_2m_min.getD []).length ≠ 0 then
      some Insight.weekAhead
    else none
  | none => none

/-- The `current` block of a payload, or the empty object. -/
def currentOrEmpty (w : WeatherData) : HourRow :=
  match w.current with
  | some current => current
  | none => {}

/-- The insights triggered by the first four rules, in rule order. -/
def earlierInsights (s : App) (w : WeatherData) : List Insight :=
  [temperatureFeelRule (getSelectedHourData s) (currentOrEmpty w),
    uvRule (getSelectedHourData s) (currentOrEmpty w),
    windRule (getSelectedHourData s) (currentOrEmpty w),
    visibilityRule (getSelectedHourData s) (currentOrEmpty w)].reduceOption

/-- The insights triggered by the six rules, in rule order. -/
def triggeredInsights (s : App) (w : WeatherData) : List Insight :=
  [temperatureFeelRule (getSelectedHourData s) (currentOrEmpty w),
    uvRule (getSelectedHourData s) (currentOrEmpty w),
    windRule (getSelectedHourData s) (currentOrEmpty w),
    visibilityRule (getSelectedHourData s) (currentOrEmpty w),
    weatherCodeRule (getSelectedHourData s),
    weekAheadRule w.daily].reduceOption

/-- A one-row payload: a hot, windy thunderstorm hour in poor visibility. -/
def stormData : WeatherData :=
  { hourly := some
      { time := exampleHourly.take 1
        temperature_2m := some [some 30]
        apparent_temperature := some [some 35]
        weather_code := some [some 95]
        wind_speed_10m := some [some 30]
        visibility := some [some 500]
        uv_index := some [some 7] }
    daily := some
      { time := [utc 2024 1 1 0]
        temperature_2m_max := some [some 36]
        temperature_2m_min := some [some 24] } }

/-- The state after the storm payload arrived. -/
def stormApp : App :=
  selectLocation exampleZone App.init exampleLocation (localIST 2024 1 1 0) (some stormData)

/-- A one-row payload: a thunderstorm hour with mild temperature, low UV,
light wind and clear air. -/
def mildStormData : WeatherData :=
  { hourly := some
      { time := exampleHourly.take 1
        temperature_2m := some [some 20]
        apparent_temperature := some [some 20]
        weather_code := some [some 95]
        wind_speed_10m := some [some 5]
        visibility := some [some 20000]
        uv_index := some [some 2] }
    daily := some
      { time := [utc 2024 1 1 0]
        temperature_2m_max := some [some 22]
        temperature_2m_min := some [some 15] } }

/-- The state after the mild storm payload arrived. -/
def mildStormApp : App :=
  selectLocation exampleZone App.init exampleLocation (localIST 2024 1 1 0) (some mildStormData)

/-- A one-row payload: an hour with visibility 0 metres and a wind of
20 km/h. -/
def zeroVisibilityData : WeatherData :=
  { hourly := some
      { time := exampleHourly.take 1
        temperature_2m := some [some 5]
        apparent_temperature := some [some 4]
        weather_code := some [some 45]
        wind_speed_10m := some [some 20]
        visibility := some [some 0]
        uv_index := some [some 1] }
    daily := some { time := [utc 2024 1 1 0] } }

/-- The state after the zero-visibility payload arrived. -/
def zeroVisibilityApp : App :=
  selectLocation exampleZone App.init exampleLocation (localIST 2024 1 1 0)
    (some zeroVisibilityData)

/-! ## Numbers as the `Math` functions see them -/

/-- A number value: finite, `NaN`, `Infinity` or `-Infinity`. -/
inductive JSNum where
  | fin (x : ℚ)
  | nan
  | posInf
  | negInf
deriving DecidableEq, Repr

/-- The number a value read from the payload converts to: `undefined` gives
`NaN`, `null` gives 0. -/
def Val.toNumber : Val → JSNum
  | Val.undefined => JSNum.nan
  | Val.null => JSNum.fin 0
  | Val.num x => JSNum.fin x

/-- The number an array element converts to: `null` gives 0. -/
def elementToNumber : Option ℚ → JSNum
  | none => JSNum.fin 0
  | some x => JSNum.fin x

/-- The larger of two number values; `NaN` if either is `NaN`. -/
def JSNum.larger : JSNum → JSNum → JSNum
  | JSNum.nan, _ => JSNum.nan
  | _, JSNum.nan => JSNum.nan
  | JSNum.posInf, _ => JSNum.posInf
  | _, JSNum.posInf => JSNum.posInf
  | JSNum.negInf, b => b
  | a, JSNum.negInf => a
  | JSNum.fin x, JSNum.fin y => JSNum.fin (if x ≤ y then y else x)

/-- The smaller of two number values; `NaN` if either is `NaN`. -/
def JSNum.smaller : JSNum → JSNum → JSNum
  | JSNum.nan, _ => JSNum.nan
  | _, JSNum.nan => JSNum.nan
  | JSNum.negInf, _ => JSNum.negInf
  | _, JSNum.negInf => JSNum.negInf
  | JSNum.posInf, b => b
  | a, JSNum.posInf => a
  | JSNum.fin x, JSNum.fin y => JSNum.fin (if x ≤ y then x else y)

/-- The call `Math.max(...xs)`: `-Infinity` for no arguments. -/
def mathMax (xs : List JSNum) : JSNum := xs.foldl JSNum.larger JSNum.negInf

/-- The call `Math.min(...xs)`: `Infinity` for no arguments. -/
def mathMin (xs : List JSNum) : JSNum := xs.foldl JSNum.smaller JSNum.posInf

/-- The call `Math.round(x)`: the integer nearest to `x`, ties towards
`+Infinity`. -/
def mathRound : JSNum → JSNum
  | JSNum.fin x => JSNum.fin ((⌊x + 1 / 2⌋ : Int) : ℚ)
  | JSNum.nan => JSNum.nan
  | JSNum.posInf => JSNum.posInf
  | JSNum.negInf => JSNum.negInf

/-- The comparison `a === b` of two number values: `NaN` equals nothing. -/
def strictEq (a b : JSNum) : Bool :=
  match a, b with
  | JSNum.nan, _ => false
  | _, JSNum.nan => false
  | a, b => decide (a = b)

/-- The index an argument of `slice` denotes in an array of length `len`. -/
def sliceIndex (len : Nat) (k : Int) : Nat :=
  if k < 0 then ((len : Int) + k).toNat else min k.toNat len

/-- The call `xs.slice(start, stop)`. -/
def slice {α : Type} (xs : List α) (start stop : Int) : List α :=
  (xs.drop (sliceIndex xs.length start)).take
    (sliceIndex xs.length stop - sliceIndex xs.length start)

/-! ## The forecast strips -/

/-- The tag next to the temperature of an hourly card: the fire sign, the
snowflake, or nothing. -/
inductive Badge where
  | high
  | low
  | absent
deriving DecidableEq, Repr

/-- What `renderHourlyForecast` puts on the card of row `index`: the
`selected` class, whether the label reads `Now`, the temperature and the tag.
The label text, the icon and the precipitation figure are not modelled. -/
structure HourCard where
  index : Int
  selected : Bool
  isCurrent : Bool
  temp : Val
  badge : Badge
deriving DecidableEq, Repr

/-- The `for` loop of `renderHourlyForecast` that looks for the first row on
the day of `target`, entered at index `i` with the remaining elements of
`times`; `0`, the initial `startIndex`, when the loop runs to its end. -/
def renderHourlyForecastLoop (z : Zone) (target : Instant) : List Instant → Nat → Int
  | [], _ => 0
  | t :: rest, i =>
    if getDate z t = getDate z target ∧ getMonth z t = getMonth z target ∧
        getFullYear z t = getFullYear z target then (i : Int)
    else renderHourlyForecastLoop z target rest (i + 1)

/-- The value `renderHourlyForecast` gives `startIndex`. -/
def hourlyStartIndex (z : Zone) (s : App) (now : Instant) (hourly : Hourly) : Int :=
  match s.selectedDate with
  | some target => renderHourlyForecastLoop z target hourly.time 0
  | none => max 0 (getCurrentHourIndex z s now)

/-- The value `renderHourlyForecast` gives `extremesTag` for a card. -/
def extremesTag (temp : Val) (dailyHigh dailyLow : JSNum) : Badge :=
  if strictEq (mathRound temp.toNumber) (mathRound dailyHigh) then Badge.high
  else if strictEq (mathRound temp.toNumber) (mathRound dailyLow) then Badge.low
  else Badge.absent

/-- Method `renderHourlyForecast()` with `new Date()` returning `now`: the
cards it appends to the emptied container, in order.  Without a payload or an
hourly block the container is left empty.  The result is `none` when
`hourly.temperature_2m.slice` throws because the array is absent. -/
def renderHourlyForecast (z : Zone) (s : App) (now : Instant) : Option (List HourCard) :=
  match s.weatherData with
  | none => some []
  | some w =>
    match w.hourly with
    | none => some []
    | some hourly =>
      let startIndex := hourlyStartIndex z s now hourly
      let endIndex : Int := min (startIndex + 24) (hourly.time.length : Int)
      match hourly.temperature_2m with
      | none => none
      | some temps =>
        let dayTemps := slice temps startIndex endIndex
        let dailyHigh := mathMax (dayTemps.map elementToNumber)
        let dailyLow := mathMin (dayTemps.map elementToNumber)
        some ((List.range (endIndex - startIndex).toNat).map fun (k : Nat) =>
          { index := startIndex + (k : Int)
            selected := decide (startIndex + (k : Int) = s.selectedHourIndex)
            isCurrent :=
              match s.selectedDate, getAt hourly.time (startIndex + (k : Int)) with
              | none, some time => decide (sameCalendarHour z time now)
              | _, _ => false
            temp := readArray hourly.temperature_2m (startIndex + (k : Int))
            badge :=
              extremesTag (readArray hourly.temperature_2m (startIndex + (k : Int)))
                dailyHigh dailyLow })

/-- What `renderDailyForecast` puts on the card of day `index`: the `selected`
class and the two temperatures.  The day name, the icon, the rain and the UV
texts are not modelled. -/
structure DayCard where
  index : Int
  selected : Bool
  tHigh : Val
  tLow : Val
deriving DecidableEq, Repr

/-- Method `renderDailyForecast()`: the cards it appends to the emptied
container, in order. -/
def renderDailyForecast (s : App) : List DayCard :=
  match s.weatherData with
  | none => []
  | some w =>
    match w.daily with
    | none => []
    | some daily =>
      (List.range (min 7 daily.time.length)).map fun (i : Nat) =>
        { index := (i : Int)
          selected := decide ((i : Int) = s.selectedDayIndex)
          tHigh := readArray daily.temperature_2m_max (i : Int)
          tLow := readArray daily.temperature_2m_min (i : Int) }

/-- A payload as the forecast request asks for it: fourteen daily rows from
1 January 2024, with hourly rows at 00:00, 06:00, 12:00 and 18:00 local time
on each of those days. -/
def fortnightData : WeatherData :=
  { hourly := some
      { time := (List.range 56).map (fun k => localIST 2024 1 1 0 + (k : Int) * 6 * msPerHour) }
    daily := some
      { time := (List.range 14).map (fun d => utc 2024 1 1 0 + (d : Int) * msPerDay) } }

/-- The state after the fourteen-day payload arrived. -/
def fortnightApp : App :=
  selectLocation exampleZone App.init exampleLocation (localIST 2024 1 1 7) (some fortnightData)

/-- A payload with four hourly rows and their temperatures. -/
def fourRowData : WeatherData :=
  { hourly := some
      { time := exampleHourly.take 4
        temperature_2m := some [some (52 / 5), some (56 / 5), some (62 / 5), some (59 / 5)] }
    daily := some { time := [utc 2024 1 1 0] } }

/-- The state after the four-row payload arrived, at midnight local time. -/
def fourRowApp : App :=
  selectLocation exampleZone App.init exampleLocation (localIST 2024 1 1 0) (some fourRowData)

/-- A payload with the forty-eight hourly rows of 1 and 2 January 2024 and a
temperature for each: 10 degrees at midnight, one degree more every hour up
to noon, one degree less every hour after. -/
def twoDayData : WeatherData :=
  { hourly := some
      { time := exampleHourly
        temperature_2m := some ((List.range 48).map fun (k : Nat) =>
          some (if k % 24 ≤ 12 then (10 : ℚ) + ((k % 24 : Nat) : ℚ)
            else (34 : ℚ) - ((k % 24 : Nat) : ℚ))) }
    daily := some { time := exampleDaily } }

/-- The state after the two-day payload arrived, at 10:00 local time on
1 January 2024. -/
def twoDayApp : App :=
  selectLocation exampleZone App.init exampleLocation (localIST 2024 1 1 10) (some twoDayData)

/-! ## Basic facts about the operations -/

theorem selectHour_selectedHourIndex (z : Zone) (s : App) (index : Int) :
    (selectHour z s index).selectedHourIndex = index := by
  unfold selectHour
  simp only
  split
  · rfl
  · split
    · rfl
    · split <;> rfl

theorem selectHour_weatherData (z : Zone) (s : App) (index : Int) :
    (selectHour z s index).weatherData = s.weatherData := by
  unfold selectHour
  simp only
  split
  · rfl
  · split
    · rfl
    · split <;> rfl

theorem selectDay_selectedDayIndex (z : Zone) (s : App) (index : Int) :
    (selectDay z s index).selectedDayIndex = index := by
  unfold selectDay
  simp only
  split
  · split <;> rfl
  · rfl

theorem selectDay_weatherData (z : Zone) (s : App) (index : Int) :
    (selectDay z s index).weatherData = s.weatherData := by
  unfold selectDay
  simp only
  split
  · split <;> rfl
  · rfl

theorem selectHour_hourlyTime (z : Zone) (s : App) (index : Int) :
    (selectHour z s index).hourlyTime = s.hourlyTime := by
  simp [App.hourlyTime, selectHour_weatherData]

/-- The index `navigateHour` hands to `selectHour`, for an in-range start. -/
theorem wrap_eq_emod (i d n : Int) (h0 : 0 ≤ i) (h1 : i < n) (hd : d = 1 ∨ d = -1) :
    (if (if i + d < 0 then n - 1 else i + d) ≥ n then 0
      else (if i + d < 0 then n - 1 else i + d)) = (i + d) % n := by
  have hn : 0 < n := by omega
  rcases hd with rfl | rfl
  · by_cases hlast : i + 1 = n
    · have hr : (i + 1) % n = 0 := by rw [hlast]; exact Int.emod_self
      rw [hr]; split_ifs <;> omega
    · have hr : (i + 1) % n = i + 1 := Int.emod_eq_of_lt (by omega) (by omega)
      rw [hr]; split_ifs <;> omega
  · by_cases hfirst : i = 0
    · have hr : (i + -1) % n = n - 1 := by
        have h := @Int.add_emod_self (i + -1) n
        rw [← h, Int.emod_eq_of_lt (by omega) (by omega)]; omega
      rw [hr]; split_ifs <;> omega
    · have hr : (i + -1) % n = i + -1 := Int.emod_eq_of_lt (by omega) (by omega)
      rw [hr]; split_ifs <;> omega

theorem navigateHour_eq_selectHour (z : Zone) (s : App) (times : List Instant) (d : Int)
    (hT : s.hourlyTime = some times) (h0 : 0 ≤ s.selectedHourIndex)
    (h1 : s.selectedHourIndex < times.length) (hd : d = 1 ∨ d = -1) :
    navigateHour z s d = selectHour z s ((s.selectedHourIndex + d) % times.length) := by
  unfold navigateHour
  rw [hT]
  simp only
  rw [wrap_eq_emod _ _ _ h0 h1 hd]

theorem navigateDay_eq_selectDay (z : Zone) (s : App) (times : List Instant) (d : Int)
    (hT : s.dailyTime = some times) (h0 : 0 ≤ s.selectedDayIndex)
    (h1 : s.selectedDayIndex < times.length) (hd : d = 1 ∨ d = -1) :
    navigateDay z s d = selectDay z s ((s.selectedDayIndex + d) % times.length) := by
  unfold navigateDay
  rw [hT]
  simp only
  rw [wrap_eq_emod _ _ _ h0 h1 hd]

/-! ## Circular navigation -/

theorem navigateHour_iterate (z : Zone) (s : App) (times : List Instant)
    (hT : s.hourlyTime = some times) (h0 : 0 ≤ s.selectedHourIndex)
    (h1 : s.selectedHourIndex < times.length) (k : Nat) :
    ((fun a => navigateHour z a 1)^[k] s).hourlyTime = some times ∧
      ((fun a => navigateHour z a 1)^[k] s).selectedHourIndex =
        (s.selectedHourIndex + (k : Int)) % (times.length : Int) := by
  have hn : (0 : Int) < times.length := by omega
  induction k with
  | zero =>
    refine ⟨hT, ?_⟩
    simp only [Function.iterate_zero, id_eq, Nat.cast_zero, add_zero]
    exact (Int.emod_eq_of_lt h0 h1).symm
  | succ k ih =>
    obtain ⟨ihT, ihI⟩ := ih
    rw [Function.iterate_succ_apply']
    have hlo : 0 ≤ ((fun a => navigateHour z a 1)^[k] s).selectedHourIndex := by
      rw [ihI]; exact Int.emod_nonneg _ (by omega)
    have hhi : ((fun a => navigateHour z a 1)^[k] s).selectedHourIndex < times.length := by
      rw [ihI]; exact Int.emod_lt_of_pos _ hn
    rw [navigateHour_eq_selectHour z _ times 1 ihT hlo hhi (Or.inl rfl)]
    refine ⟨by rw [selectHour_hourlyTime]; exact ihT, ?_⟩
    rw [selectHour_selectedHourIndex, ihI, Int.emod_add_emod, Nat.cast_succ, add_assoc]

/-- C1: on a loaded forecast with `N ≥ 1` hourly rows and an in-range
`selectedHourIndex`, applying `navigateHour(+1)` exactly `N` times brings
`selectedHourIndex` back to its original value. -/
theorem navigateHour_cycle (z : Zone) (s : App) (times : List Instant)
    (hT : s.hourlyTime = some times) (h0 : 0 ≤ s.selectedHourIndex)
    (h1 : s.selectedHourIndex < times.length) :
    ((fun a => navigateHour z a 1)^[times.length] s).selectedHourIndex
      = s.selectedHourIndex := by
  rw [(navigateHour_iterate z s times hT h0 h1 times.length).2, Int.add_emod_self]
  exact Int.emod_eq_of_lt h0 h1

/-- Witness for C1: the 48-row example, started at row 10. -/
theorem navigateHour_cycle_witness :
    exampleApp.hourlyTime = some exampleHourly ∧ 0 ≤ exampleApp.selectedHourIndex ∧
      exampleApp.selectedHourIndex < exampleHourly.length ∧
      ((fun a => navigateHour exampleZone a 1)^[exampleHourly.length] exampleApp).selectedHourIndex
        = exampleApp.selectedHourIndex :=
  ⟨by decide, by decide, by decide,
    navigateHour_cycle exampleZone exampleApp exampleHourly (by decide) (by decide) (by decide)⟩

/-- C2: with `N ≥ 1` hourly rows and `0 ≤ selectedHourIndex < N`,
`navigateHour(d)` for `d = +1` or `d = -1` sets `selectedHourIndex` to
`(selectedHourIndex + d) mod N`; at index `0`, `navigateHour(-1)` yields
`N - 1`, and at index `N - 1`, `navigateHour(+1)` yields `0`. -/
theorem navigateHour_wraps (z : Zone) (s : App) (times : List Instant) (d : Int)
    (hT : s.hourlyTime = some times) (h0 : 0 ≤ s.selectedHourIndex)
    (h1 : s.selectedHourIndex < times.length) (hd : d = 1 ∨ d = -1) :
    (navigateHour z s d).selectedHourIndex = (s.selectedHourIndex + d) % (times.length : Int) ∧
      (s.selectedHourIndex = 0 →
        (navigateHour z s (-1)).selectedHourIndex = (times.length : Int) - 1) ∧
      (s.selectedHourIndex = (times.length : Int) - 1 →
        (navigateHour z s 1).selectedHourIndex = 0) := by
  refine ⟨?_, ?_, ?_⟩
  · rw [navigateHour_eq_selectHour z s times d hT h0 h1 hd, selectHour_selectedHourIndex]
  · intro hz
    rw [navigateHour_eq_selectHour z s times (-1) hT h0 h1 (Or.inr rfl),
      selectHour_selectedHourIndex, hz, ← Int.add_emod_self]
    exact Int.emod_eq_of_lt (by omega) (by omega)
  · intro hl
    rw [navigateHour_eq_selectHour z s times 1 hT h0 h1 (Or.inl rfl),
      selectHour_selectedHourIndex, hl]
    simp

/-- Witness for C2 (scenario C): `navigateHour(-1)` at row 0 of the 48-row
example. -/
theorem navigateHour_wraps_witness :
    (selectHour exampleZone exampleApp 0).hourlyTime = some exampleHourly ∧
      (selectHour exampleZone exampleApp 0).selectedHourIndex = 0 ∧
      (navigateHour exampleZone (selectHour exampleZone exampleApp 0) (-1)).selectedHourIndex
        = 47 :=
  ⟨by decide, by decide,
    (navigateHour_wraps exampleZone (selectHour exampleZone exampleApp 0) exampleHourly (-1)
      (by decide) (by decide) (by decide) (Or.inr rfl)).2.1 (by decide)⟩

/-- C3: with `D ≥ 1` daily rows and `0 ≤ selectedDayIndex < D`,
`navigateDay(d)` for `d = +1` or `d = -1` sets `selectedDayIndex` to
`(selectedDayIndex + d) mod D`, and the state it produces is the one
`selectDay` produces for that wrapped index. -/
theorem navigateDay_wraps (z : Zone) (s : App) (times : List Instant) (d : Int)
    (hT : s.dailyTime = some times) (h0 : 0 ≤ s.selectedDayIndex)
    (h1 : s.selectedDayIndex < times.length) (hd : d = 1 ∨ d = -1) :
    (navigateDay z s d).selectedDayIndex = (s.selectedDayIndex + d) % (times.length : Int) ∧
      navigateDay z s d = selectDay z s ((s.selectedDayIndex + d) % (times.length : Int)) := by
  refine ⟨?_, navigateDay_eq_selectDay z s times d hT h0 h1 hd⟩
  rw [navigateDay_eq_selectDay z s times d hT h0 h1 hd, selectDay_selectedDayIndex]

/-- Witness for C3: `navigateDay(-1)` at day 0 of the two-day example wraps
to day 1. -/
theorem navigateDay_wraps_witness :
    exampleApp.dailyTime = some exampleDaily ∧ 0 ≤ exampleApp.selectedDayIndex ∧
      exampleApp.selectedDayIndex < exampleDaily.length ∧
      (navigateDay exampleZone exampleApp (-1)).selectedDayIndex = 1 ∧
      navigateDay exampleZone exampleApp (-1) = selectDay exampleZone exampleApp 1 :=
  ⟨by decide, by decide, by decide,
    navigateDay_wraps exampleZone exampleApp exampleDaily (-1)
      (by decide) (by decide) (by decide) (Or.inr rfl)⟩

/-! ## `selectHour` and `selectDay` store their argument -/

/-- C5, as stated, fails: on the 48-row, 2-day example `selectHour(60)` leaves
`selectedHourIndex = 60 > 47` and `selectDay(-1)` leaves
`selectedDayIndex = -1 < 0`. -/
theorem select_clamp_counterexample :
    exampleApp.hourlyTime = some exampleHourly ∧ exampleApp.dailyTime = some exampleDaily ∧
      ¬ ((selectHour exampleZone exampleApp 60).selectedHourIndex
          ≤ (exampleHourly.length : Int) - 1) ∧
      ¬ (0 ≤ (selectDay exampleZone exampleApp (-1)).selectedDayIndex) := by
  decide

/-- C5, amended: `selectHour(index)` stores `index` itself in
`selectedHourIndex` and `selectDay(index)` stores `index` itself in
`selectedDayIndex`, without clamping; so the stored index lies within
`[0, n - 1]` exactly when the argument does. -/
theorem select_stores_argument (z : Zone) (s : App) (index n : Int) :
    (selectHour z s index).selectedHourIndex = index ∧
      (selectDay z s index).selectedDayIndex = index ∧
      ((0 ≤ (selectHour z s index).selectedHourIndex ∧
          (selectHour z s index).selectedHourIndex ≤ n - 1) ↔ (0 ≤ index ∧ index ≤ n - 1)) ∧
      ((0 ≤ (selectDay z s index).selectedDayIndex ∧
          (selectDay z s index).selectedDayIndex ≤ n - 1) ↔ (0 ≤ index ∧ index ≤ n - 1)) := by
  rw [selectHour_selectedHourIndex, selectDay_selectedDayIndex]
  exact ⟨rfl, rfl, Iff.rfl, Iff.rfl⟩

/-! ## Returning to the current hour -/

theorem goToCurrentWeather_fields (z : Zone) (s : App) (now : Instant) :
    (goToCurrentWeather z s now).selectedDate = none ∧
      (goToCurrentWeather z s now).selectedDayIndex = 0 ∧
      (goToCurrentWeather z s now).selectedHourIndex = getCurrentHourIndex z s now := by
  refine ⟨rfl, rfl, ?_⟩
  simp [goToCurrentWeather, getCurrentHourIndex]

/-- C8: whatever the prior selection and the loaded series,
`goToCurrentWeather` leaves `selectedDate = null`, `selectedDayIndex = 0` and
`selectedHourIndex = getCurrentHourIndex()` evaluated at the current
instant. -/
theorem goToCurrentWeather_selection (z : Zone) (s : App) (now : Instant) :
    (goToCurrentWeather z s now).selectedDate = none ∧
      (goToCurrentWeather z s now).selectedDayIndex = 0 ∧
      (goToCurrentWeather z s now).selectedHourIndex = getCurrentHourIndex z s now :=
  goToCurrentWeather_fields z s now

/-! ## First-match scans -/

theorem exists_first {α : Type} (p : α → Prop) (xs : List α)
    (h : ∃ (k : Nat) (x : α), xs[k]? = some x ∧ p x) :
    ∃ (k : Nat) (x : α), xs[k]? = some x ∧ p x ∧
      ∀ (m : Nat) (x' : α), m < k → xs[m]? = some x' → ¬ p x' := by
  classical
  have h' : ∃ (k : Nat), ∃ x, xs[k]? = some x ∧ p x := h
  obtain ⟨x, hx, hp⟩ := Nat.find_spec h'
  refine ⟨Nat.find h', x, hx, hp, ?_⟩
  intro m x' hm hx' hp'
  exact Nat.find_min h' hm ⟨x', hx', hp'⟩

theorem getCurrentHourIndexLoop_found (z : Zone) (now : Instant) :
    ∀ (ts : List Instant) (i k : Nat) (t : Instant), ts[k]? = some t →
      sameCalendarHour z t now →
      (∀ (m : Nat) (t' : Instant), m < k → ts[m]? = some t' → ¬ sameCalendarHour z t' now) →
      getCurrentHourIndexLoop z now ts i = ((i + k : Nat) : Int) := by
  intro ts
  induction ts with
  | nil => intro i k t hk; simp at hk
  | cons a rest ih =>
    intro i k t hk hp hmin
    cases k with
    | zero =>
      simp only [List.getElem?_cons_zero, Option.some.injEq] at hk
      subst hk
      have hp' := hp
      unfold sameCalendarHour at hp'
      simp [getCurrentHourIndexLoop, hp']
    | succ k =>
      have ha : ¬ sameCalendarHour z a now := hmin 0 a (Nat.succ_pos k) (by simp)
      unfold sameCalendarHour at ha
      simp only [getCurrentHourIndexLoop, ha, if_false]
      rw [ih (i + 1) k t (by simpa using hk) hp
        (fun m t' hm ht' => hmin (m + 1) t' (by omega) (by simpa using ht'))]
      congr 1; omega

theorem getCurrentHourIndexLoop_none (z : Zone) (now : Instant) :
    ∀ (ts : List Instant) (i : Nat),
      (∀ (k : Nat) (t : Instant), ts[k]? = some t → ¬ sameCalendarHour z t now) →
      getCurrentHourIndexLoop z now ts i = 0 := by
  intro ts
  induction ts with
  | nil => intro i _; rfl
  | cons a rest ih =>
    intro i hno
    have ha : ¬ sameCalendarHour z a now := hno 0 a (by simp)
    unfold sameCalendarHour at ha
    simp only [getCurrentHourIndexLoop, ha, if_false]
    exact ih (i + 1) (fun k t hk => hno (k + 1) t (by simpa using hk))

theorem getCurrentHourIndex_of_hourlyTime (z : Zone) (s : App) (now : Instant)
    (times : List Instant) (hT : s.hourlyTime = some times) :
    getCurrentHourIndex z s now = getCurrentHourIndexLoop z now times 0 := by
  unfold App.hourlyTime at hT
  unfold getCurrentHourIndex
  cases hw : s.weatherData with
  | none => simp [hw] at hT
  | some w =>
    cases hh : w.hourly with
    | none => simp [hw, hh] at hT
    | some hourly =>
      simp [hw, hh] at hT
      simp only [hh, hT]

theorem getCurrentHourIndex_of_no_hourlyTime (z : Zone) (s : App) (now : Instant)
    (hT : s.hourlyTime = none) : getCurrentHourIndex z s now = 0 := by
  unfold App.hourlyTime at hT
  unfold getCurrentHourIndex
  cases hw : s.weatherData with
  | none => rfl
  | some w =>
    cases hh : w.hourly with
    | none => simp only [hh]
    | some hourly => simp [hw, hh] at hT

/-- C10: `getCurrentHourIndex` returns the smallest index whose timestamp has
the same year, month, day and hour as the instant, when some row matches; it
returns `0` when no row matches and when no hourly series is loaded. -/
theorem getCurrentHourIndex_spec (z : Zone) (s : App) (now : Instant) :
    (s.hourlyTime = none → getCurrentHourIndex z s now = 0) ∧
      (∀ times, s.hourlyTime = some times →
        ((∃ (k : Nat) (t : Instant), times[k]? = some t ∧ sameCalendarHour z t now) →
          ∃ (k : Nat) (t : Instant), getCurrentHourIndex z s now = (k : Int) ∧
            times[k]? = some t ∧ sameCalendarHour z t now ∧
            ∀ (m : Nat) (t' : Instant), m < k → times[m]? = some t' →
              ¬ sameCalendarHour z t' now) ∧
        ((∀ (k : Nat) (t : Instant), times[k]? = some t → ¬ sameCalendarHour z t now) →
          getCurrentHourIndex z s now = 0)) := by
  refine ⟨getCurrentHourIndex_of_no_hourlyTime z s now, ?_⟩
  intro times hT
  rw [getCurrentHourIndex_of_hourlyTime z s now times hT]
  refine ⟨?_, getCurrentHourIndexLoop_none z now times 0⟩
  intro hex
  obtain ⟨k, t, hk, hp, hmin⟩ := exists_first (fun t => sameCalendarHour z t now) times hex
  refine ⟨k, t, ?_, hk, hp, hmin⟩
  rw [getCurrentHourIndexLoop_found z now times 0 k t hk hp hmin]
  simp

/-- Witness for C10 (scenario A): 24 hourly rows, the clock at 10:25 local
time; the result is row 10, whose hour of day is 10. -/
theorem getCurrentHourIndex_spec_witness :
    scenarioAApp.hourlyTime = some (exampleHourly.take 24) ∧
      (∃ (k : Nat) (t : Instant),
        getCurrentHourIndex exampleZone scenarioAApp (localIST 2024 1 1 10 + 25 * 60000)
          = (k : Int) ∧
        (exampleHourly.take 24)[k]? = some t ∧
        sameCalendarHour exampleZone t (localIST 2024 1 1 10 + 25 * 60000) ∧
        ∀ (m : Nat) (t' : Instant), m < k → (exampleHourly.take 24)[m]? = some t' →
          ¬ sameCalendarHour exampleZone t' (localIST 2024 1 1 10 + 25 * 60000)) ∧
      getCurrentHourIndex exampleZone scenarioAApp (localIST 2024 1 1 10 + 25 * 60000) = 10 ∧
      (exampleHourly.take 24)[10]?.map (getHours exampleZone) = some 10 :=
  ⟨by decide,
    ((getCurrentHourIndex_spec exampleZone scenarioAApp
      (localIST 2024 1 1 10 + 25 * 60000)).2 (exampleHourly.take 24) (by decide)).1
      ⟨10, localIST 2024 1 1 10, by decide, by decide⟩,
    by decide, by decide⟩

/-! ## `selectHour`: the day of the selected hour -/

theorem selectHourLoop_found (z : Zone) (sel : Instant) :
    ∀ (ds : List Instant) (i k : Nat) (d : Instant), ds[k]? = some d →
      sameCalendarDay z d sel →
      (∀ (m : Nat) (d' : Instant), m < k → ds[m]? = some d' → ¬ sameCalendarDay z d' sel) →
      selectHourLoop z sel ds i = some (i + k) := by
  intro ds
  induction ds with
  | nil => intro i k d hk; simp at hk
  | cons a rest ih =>
    intro i k d hk hp hmin
    cases k with
    | zero =>
      simp only [List.getElem?_cons_zero, Option.some.injEq] at hk
      subst hk
      have hp' := hp
      unfold sameCalendarDay at hp'
      simp [selectHourLoop, hp']
    | succ k =>
      have ha : ¬ sameCalendarDay z a sel := hmin 0 a (Nat.succ_pos k) (by simp)
      unfold sameCalendarDay at ha
      simp only [selectHourLoop, ha, if_false]
      rw [ih (i + 1) k d (by simpa using hk) hp
        (fun m d' hm hd' => hmin (m + 1) d' (by omega) (by simpa using hd'))]
      congr 1; omega

theorem selectHourLoop_none (z : Zone) (sel : Instant) :
    ∀ (ds : List Instant) (i : Nat),
      (∀ (k : Nat) (d : Instant), ds[k]? = some d → ¬ sameCalendarDay z d sel) →
      selectHourLoop z sel ds i = none := by
  intro ds
  induction ds with
  | nil => intro i _; rfl
  | cons a rest ih =>
    intro i hno
    have ha : ¬ sameCalendarDay z a sel := hno 0 a (by simp)
    unfold sameCalendarDay at ha
    simp only [selectHourLoop, ha, if_false]
    exact ih (i + 1) (fun k d hk => hno (k + 1) d (by simpa using hk))

theorem dailyTime_eq_some (s : App) (dt : List Instant) (h : s.dailyTime = some dt) :
    ∃ daily : Daily, (s.weatherData.bind fun w => w.daily) = some daily ∧ daily.time = dt := by
  unfold App.dailyTime at h
  cases hd : (s.weatherData.bind fun w => w.daily) with
  | none => simp [hd] at h
  | some daily => exact ⟨daily, rfl, by simpa [hd] using h⟩

theorem dailyTime_eq_none (s : App) (h : s.dailyTime = none) :
    (s.weatherData.bind fun w => w.daily) = none := by
  unfold App.dailyTime at h
  simpa using h

/-- The state `selectHour` produces for the index of a loaded row. -/
theorem selectHour_of_valid (z : Zone) (s : App) (ht : List Instant) (i : Int) (t : Instant)
    (hT : s.hourlyTime = some ht) (hi : getAt ht i = some t) :
    selectHour z s i =
      match s.dailyTime.bind (fun dt => selectHourLoop z t dt 0) with
      | some j =>
        { s with selectedHourIndex := i, selectedDate := some (isoDate t),
                 selectedDayIndex := (j : Int) }
      | none => { s with selectedHourIndex := i, selectedDate := some (isoDate t) } := by
  unfold selectHour
  simp only [hT, Option.some_bind, hi]
  cases hd : s.dailyTime with
  | none => simp [dailyTime_eq_none s hd]
  | some dt =>
    obtain ⟨daily, hdaily, rfl⟩ := dailyTime_eq_some s dt hd
    simp only [hdaily, Option.some_bind]

/-- C6: for a valid hourly index `i`, after `selectHour(i)`: if some entry of
`daily.time` has the same calendar day (year, month, day of month) as
`hourly.time[i]`, then `selectedDayIndex` is the smallest index whose
`daily.time` entry shares that day; if no entry matches, `selectedDayIndex`
keeps the value it had before the call. -/
theorem selectHour_dayIndex (z : Zone) (s : App) (ht : List Instant) (i : Int) (t : Instant)
    (hT : s.hourlyTime = some ht) (hi : getAt ht i = some t) :
    (∀ dt, s.dailyTime = some dt →
        (∃ (j : Nat) (d : Instant), dt[j]? = some d ∧ sameCalendarDay z d t) →
        ∃ (j : Nat) (d : Instant), (selectHour z s i).selectedDayIndex = (j : Int) ∧
          dt[j]? = some d ∧ sameCalendarDay z d t ∧
          ∀ (m : Nat) (d' : Instant), m < j → dt[m]? = some d' → ¬ sameCalendarDay z d' t) ∧
      ((∀ dt, s.dailyTime = some dt →
          ∀ (j : Nat) (d : Instant), dt[j]? = some d → ¬ sameCalendarDay z d t) →
        (selectHour z s i).selectedDayIndex = s.selectedDayIndex) := by
  rw [selectHour_of_valid z s ht i t hT hi]
  constructor
  · intro dt hD hex
    obtain ⟨j, d, hj, hp, hmin⟩ := exists_first (fun d => sameCalendarDay z d t) dt hex
    refine ⟨j, d, ?_, hj, hp, hmin⟩
    simp [hD, selectHourLoop_found z t dt 0 j d hj hp hmin]
  · intro hno
    cases hD : s.dailyTime with
    | none => simp
    | some dt => simp [selectHourLoop_none z t dt 0 (hno dt hD)]

/-- Witness for C6: selecting row 30 (06:00 on 2 January) of the example
moves `selectedDayIndex` from 0 to 1, the first daily row of that day. -/
theorem selectHour_dayIndex_witness :
    exampleApp.hourlyTime = some exampleHourly ∧
      getAt exampleHourly 30 = some (localIST 2024 1 2 6) ∧
      exampleApp.selectedDayIndex = 0 ∧
      (∃ (j : Nat) (d : Instant),
        (selectHour exampleZone exampleApp 30).selectedDayIndex = (j : Int) ∧
        exampleDaily[j]? = some d ∧ sameCalendarDay exampleZone d (localIST 2024 1 2 6) ∧
        ∀ (m : Nat) (d' : Instant), m < j → exampleDaily[m]? = some d' →
          ¬ sameCalendarDay exampleZone d' (localIST 2024 1 2 6)) ∧
      (selectHour exampleZone exampleApp 30).selectedDayIndex = 1 :=
  ⟨by decide, by decide, by decide,
    (selectHour_dayIndex exampleZone exampleApp exampleHourly 30 (localIST 2024 1 2 6)
      (by decide) (by decide)).1 exampleDaily (by decide)
      ⟨1, utc 2024 1 2 0, by decide, by decide⟩,
    by decide⟩

/-! ## `selectDay`: the hour shown for the selected day -/

theorem selectDayLoop_noon (z : Zone) (target : Instant) :
    ∀ (ts : List Instant) (i k : Nat) (th : Int) (t : Instant), ts[k]? = some t →
      (sameCalendarDay z t target ∧ getHours z t = 12) →
      (∀ (m : Nat) (t' : Instant), m < k → ts[m]? = some t' →
        ¬ (sameCalendarDay z t' target ∧ getHours z t' = 12)) →
      selectDayLoop z target ts i th = ((i + k : Nat) : Int) := by
  intro ts
  induction ts with
  | nil => intro i k th t hk; simp at hk
  | cons a rest ih =>
    intro i k th t hk hq hmin
    cases k with
    | zero =>
      simp only [List.getElem?_cons_zero, Option.some.injEq] at hk
      subst hk
      obtain ⟨hp, h12⟩ := hq
      unfold sameCalendarDay at hp
      simp [selectDayLoop, hp, h12]
    | succ k =>
      have ha : ¬ (sameCalendarDay z a target ∧ getHours z a = 12) :=
        hmin 0 a (Nat.succ_pos k) (by simp)
      have hrest := fun th' => ih (i + 1) k th' t (by simpa using hk) hq
        (fun m t' hm ht' => hmin (m + 1) t' (by omega) (by simpa using ht'))
      have hidx : i + 1 + k = i + (k + 1) := by omega
      rw [hidx] at hrest
      unfold sameCalendarDay at ha
      by_cases h1 : getFullYear z a = getFullYear z target ∧
          getMonth z a = getMonth z target ∧ getDate z a = getDate z target
      · have h2 : ¬ getHours z a = 12 := fun h => ha ⟨h1, h⟩
        simp only [selectDayLoop, h1, and_self, if_true, h2, if_false]
        exact hrest _
      · simp only [selectDayLoop, h1, if_false]
        exact hrest _

theorem selectDayLoop_keep (z : Zone) (target : Instant) :
    ∀ (ts : List Instant) (i : Nat) (th : Int),
      (∀ (k : Nat) (t : Instant), ts[k]? = some t →
        ¬ (sameCalendarDay z t target ∧ getHours z t = 12)) →
      th ≠ -1 → selectDayLoop z target ts i th = th := by
  intro ts
  induction ts with
  | nil => intro i th _ _; rfl
  | cons a rest ih =>
    intro i th hno hth
    have ha : ¬ (sameCalendarDay z a target ∧ getHours z a = 12) := hno 0 a (by simp)
    have hrest := fun i' => ih i' th (fun k t hk => hno (k + 1) t (by simpa using hk)) hth
    unfold sameCalendarDay at ha
    by_cases h1 : getFullYear z a = getFullYear z target ∧
        getMonth z a = getMonth z target ∧ getDate z a = getDate z target
    · have h2 : ¬ getHours z a = 12 := fun h => ha ⟨h1, h⟩
      simp only [selectDayLoop, h1, and_self, if_true, h2, if_false, hth]
      exact hrest _
    · simp only [selectDayLoop, h1, if_false]
      exact hrest _

theorem selectDayLoop_first (z : Zone) (target : Instant) :
    ∀ (ts : List Instant) (i k : Nat) (t : Instant), ts[k]? = some t →
      sameCalendarDay z t target →
      (∀ (m : Nat) (t' : Instant), m < k → ts[m]? = some t' → ¬ sameCalendarDay z t' target) →
      (∀ (m : Nat) (t' : Instant), ts[m]? = some t' →
        ¬ (sameCalendarDay z t' target ∧ getHours z t' = 12)) →
      selectDayLoop z target ts i (-1) = ((i + k : Nat) : Int) := by
  intro ts
  induction ts with
  | nil => intro i k t hk; simp at hk
  | cons a rest ih =>
    intro i k t hk hp hmin hno
    have hnorest : ∀ (m : Nat) (t' : Instant), rest[m]? = some t' →
        ¬ (sameCalendarDay z t' target ∧ getHours z t' = 12) :=
      fun m t' hm => hno (m + 1) t' (by simpa using hm)
    cases k with
    | zero =>
      simp only [List.getElem?_cons_zero, Option.some.injEq] at hk
      subst hk
      have h12 : ¬ getHours z a = 12 := fun h => hno 0 a (by simp) ⟨hp, h⟩
      have hp' := hp
      unfold sameCalendarDay at hp'
      unfold selectDayLoop
      simp only [hp', and_self, if_true, h12, if_false]
      exact selectDayLoop_keep z target rest (i + 1) (i : Int) hnorest (by omega)
    | succ k =>
      have ha : ¬ sameCalendarDay z a target := hmin 0 a (Nat.succ_pos k) (by simp)
      unfold sameCalendarDay at ha
      unfold selectDayLoop
      simp only [ha, if_false]
      rw [ih (i + 1) k t (by simpa using hk) hp
        (fun m t' hm ht' => hmin (m + 1) t' (by omega) (by simpa using ht')) hnorest]
      congr 1; omega

theorem selectDayLoop_none (z : Zone) (target : Instant) :
    ∀ (ts : List Instant) (i : Nat) (th : Int),
      (∀ (k : Nat) (t : Instant), ts[k]? = some t → ¬ sameCalendarDay z t target) →
      selectDayLoop z target ts i th = th := by
  intro ts
  induction ts with
  | nil => intro i th _; rfl
  | cons a rest ih =>
    intro i th hno
    have ha : ¬ sameCalendarDay z a target := hno 0 a (by simp)
    unfold sameCalendarDay at ha
    unfold selectDayLoop
    simp only [ha, if_false]
    exact ih (i + 1) th (fun k t hk => hno (k + 1) t (by simpa using hk))

/-- The state `selectDay` produces for the index of a loaded daily row when
an hourly series is loaded. -/
theorem selectDay_of_valid (z : Zone) (s : App) (dt ht : List Instant) (i : Int)
    (target : Instant) (hD : s.dailyTime = some dt) (hi : getAt dt i = some target)
    (hT : s.hourlyTime = some ht) :
    selectDay z s i =
      if selectDayLoop z target ht 0 (-1) ≠ -1 then
        { s with selectedDayIndex := i, selectedDate := some target,
                 selectedHourIndex := selectDayLoop z target ht 0 (-1) }
      else { s with selectedDayIndex := i, selectedDate := some target } := by
  unfold selectDay
  simp only [hD, hT, Option.some_bind, hi]

theorem selectDay_of_no_hourly (z : Zone) (s : App) (i : Int) (hT : s.hourlyTime = none) :
    selectDay z s i = { s with selectedDayIndex := i } := by
  unfold selectDay
  simp only [hT]
  split
  · rename_i h1 h2; simp at h2
  · rfl

/-- C7: for a valid daily index `i`, after `selectDay(i)`: if some hourly row
on the calendar day of `daily.time[i]` has hour of day 12, `selectedHourIndex`
is the first such row; otherwise, if some hourly row falls on that calendar
day, it is the first row on that day; otherwise `selectedHourIndex` is
unchanged. -/
theorem selectDay_hourIndex (z : Zone) (s : App) (dt : List Instant) (i : Int)
    (target : Instant) (hD : s.dailyTime = some dt) (hi : getAt dt i = some target) :
    (∀ ht, s.hourlyTime = some ht →
        ((∃ (k : Nat) (t : Instant), ht[k]? = some t ∧
              (sameCalendarDay z t target ∧ getHours z t = 12)) →
          ∃ (k : Nat) (t : Instant), (selectDay z s i).selectedHourIndex = (k : Int) ∧
            ht[k]? = some t ∧ (sameCalendarDay z t target ∧ getHours z t = 12) ∧
            ∀ (m : Nat) (t' : Instant), m < k → ht[m]? = some t' →
              ¬ (sameCalendarDay z t' target ∧ getHours z t' = 12)) ∧
        ((∀ (k : Nat) (t : Instant), ht[k]? = some t →
              ¬ (sameCalendarDay z t target ∧ getHours z t = 12)) →
          (∃ (k : Nat) (t : Instant), ht[k]? = some t ∧ sameCalendarDay z t target) →
          ∃ (k : Nat) (t : Instant), (selectDay z s i).selectedHourIndex = (k : Int) ∧
            ht[k]? = some t ∧ sameCalendarDay z t target ∧
            ∀ (m : Nat) (t' : Instant), m < k → ht[m]? = some t' →
              ¬ sameCalendarDay z t' target) ∧
        ((∀ (k : Nat) (t : Instant), ht[k]? = some t → ¬ sameCalendarDay z t target) →
          (selectDay z s i).selectedHourIndex = s.selectedHourIndex)) ∧
      (s.hourlyTime = none → (selectDay z s i).selectedHourIndex = s.selectedHourIndex) := by
  constructor
  · intro ht hT
    rw [selectDay_of_valid z s dt ht i target hD hi hT]
    refine ⟨?_, ?_, ?_⟩
    · intro hex
      obtain ⟨k, t, hk, hq, hmin⟩ :=
        exists_first (fun t => sameCalendarDay z t target ∧ getHours z t = 12) ht hex
      refine ⟨k, t, ?_, hk, hq, hmin⟩
      have hloop := selectDayLoop_noon z target ht 0 k (-1) t hk hq hmin
      have hne : selectDayLoop z target ht 0 (-1) ≠ -1 := by rw [hloop]; omega
      rw [if_pos hne]
      simp [hloop]
    · intro hno hex
      obtain ⟨k, t, hk, hp, hmin⟩ := exists_first (fun t => sameCalendarDay z t target) ht hex
      refine ⟨k, t, ?_, hk, hp, hmin⟩
      have hloop := selectDayLoop_first z target ht 0 k t hk hp hmin hno
      have hne : selectDayLoop z target ht 0 (-1) ≠ -1 := by rw [hloop]; omega
      rw [if_pos hne]
      simp [hloop]
    · intro hno
      have hloop := selectDayLoop_none z target ht 0 (-1) hno
      simp [hloop]
  · intro hT
    rw [selectDay_of_no_hourly z s i hT]

/-- Witness for C7 (scenario B): on the seven-day payload with rows at hours
0, 6, 12 and 18, `selectDay(2)` lands on row 10, the 12:00 row of day 2. -/
theorem selectDay_hourIndex_witness :
    scenarioBApp.dailyTime = scenarioBData.daily.map (fun d => d.time) ∧
      getAt ((List.range 7).map (fun d => utc 2024 1 1 0 + (d : Int) * msPerDay)) 2
        = some (utc 2024 1 3 0) ∧
      (∃ (k : Nat) (t : Instant), (selectDay exampleZone scenarioBApp 2).selectedHourIndex
          = (k : Int) ∧
        ((List.range 28).map (fun k => localIST 2024 1 1 0 + (k : Int) * 6 * msPerHour))[k]?
          = some t ∧
        (sameCalendarDay exampleZone t (utc 2024 1 3 0) ∧ getHours exampleZone t = 12) ∧
        ∀ (m : Nat) (t' : Instant), m < k →
          ((List.range 28).map (fun k => localIST 2024 1 1 0 + (k : Int) * 6 * msPerHour))[m]?
            = some t' →
          ¬ (sameCalendarDay exampleZone t' (utc 2024 1 3 0) ∧ getHours exampleZone t' = 12)) ∧
      (selectDay exampleZone scenarioBApp 2).selectedHourIndex = 10 :=
  ⟨by decide, by decide,
    ((selectDay_hourIndex exampleZone scenarioBApp
        ((List.range 7).map (fun d => utc 2024 1 1 0 + (d : Int) * msPerDay)) 2
        (utc 2024 1 3 0) (by decide) (by decide)).1
      ((List.range 28).map (fun k => localIST 2024 1 1 0 + (k : Int) * 6 * msPerHour))
      (by decide)).1 ⟨10, localIST 2024 1 3 12, by decide, by decide⟩,
    by decide⟩

/-! ## The selection stays within the loaded rows -/

theorem hasRows_pos (w : WeatherData) (h : w.hasRows = true) :
    0 < w.hourlyRows ∧ 0 < w.dailyRows := by
  unfold WeatherData.hasRows at h
  simpa using h

theorem hourlyLen_of_hourlyTime (s : App) (ts : List Instant) (h : s.hourlyTime = some ts) :
    s.hourlyLen = (ts.length : Int) := by
  unfold App.hourlyTime at h
  unfold App.hourlyLen WeatherData.hourlyRows
  cases hw : s.weatherData with
  | none => simp [hw] at h
  | some w =>
    cases hh : w.hourly with
    | none => simp [hw, hh] at h
    | some hourly =>
      simp [hw, hh] at h
      simp [hh, h]

theorem dailyLen_of_dailyTime (s : App) (ts : List Instant) (h : s.dailyTime = some ts) :
    s.dailyLen = (ts.length : Int) := by
  unfold App.dailyTime at h
  unfold App.dailyLen WeatherData.dailyRows
  cases hw : s.weatherData with
  | none => simp [hw] at h
  | some w =>
    cases hh : w.daily with
    | none => simp [hw, hh] at h
    | some daily =>
      simp [hw, hh] at h
      simp [hh, h]

theorem hourlyLen_congr (s s' : App) (h : s'.weatherData = s.weatherData) :
    s'.hourlyLen = s.hourlyLen := by
  unfold App.hourlyLen; rw [h]

theorem dailyLen_congr (s s' : App) (h : s'.weatherData = s.weatherData) :
    s'.dailyLen = s.dailyLen := by
  unfold App.dailyLen; rw [h]

theorem selectionInBounds_of_invariant (s : App) (h : SelectionInvariant s) :
    SelectionInBounds s := by
  obtain ⟨h0, h1, d0, d1, hw, -⟩ := h
  intro hrows
  cases hwd : s.weatherData with
  | none => simp [hwd] at hrows
  | some w =>
    have hr : w.hasRows = true := hw w hwd
    obtain ⟨hp, dp⟩ := hasRows_pos w hr
    have hl : s.hourlyLen = (w.hourlyRows : Int) := by unfold App.hourlyLen; rw [hwd]
    have dl : s.dailyLen = (w.dailyRows : Int) := by unfold App.dailyLen; rw [hwd]
    refine ⟨h0, ?_, d0, ?_⟩
    · rcases h1 with h | h
      · rw [h, hl]; exact_mod_cast hp
      · exact h
    · rcases d1 with h | h
      · rw [h, dl]; exact_mod_cast dp
      · exact h

/-- An operation that keeps the loaded and the cached payload keeps the
invariant as soon as its new indices are 0 or loaded rows. -/
theorem invariant_of_same_data (s s' : App) (h : SelectionInvariant s)
    (hw : s'.weatherData = s.weatherData) (hc : s'.cache.weatherData = s.cache.weatherData)
    (hh : 0 ≤ s'.selectedHourIndex ∧
      (s'.selectedHourIndex = 0 ∨ s'.selectedHourIndex < s.hourlyLen))
    (hd : 0 ≤ s'.selectedDayIndex ∧
      (s'.selectedDayIndex = 0 ∨ s'.selectedDayIndex < s.dailyLen)) :
    SelectionInvariant s' := by
  obtain ⟨-, -, -, -, hwr, hcr⟩ := h
  refine ⟨hh.1, ?_, hd.1, ?_, ?_, ?_⟩
  · rw [hourlyLen_congr s s' hw]; exact hh.2
  · rw [dailyLen_congr s s' hw]; exact hd.2
  · intro w hw'; exact hwr w (hw ▸ hw')
  · intro w hw'; exact hcr w (hc ▸ hw')

theorem getCurrentHourIndexLoop_range (z : Zone) (now : Instant) :
    ∀ (ts : List Instant) (i : Nat),
      getCurrentHourIndexLoop z now ts i = 0 ∨
        ((i : Int) ≤ getCurrentHourIndexLoop z now ts i ∧
          getCurrentHourIndexLoop z now ts i < (i : Int) + ts.length) := by
  intro ts
  induction ts with
  | nil => intro i; left; rfl
  | cons a rest ih =>
    intro i
    unfold getCurrentHourIndexLoop
    split_ifs with h
    · right; simp only [List.length_cons]; push_cast; omega
    · rcases ih (i + 1) with h0 | ⟨h1, h2⟩
      · left; exact h0
      · right; simp only [List.length_cons]; push_cast at h1 h2 ⊢; omega

theorem getCurrentHourIndex_range (z : Zone) (s : App) (now : Instant) :
    0 ≤ getCurrentHourIndex z s now ∧
      (getCurrentHourIndex z s now = 0 ∨ getCurrentHourIndex z s now < s.hourlyLen) := by
  cases hT : s.hourlyTime with
  | none => rw [getCurrentHourIndex_of_no_hourlyTime z s now hT]; simp
  | some ts =>
    rw [getCurrentHourIndex_of_hourlyTime z s now ts hT, hourlyLen_of_hourlyTime s ts hT]
    rcases getCurrentHourIndexLoop_range z now ts 0 with h0 | ⟨h1, h2⟩
    · rw [h0]; simp
    · refine ⟨by simpa using h1, Or.inr (by simpa using h2)⟩

theorem selectHourLoop_range (z : Zone) (sel : Instant) :
    ∀ (ds : List Instant) (i j : Nat), selectHourLoop z sel ds i = some j →
      j < i + ds.length := by
  intro ds
  induction ds with
  | nil => intro i j h; simp [selectHourLoop] at h
  | cons a rest ih =>
    intro i j h
    unfold selectHourLoop at h
    split_ifs at h with hc
    · simp only [Option.some.injEq] at h
      simp only [List.length_cons]; omega
    · have := ih (i + 1) j h
      simp only [List.length_cons]; omega

theorem selectDayLoop_range (z : Zone) (target : Instant) :
    ∀ (ts : List Instant) (i : Nat) (th : Int),
      selectDayLoop z target ts i th = th ∨
        ((i : Int) ≤ selectDayLoop z target ts i th ∧
          selectDayLoop z target ts i th < (i : Int) + ts.length) := by
  intro ts
  induction ts with
  | nil => intro i th; left; rfl
  | cons a rest ih =>
    intro i th
    have hlen : (((a :: rest).length : Nat) : Int) = (rest.length : Int) + 1 := by simp
    rw [hlen]
    by_cases h1 : getFullYear z a = getFullYear z target ∧
        getMonth z a = getMonth z target ∧ getDate z a = getDate z target
    · by_cases h2 : getHours z a = 12
      · right
        simp only [selectDayLoop, h1, and_self, if_true, h2]
        omega
      · simp only [selectDayLoop, h1, and_self, if_true, h2, if_false]
        by_cases hth : th = -1
        · right
          simp only [hth, if_true]
          rcases ih (i + 1) (i : Int) with h0 | ⟨h3, h4⟩
          · rw [h0]; omega
          · push_cast at h3 h4; omega
        · simp only [hth, if_false]
          rcases ih (i + 1) th with h0 | ⟨h3, h4⟩
          · left; exact h0
          · right; push_cast at h3 h4; omega
    · simp only [selectDayLoop, h1, if_false]
      rcases ih (i + 1) th with h0 | ⟨h3, h4⟩
      · left; exact h0
      · right; push_cast at h3 h4; omega

theorem selectHour_cache (z : Zone) (s : App) (index : Int) :
    (selectHour z s index).cache = s.cache := by
  unfold selectHour
  simp only
  split
  · rfl
  · split
    · rfl
    · split <;> rfl

theorem selectDay_cache (z : Zone) (s : App) (index : Int) :
    (selectDay z s index).cache = s.cache := by
  unfold selectDay
  simp only
  split
  · split <;> rfl
  · rfl

theorem selectHour_dayIndex_range (z : Zone) (s : App) (index : Int) :
    (selectHour z s index).selectedDayIndex = s.selectedDayIndex ∨
      (0 ≤ (selectHour z s index).selectedDayIndex ∧
        (selectHour z s index).selectedDayIndex < s.dailyLen) := by
  unfold selectHour
  simp only
  split
  · left; rfl
  · split
    · left; rfl
    · rename_i daily hdaily
      have hD : s.dailyTime = some daily.time := by
        unfold App.dailyTime; rw [hdaily]; rfl
      split
      · rename_i j hj
        right
        have := selectHourLoop_range z _ _ 0 j hj
        rw [dailyLen_of_dailyTime s _ hD]
        simp only
        omega
      · left; rfl

theorem selectDay_hourIndex_range (z : Zone) (s : App) (index : Int) :
    (selectDay z s index).selectedHourIndex = s.selectedHourIndex ∨
      (0 ≤ (selectDay z s index).selectedHourIndex ∧
        (selectDay z s index).selectedHourIndex < s.hourlyLen) := by
  unfold selectDay
  simp only
  split
  · rename_i target times hd hT
    split
    · right
      rename_i hne
      rw [hourlyLen_of_hourlyTime s times hT]
      rcases selectDayLoop_range z target times 0 (-1) with h0 | ⟨h1, h2⟩
      · exact absurd h0 hne
      · simp only
        push_cast at h1 h2
        omega
    · left; rfl
  · left; rfl

theorem invariant_selectHour (z : Zone) (s : App) (index : Int) (h : SelectionInvariant s)
    (h0 : 0 ≤ index) (h1 : index < s.hourlyLen) : SelectionInvariant (selectHour z s index) := by
  apply invariant_of_same_data s _ h (selectHour_weatherData z s index)
    (by rw [selectHour_cache])
  · rw [selectHour_selectedHourIndex]; exact ⟨h0, Or.inr h1⟩
  · rcases selectHour_dayIndex_range z s index with he | ⟨hl, hu⟩
    · rw [he]; exact ⟨h.2.2.1, h.2.2.2.1⟩
    · exact ⟨hl, Or.inr hu⟩

theorem invariant_selectDay (z : Zone) (s : App) (index : Int) (h : SelectionInvariant s)
    (h0 : 0 ≤ index) (h1 : index < s.dailyLen) : SelectionInvariant (selectDay z s index) := by
  apply invariant_of_same_data s _ h (selectDay_weatherData z s index)
    (by rw [selectDay_cache])
  · rcases selectDay_hourIndex_range z s index with he | ⟨hl, hu⟩
    · rw [he]; exact ⟨h.1, h.2.1⟩
    · exact ⟨hl, Or.inr hu⟩
  · rw [selectDay_selectedDayIndex]; exact ⟨h0, Or.inr h1⟩

theorem hourlyLen_pos_of_hourlyTime (s : App) (ts : List Instant) (h : SelectionInvariant s)
    (hT : s.hourlyTime = some ts) : 0 < s.hourlyLen := by
  cases hw : s.weatherData with
  | none => simp [App.hourlyTime, hw] at hT
  | some w =>
    have := (hasRows_pos w (h.2.2.2.2.1 w hw)).1
    unfold App.hourlyLen; rw [hw]; simp only; exact_mod_cast this

theorem dailyLen_pos_of_dailyTime (s : App) (ts : List Instant) (h : SelectionInvariant s)
    (hT : s.dailyTime = some ts) : 0 < s.dailyLen := by
  cases hw : s.weatherData with
  | none => simp [App.dailyTime, hw] at hT
  | some w =>
    have := (hasRows_pos w (h.2.2.2.2.1 w hw)).2
    unfold App.dailyLen; rw [hw]; simp only; exact_mod_cast this

theorem invariant_navigateHour (z : Zone) (s : App) (direction : Int)
    (h : SelectionInvariant s) : SelectionInvariant (navigateHour z s direction) := by
  unfold navigateHour
  cases hT : s.hourlyTime with
  | none => exact h
  | some ts =>
    have hpos := hourlyLen_pos_of_hourlyTime s ts h hT
    have hlen := hourlyLen_of_hourlyTime s ts hT
    simp only
    apply invariant_selectHour z s _ h
    · split_ifs <;> omega
    · rw [hlen]; split_ifs <;> omega

theorem invariant_navigateDay (z : Zone) (s : App) (direction : Int)
    (h : SelectionInvariant s) : SelectionInvariant (navigateDay z s direction) := by
  unfold navigateDay
  cases hT : s.dailyTime with
  | none => exact h
  | some ts =>
    have hpos := dailyLen_pos_of_dailyTime s ts h hT
    have hlen := dailyLen_of_dailyTime s ts hT
    simp only
    apply invariant_selectDay z s _ h
    · split_ifs <;> omega
    · rw [hlen]; split_ifs <;> omega

theorem invariant_goToCurrentWeather (z : Zone) (s : App) (now : Instant)
    (h : SelectionInvariant s) : SelectionInvariant (goToCurrentWeather z s now) := by
  refine invariant_of_same_data s (goToCurrentWeather z s now) h rfl rfl ?_ ?_
  · rw [(goToCurrentWeather_fields z s now).2.2]
    exact getCurrentHourIndex_range z s now
  · rw [(goToCurrentWeather_fields z s now).2.1]; simp


theorem invariant_fetchWeatherData (z : Zone) (s : App) (now : Instant) (series : WeatherData)
    (h : SelectionInvariant s) (hrows : series.hasRows = true)
    (hok : (s.selectedDate = none ∧ isCacheValid s now ≠ some true) ∨
      notShorter s (fetchWeatherData z s now (some series))) :
    SelectionInvariant (fetchWeatherData z s now (some series)) := by
  obtain ⟨h0, h1, d0, d1, hwr, hcr⟩ := h
  cases hloc : s.currentLocation with
  | none =>
    have hs : fetchWeatherData z s now (some series) = s := by
      simp [fetchWeatherData, hloc]
    rw [hs]; exact ⟨h0, h1, d0, d1, hwr, hcr⟩
  | some loc =>
    by_cases hvalid : isCacheValid s now = some true
    · have hs : fetchWeatherData z s now (some series)
          = { s with weatherData := s.cache.weatherData, isLoading := false } := by
        simp [fetchWeatherData, hloc, hvalid]
      rw [hs] at hok ⊢
      rcases hok with ⟨-, hne⟩ | ⟨hh, hd⟩
      · exact absurd hvalid hne
      · refine ⟨h0, ?_, d0, ?_, ?_, hcr⟩
        · rcases h1 with h | h
          · exact Or.inl h
          · exact Or.inr (lt_of_lt_of_le h hh)
        · rcases d1 with h | h
          · exact Or.inl h
          · exact Or.inr (lt_of_lt_of_le h hd)
        · intro w hw; exact hcr w hw
    · by_cases hlive : s.selectedDate = none
      · have hs : fetchWeatherData z s now (some series)
            = { s with
                weatherData := some series
                cache := { weatherData := some series, locationData := some loc,
                           timestamp := now }
                selectedHourIndex := getCurrentHourIndex z
                  { s with
                    weatherData := some series
                    cache := { weatherData := some series, locationData := some loc,
                               timestamp := now } } now
                selectedDayIndex := 0
                isLoading := false } := by
          simp [fetchWeatherData, hloc, hvalid, hlive]
        rw [hs]
        have hr := getCurrentHourIndex_range z
          { s with
            weatherData := some series
            cache := { weatherData := some series, locationData := some loc,
                       timestamp := now } } now
        refine ⟨hr.1, hr.2, le_refl 0, Or.inl rfl, ?_, ?_⟩
        · intro w hw
          simp only [Option.some.injEq] at hw
          rw [← hw]; exact hrows
        · intro w hw
          simp only [Option.some.injEq] at hw
          rw [← hw]; exact hrows
      · have hs : fetchWeatherData z s now (some series)
            = { s with
                weatherData := some series
                cache := { weatherData := some series, locationData := some loc,
                           timestamp := now }
                isLoading := false } := by
          simp [fetchWeatherData, hloc, hvalid, hlive]
        rw [hs] at hok ⊢
        rcases hok with ⟨hl, -⟩ | ⟨hh, hd⟩
        · exact absurd hl hlive
        · refine ⟨h0, ?_, d0, ?_, ?_, ?_⟩
          · rcases h1 with h | h
            · exact Or.inl h
            · exact Or.inr (lt_of_lt_of_le h hh)
          · rcases d1 with h | h
            · exact Or.inl h
            · exact Or.inr (lt_of_lt_of_le h hd)
          · intro w hw
            simp only [Option.some.injEq] at hw
            rw [← hw]; exact hrows
          · intro w hw
            simp only [Option.some.injEq] at hw
            rw [← hw]; exact hrows

theorem invariant_fetchDataForDate (s : App) (series : WeatherData)
    (h : SelectionInvariant s) (hrows : series.hasRows = true) (h13 : 13 ≤ series.hourlyRows) :
    SelectionInvariant (fetchDataForDate s (some series)) := by
  obtain ⟨h0, h1, d0, d1, hwr, hcr⟩ := h
  cases hloc : s.currentLocation with
  | none =>
    have hs : fetchDataForDate s (some series) = { s with isLoading := false } := by
      simp [fetchDataForDate, hloc]
    rw [hs]; exact ⟨h0, h1, d0, d1, hwr, hcr⟩
  | some loc =>
    have hd := (hasRows_pos series hrows).2
    cases hdaily : series.daily with
    | none => simp [WeatherData.dailyRows, hdaily] at hd
    | some daily =>
      cases hts : daily.time with
      | nil => simp [WeatherData.dailyRows, hdaily, hts] at hd
      | cons t0 rest =>
        have hs : fetchDataForDate s (some series)
            = { s with
                weatherData := some series
                selectedDate := some (isoDate t0)
                selectedDayIndex := 0
                selectedHourIndex := 12
                isLoading := false } := by
          simp [fetchDataForDate, hloc, hdaily, hts]
        rw [hs]
        refine ⟨?_, Or.inr ?_, le_refl 0, Or.inl rfl, ?_, hcr⟩
        · show (0 : Int) ≤ 12
          decide
        · show (12 : Int) < (series.hourlyRows : Int)
          omega
        · intro w hw
          simp only [Option.some.injEq] at hw
          rw [← hw]; exact hrows

theorem invariant_step (z : Zone) (s : App) (a : Action) (h : SelectionInvariant s)
    (ha : Admissible z s a) : SelectionInvariant (step z s a) := by
  cases a with
  | locate loc now series =>
    obtain ⟨hrows, hok⟩ := ha
    exact invariant_fetchWeatherData z { s with currentLocation := some loc } now series
      h hrows hok
  | refresh now series =>
    obtain ⟨hrows, hok⟩ := ha
    have hstep : step z s (.refresh now series) = refreshWeatherData z s now (some series) := rfl
    rw [hstep] at hok ⊢
    unfold refreshWeatherData at hok ⊢
    by_cases hg : s.currentLocation = none ∨ s.isLoading = true
    · rw [if_pos hg]; exact h
    · rw [if_neg hg] at hok ⊢
      exact invariant_fetchWeatherData z { s with cache := { s.cache with timestamp := 0 } }
        now series h hrows hok
  | jumpToDate series => exact invariant_fetchDataForDate s series h ha.1 ha.2
  | goToNow now => exact invariant_goToCurrentWeather z s now h
  | selectHour index => exact invariant_selectHour z s index h ha.1 ha.2
  | selectDay index => exact invariant_selectDay z s index h ha.1 ha.2
  | navigateHour direction => exact invariant_navigateHour z s direction h
  | navigateDay direction => exact invariant_navigateDay z s direction h

theorem invariant_run (z : Zone) (acts : List Action) :
    ∀ (s : App), SelectionInvariant s → AdmissibleRun z s acts →
      SelectionInvariant (run z s acts) := by
  induction acts with
  | nil => intro s h _; exact h
  | cons a rest ih =>
    intro s h hadm
    exact ih (step z s a) (invariant_step z s a h hadm.1) hadm.2

theorem invariant_init : SelectionInvariant App.init := by
  refine ⟨le_refl 0, Or.inl rfl, le_refl 0, Or.inl rfl, ?_, ?_⟩ <;>
    · intro w hw; simp [App.init] at hw

/-- C4, as stated, fails on each of three runs from the initial state: a
`selectHour` with an index beyond the loaded rows (60 of 48); a
`fetchDataForDate` that receives six hourly rows (the index is set to 12); and
a refresh, while Pinned at row 30 of day 1, that receives a 24-row one-day
series.  In each final state a series with non-empty arrays is loaded and an
index is out of range. -/
theorem selection_bounds_counterexample :
    ¬ SelectionInBounds (run exampleZone App.init
        [.locate exampleLocation (localIST 2024 1 1 10) exampleData, .selectHour 60]) ∧
      ¬ SelectionInBounds (run exampleZone App.init
        [.locate exampleLocation (localIST 2024 1 1 10) exampleData,
          .jumpToDate shortDayData]) ∧
      ¬ SelectionInBounds (run exampleZone App.init
        [.locate exampleLocation (localIST 2024 1 1 10) exampleData, .selectHour 30,
          .refresh (localIST 2024 1 1 11) scenarioAData]) := by
  refine ⟨by decide, by decide, by with_unfolding_all decide⟩

/-- C4, amended: in every state reached from the initial state by a run in
which every payload has non-empty hourly and daily arrays, every forecast
fetch either completes while Live with no valid cache entry or loads a series
at least as long as the one before, every `fetchDataForDate` receives at least
13 hourly rows, and `selectHour` / `selectDay` receive indices of loaded rows
(`goToCurrentWeather`, `navigateHour` and `navigateDay` are unrestricted),
whenever a series with non-empty arrays is loaded,
`0 ≤ selectedHourIndex < len(hourly.time)` and
`0 ≤ selectedDayIndex < len(daily.time)`. -/
theorem selection_bounds_of_admissible (z : Zone) (acts : List Action)
    (h : AdmissibleRun z App.init acts) : SelectionInBounds (run z App.init acts) :=
  selectionInBounds_of_invariant _ (invariant_run z acts App.init invariant_init h)

/-- Witness for C4: a session that loads the two-day forecast, navigates,
refreshes while Pinned, jumps to 2 January, returns to now and reloads. -/
theorem selection_bounds_of_admissible_witness :
    AdmissibleRun exampleZone App.init
        [.locate exampleLocation (localIST 2024 1 1 10) exampleData, .navigateHour 1,
          .selectDay 1, .refresh (localIST 2024 1 1 11) exampleData,
          .jumpToDate secondDayData, .navigateHour (-1), .goToNow (localIST 2024 1 2 9),
          .locate exampleLocation (localIST 2024 1 2 9) exampleData] ∧
      SelectionInBounds (run exampleZone App.init
        [.locate exampleLocation (localIST 2024 1 1 10) exampleData, .navigateHour 1,
          .selectDay 1, .refresh (localIST 2024 1 1 11) exampleData,
          .jumpToDate secondDayData, .navigateHour (-1), .goToNow (localIST 2024 1 2 9),
          .locate exampleLocation (localIST 2024 1 2 9) exampleData]) :=
  ⟨by with_unfolding_all decide,
    selection_bounds_of_admissible exampleZone _ (by with_unfolding_all decide)⟩

/-! ## Entering the Pinned state -/

/-- C9, as stated, fails: from the Live state with the 48-row, 2-day example
loaded, `selectHour(60)` and `selectDay(5)` leave `selectedDate = null`; so do
`selectHour(0)` and `selectDay(0)` before any series is loaded. -/
theorem pinned_counterexample :
    exampleApp.selectedDate = none ∧ exampleApp.hourlyTime = some exampleHourly ∧
      exampleApp.dailyTime = some exampleDaily ∧
      (selectHour exampleZone exampleApp 60).selectedDate = none ∧
      (selectDay exampleZone exampleApp 5).selectedDate = none ∧
      (selectHour exampleZone App.init 0).selectedDate = none ∧
      (selectDay exampleZone App.init 0).selectedDate = none := by
  decide

theorem fetchDataForDate_of_first_day (s : App) (loc : Location) (json : WeatherData)
    (daily : Daily) (t0 : Instant) (hloc : s.currentLocation = some loc)
    (hdaily : json.daily = some daily) (h0 : daily.time[0]? = some t0) :
    fetchDataForDate s (some json) =
      { s with
        weatherData := some json
        selectedDate := some (isoDate t0)
        selectedDayIndex := 0
        selectedHourIndex := 12
        isLoading := false } := by
  simp [fetchDataForDate, hloc, hdaily, h0]

/-- C9, amended: after `selectHour(index)` for the index of a loaded hourly
row, after `selectDay(index)` for the index of a loaded daily row while an
hourly series is loaded, and after a `fetchDataForDate` that completes (a
location is set and the payload has a first `daily.time` entry), the selection
is Pinned: `selectedDate != null`.  For any other index, or with the series
missing, `selectHour` and `selectDay` leave `selectedDate` as it was. -/
theorem pinned_after_valid_select (z : Zone) (s : App) :
    (∀ (ht : List Instant) (i : Int) (t : Instant), s.hourlyTime = some ht →
        getAt ht i = some t → (selectHour z s i).selectedDate ≠ none) ∧
      (∀ (dt ht : List Instant) (i : Int) (d : Instant), s.dailyTime = some dt →
        getAt dt i = some d → s.hourlyTime = some ht →
        (selectDay z s i).selectedDate ≠ none) ∧
      (∀ (loc : Location) (json : WeatherData) (daily : Daily) (t0 : Instant),
        s.currentLocation = some loc → json.daily = some daily → daily.time[0]? = some t0 →
        (fetchDataForDate s (some json)).selectedDate ≠ none) ∧
      (∀ (i : Int), (s.hourlyTime.bind fun ts => getAt ts i) = none →
        (selectHour z s i).selectedDate = s.selectedDate) ∧
      (∀ (i : Int), ((s.dailyTime.bind fun ts => getAt ts i) = none ∨ s.hourlyTime = none) →
        (selectDay z s i).selectedDate = s.selectedDate) := by
  refine ⟨?_, ?_, ?_, ?_, ?_⟩
  · intro ht i t hT hi
    rw [selectHour_of_valid z s ht i t hT hi]
    split <;> simp
  · intro dt ht i d hD hi hT
    rw [selectDay_of_valid z s dt ht i d hD hi hT]
    split <;> simp
  · intro loc json daily t0 hloc hdaily h0
    rw [fetchDataForDate_of_first_day s loc json daily t0 hloc hdaily h0]
    simp
  · intro i hi
    unfold selectHour
    simp only [hi]
  · intro i hi
    unfold selectDay
    simp only
    split
    · rename_i d ts hd hT
      rcases hi with h | h
      · rw [h] at hd; simp at hd
      · rw [h] at hT; simp at hT
    · rfl

/-- Witness for C9: from the Live example state, `selectHour(30)`,
`selectDay(1)` and a `fetchDataForDate` for 2 January each pin the
selection. -/
theorem pinned_after_valid_select_witness :
    exampleApp.selectedDate = none ∧
      (selectHour exampleZone exampleApp 30).selectedDate ≠ none ∧
      (selectDay exampleZone exampleApp 1).selectedDate ≠ none ∧
      (fetchDataForDate exampleApp (some secondDayData)).selectedDate ≠ none :=
  ⟨by decide,
    (pinned_after_valid_select exampleZone exampleApp).1 exampleHourly 30
      (localIST 2024 1 2 6) (by decide) (by decide),
    (pinned_after_valid_select exampleZone exampleApp).2.1 exampleDaily exampleHourly 1
      (utc 2024 1 2 0) (by decide) (by decide) (by decide),
    (pinned_after_valid_select exampleZone exampleApp).2.2.1 exampleLocation secondDayData
      { time := [utc 2024 1 2 0] } (utc 2024 1 2 0) rfl rfl rfl⟩

/-! ## Facts about fetching -/

theorem orZero_eq (x : Int) : orZero x = x := by
  unfold orZero; split_ifs with h
  · exact h.symm
  · rfl

theorem isCacheValid_of_stored (s : App) (now : Int) (w : WeatherData) (stored loc : Location)
    (hw : s.cache.weatherData = some w) (hl : s.cache.locationData = some stored)
    (hloc : s.currentLocation = some loc) :
    isCacheValid s now =
      if toFixed 4 stored.latitude = toFixed 4 loc.latitude ∧
          toFixed 4 stored.longitude = toFixed 4 loc.longitude then
        some (decide (now - s.cache.timestamp < 5 * 60 * 1000))
      else some false := by
  unfold isCacheValid
  simp only [hw, hl, hloc, orZero_eq]
  by_cases h1 : toFixed 4 stored.latitude = toFixed 4 loc.latitude
  · by_cases h2 : toFixed 4 stored.longitude = toFixed 4 loc.longitude
    · simp [h1, h2]
    · simp [h1, h2]
  · simp [h1]

theorem isCacheValid_of_no_series (s : App) (now : Int) (h : s.cache.weatherData = none) :
    isCacheValid s now = some false := by
  unfold isCacheValid
  simp only [h]

theorem isCacheValid_of_no_location (s : App) (now : Int) (h : s.cache.locationData = none) :
    isCacheValid s now = some false := by
  unfold isCacheValid
  simp only [h]
  cases s.cache.weatherData <;> rfl

theorem fetchWeatherData_cached (z : Zone) (s : App) (now : Instant)
    (response : Option WeatherData) (loc : Location) (hloc : s.currentLocation = some loc)
    (hvalid : isCacheValid s now = some true) :
    fetchWeatherData z s now response =
      { s with weatherData := s.cache.weatherData, isLoading := false } := by
  simp [fetchWeatherData, hloc, hvalid]

theorem fetchWeatherData_failed (z : Zone) (s : App) (now : Instant) (loc : Location)
    (hloc : s.currentLocation = some loc) (hvalid : isCacheValid s now ≠ some true) :
    fetchWeatherData z s now none = { s with isLoading := false } := by
  simp [fetchWeatherData, hloc, hvalid]

theorem fetchWeatherData_live (z : Zone) (s : App) (now : Instant) (json : WeatherData)
    (loc : Location) (hloc : s.currentLocation = some loc)
    (hvalid : isCacheValid s now ≠ some true) (hlive : s.selectedDate = none) :
    fetchWeatherData z s now (some json) =
      { s with
        weatherData := some json
        cache := { weatherData := some json, locationData := some loc, timestamp := now }
        selectedHourIndex := getCurrentHourIndex z
          { s with
            weatherData := some json
            cache := { weatherData := some json, locationData := some loc, timestamp := now } }
          now
        selectedDayIndex := 0
        isLoading := false } := by
  simp [fetchWeatherData, hloc, hvalid, hlive]

theorem fetchWeatherData_pinned (z : Zone) (s : App) (now : Instant) (json : WeatherData)
    (loc : Location) (hloc : s.currentLocation = some loc)
    (hvalid : isCacheValid s now ≠ some true) (hpinned : s.selectedDate ≠ none) :
    fetchWeatherData z s now (some json) =
      { s with
        weatherData := some json
        cache := { weatherData := some json, locationData := some loc, timestamp := now }
        isLoading := false } := by
  simp [fetchWeatherData, hloc, hvalid, hpinned]

/-- A fetch made while Pinned leaves the selection triple as it was, on every
path (no location, cache hit, failed or successful request). -/
theorem fetchWeatherData_selection_of_pinned (z : Zone) (s : App) (now : Instant)
    (response : Option WeatherData) (hpinned : s.selectedDate ≠ none) :
    (fetchWeatherData z s now response).selectedDate = s.selectedDate ∧
      (fetchWeatherData z s now response).selectedDayIndex = s.selectedDayIndex ∧
      (fetchWeatherData z s now response).selectedHourIndex = s.selectedHourIndex := by
  cases hloc : s.currentLocation with
  | none =>
    have hs : fetchWeatherData z s now response = s := by simp [fetchWeatherData, hloc]
    rw [hs]; exact ⟨rfl, rfl, rfl⟩
  | some loc =>
    by_cases hvalid : isCacheValid s now = some true
    · rw [fetchWeatherData_cached z s now response loc hloc hvalid]
      exact ⟨rfl, rfl, rfl⟩
    · cases response with
      | none =>
        rw [fetchWeatherData_failed z s now loc hloc hvalid]
        exact ⟨rfl, rfl, rfl⟩
      | some json =>
        rw [fetchWeatherData_pinned z s now json loc hloc hvalid hpinned]
        exact ⟨rfl, rfl, rfl⟩

/-! ## `fetchDataForDate`: where the selection lands -/

/-- C11, as stated, fails: a `fetchDataForDate` that receives six hourly rows
(fewer than 13) leaves `selectedHourIndex = 12`, not `0`. -/
theorem jumpToDate_counterexample :
    exampleApp.currentLocation = some exampleLocation ∧
      shortDayData.hourlyRows = 6 ∧
      (fetchDataForDate exampleApp (some shortDayData)).weatherData = some shortDayData ∧
      (fetchDataForDate exampleApp (some shortDayData)).selectedHourIndex = 12 ∧
      (fetchDataForDate exampleApp (some shortDayData)).selectedHourIndex ≠ 0 :=
  ⟨rfl, by decide, rfl, by decide, by decide⟩

/-- C11, amended: after `fetchDataForDate` completes (a location is set and the
payload has a first `daily.time` entry), the payload is the loaded series,
`selectedDayIndex = 0`, `selectedDate` is the UTC calendar day of
`daily.time[0]` (that entry itself when it is a date-only string, which denotes
UTC midnight), and `selectedHourIndex = 12` whatever the number of hourly rows;
row 12 is the row the selection then points at whenever the series has one. -/
theorem jumpToDate_selection (s : App) (loc : Location) (json : WeatherData)
    (daily : Daily) (t0 : Instant) (hloc : s.currentLocation = some loc)
    (hdaily : json.daily = some daily) (h0 : daily.time[0]? = some t0) :
    (fetchDataForDate s (some json)).weatherData = some json ∧
      (fetchDataForDate s (some json)).selectedDayIndex = 0 ∧
      (fetchDataForDate s (some json)).selectedDate = some (isoDate t0) ∧
      (t0 % msPerDay = 0 → (fetchDataForDate s (some json)).selectedDate = some t0) ∧
      (fetchDataForDate s (some json)).selectedHourIndex = 12 ∧
      (∀ (hourly : Hourly) (t : Instant), json.hourly = some hourly →
        hourly.time[12]? = some t →
        (fetchDataForDate s (some json)).hourlyTime.bind
          (fun ts => getAt ts (fetchDataForDate s (some json)).selectedHourIndex) = some t) := by
  rw [fetchDataForDate_of_first_day s loc json daily t0 hloc hdaily h0]
  refine ⟨rfl, rfl, rfl, ?_, rfl, ?_⟩
  · intro hmid
    simp only
    unfold isoDate Day
    rw [Int.ediv_mul_cancel (Int.dvd_of_emod_eq_zero hmid)]
  · intro hourly t hh h12
    simp only [App.hourlyTime, Option.some_bind, hh, Option.map_some']
    simp [getAt, h12]

/-- Witness for C11: the 24 rows of 2 January 2024 arrive; the selection lands
on day 0, date 2 January, row 12, whose hour of day is 12. -/
theorem jumpToDate_selection_witness :
    exampleApp.currentLocation = some exampleLocation ∧
      (fetchDataForDate exampleApp (some secondDayData)).selectedDayIndex = 0 ∧
      (fetchDataForDate exampleApp (some secondDayData)).selectedDate = some (utc 2024 1 2 0) ∧
      (fetchDataForDate exampleApp (some secondDayData)).selectedHourIndex = 12 ∧
      getHours exampleZone (localIST 2024 1 2 12) = 12 ∧
      (fetchDataForDate exampleApp (some secondDayData)).hourlyTime.bind
          (fun ts => getAt ts (fetchDataForDate exampleApp (some secondDayData)).selectedHourIndex)
        = some (localIST 2024 1 2 12) :=
  ⟨rfl,
    (jumpToDate_selection exampleApp exampleLocation secondDayData
      { time := [utc 2024 1 2 0] } (utc 2024 1 2 0) rfl rfl rfl).2.1,
    (jumpToDate_selection exampleApp exampleLocation secondDayData
      { time := [utc 2024 1 2 0] } (utc 2024 1 2 0) rfl rfl rfl).2.2.2.1 (by decide),
    (jumpToDate_selection exampleApp exampleLocation secondDayData
      { time := [utc 2024 1 2 0] } (utc 2024 1 2 0) rfl rfl rfl).2.2.2.2.1,
    by decide,
    (jumpToDate_selection exampleApp exampleLocation secondDayData
      { time := [utc 2024 1 2 0] } (utc 2024 1 2 0) rfl rfl rfl).2.2.2.2.2
      { time := exampleHourly.drop 24 } (localIST 2024 1 2 12) rfl (by decide)⟩

/-! ## The forecast cache -/

theorem toFixed_eq_iff (digits : Nat) (a b : ℚ) :
    toFixed digits a = toFixed digits b ↔
      ((a < 0 ↔ b < 0) ∧ roundedTo digits a = roundedTo digits b) := by
  have hpow : (10 : ℚ) ^ digits ≠ 0 := by positivity
  unfold toFixed roundedTo
  rw [Prod.mk.injEq]
  constructor
  · rintro ⟨hs, hn⟩
    have hs' : a < 0 ↔ b < 0 := by simpa using hs
    refine ⟨hs', ?_⟩
    rw [hn]
    by_cases ha : a < 0
    · simp [ha, hs'.mp ha]
    · have hb : ¬ b < 0 := fun h => ha (hs'.mpr h)
      simp [ha, hb]
  · rintro ⟨hs, hr⟩
    refine ⟨by simpa using hs, ?_⟩
    by_cases ha : a < 0
    · have hb : b < 0 := hs.mp ha
      simp only [ha, hb, if_true] at hr
      have h2 := (div_left_inj' hpow).mp hr
      have h3 : ((⌊|a| * (10 : ℚ) ^ digits + 1 / 2⌋ : Int) : ℚ)
          = ((⌊|b| * (10 : ℚ) ^ digits + 1 / 2⌋ : Int) : ℚ) := by linarith
      exact_mod_cast h3
    · have hb : ¬ b < 0 := fun h => ha (hs.mpr h)
      simp only [ha, hb, if_false] at hr
      have h2 := (div_left_inj' hpow).mp hr
      have h3 : ((⌊|a| * (10 : ℚ) ^ digits + 1 / 2⌋ : Int) : ℚ)
          = ((⌊|b| * (10 : ℚ) ^ digits + 1 / 2⌋ : Int) : ℚ) := by linarith
      exact_mod_cast h3

/-- C12, as stated, fails: with a series stored for a latitude of -0.00001,
fetched at this very instant, and a candidate at latitude 0.00001 on the same
meridian, both latitudes round to 0 at 4 decimal places, so the contract holds;
but `isCacheValid` returns `false`, because `toFixed(4)` prints `-0.0000` for
the one and `0.0000` for the other. -/
theorem isCacheValid_counterexample :
    isValidSpec
        (selectLocation exampleZone App.init southOfEquator (localIST 2024 1 1 10)
          (some exampleData)).cache
        northOfEquator (localIST 2024 1 1 10) ∧
      isCacheValid
        { selectLocation exampleZone App.init southOfEquator (localIST 2024 1 1 10)
            (some exampleData) with currentLocation := some northOfEquator }
        (localIST 2024 1 1 10) = some false := by
  refine ⟨⟨by with_unfolding_all decide, ⟨southOfEquator, rfl, ?_, ?_⟩, by decide⟩, ?_⟩
  · with_unfolding_all decide
  · rfl
  · with_unfolding_all decide

/-- C12, amended: for a candidate location, `isCacheValid` returns `true` if
and only if a series and a location are stored, the stored latitude and
longitude each equal the candidate's when rounded to 4 decimal places and
carry the same sign in their `toFixed(4)` rendering (a negative coordinate
printed `-0.0000` does not match a non-negative one printed `0.0000`), and
`now - fetchedAt < 300000` ms. -/
theorem isCacheValid_iff (s : App) (loc : Location) (now : Int)
    (hloc : s.currentLocation = some loc) :
    isCacheValid s now = some true ↔
      (s.cache.weatherData ≠ none ∧
        (∃ stored, s.cache.locationData = some stored ∧
          roundedTo 4 stored.latitude = roundedTo 4 loc.latitude ∧
          (stored.latitude < 0 ↔ loc.latitude < 0) ∧
          roundedTo 4 stored.longitude = roundedTo 4 loc.longitude ∧
          (stored.longitude < 0 ↔ loc.longitude < 0)) ∧
        now - s.cache.timestamp < 5 * 60 * 1000) := by
  cases hw : s.cache.weatherData with
  | none =>
    rw [isCacheValid_of_no_series s now hw]
    simp
  | some w =>
    cases hl : s.cache.locationData with
    | none =>
      rw [isCacheValid_of_no_location s now hl]
      simp
    | some stored =>
      rw [isCacheValid_of_stored s now w stored loc hw hl hloc]
      constructor
      · intro h
        split_ifs at h with hc
        · obtain ⟨h1, h2⟩ := hc
          have hlat := (toFixed_eq_iff 4 _ _).mp h1
          have hlon := (toFixed_eq_iff 4 _ _).mp h2
          refine ⟨by simp, ⟨stored, rfl, hlat.2, hlat.1, hlon.2, hlon.1⟩, ?_⟩
          simpa using h
        · simp at h
      · rintro ⟨-, ⟨stored', hst, hlat, hslat, hlon, hslon⟩, hage⟩
        simp only [Option.some.injEq] at hst
        subst hst
        have h1 := (toFixed_eq_iff 4 _ _).mpr ⟨hslat, hlat⟩
        have h2 := (toFixed_eq_iff 4 _ _).mpr ⟨hslon, hlon⟩
        rw [if_pos ⟨h1, h2⟩]
        simp only [Option.some.injEq, decide_eq_true_eq]
        exact hage

/-- Witness for C12 (scenario E): a series stored for (12.9716, 77.5946) three
minutes ago is valid for that location and invalid for (12.9717, 77.5946). -/
theorem isCacheValid_iff_witness :
    exampleApp.currentLocation = some exampleLocation ∧
      exampleApp.cache.locationData = some exampleLocation ∧
      isCacheValid exampleApp (localIST 2024 1 1 10 + 3 * 60000) = some true ∧
      roundedTo 4 exampleLocation.latitude ≠ roundedTo 4 nearbyLocation.latitude ∧
      isCacheValid { exampleApp with currentLocation := some nearbyLocation }
        (localIST 2024 1 1 10 + 3 * 60000) ≠ some true := by
  refine ⟨rfl, rfl, ?_, by with_unfolding_all decide, ?_⟩
  · exact (isCacheValid_iff exampleApp exampleLocation _ rfl).mpr
      ⟨by with_unfolding_all decide, ⟨exampleLocation, rfl, rfl, Iff.rfl, rfl, Iff.rfl⟩,
        by decide⟩
  · intro h
    obtain ⟨-, ⟨stored, hst, hlat, -⟩, -⟩ :=
      (isCacheValid_iff { exampleApp with currentLocation := some nearbyLocation }
        nearbyLocation _ rfl).mp h
    have hst' : stored = exampleLocation := by
      have h2 : exampleApp.cache.locationData = some stored := hst
      have h3 : exampleApp.cache.locationData = some exampleLocation := rfl
      rw [h3] at h2
      exact (Option.some.inj h2).symm
    rw [hst'] at hlat
    revert hlat
    with_unfolding_all decide

/-- C13, the input at which the code departs from it: the timestamp 0 that
`refreshWeatherData` writes to force a request is read as an age of `now - 0`,
so with the example entry stored, zeroing the timestamp and checking at clock
value 1000 ms, within five minutes of the epoch, returns `true`. -/
theorem invalidate_counterexample :
    exampleApp.currentLocation = some exampleLocation ∧
      isCacheValid { exampleApp with cache := { exampleApp.cache with timestamp := 0 } } 1000
        = some true := by
  refine ⟨rfl, ?_⟩
  with_unfolding_all decide

theorem refresh_forces_network (z : Zone) (s : App) (loc : Location) (now : Int)
    (hloc : s.currentLocation = some loc) (hnow : 5 * 60 * 1000 ≤ now) :
    isCacheValid { s with cache := { s.cache with timestamp := 0 } } now = some false ∧
      (∀ json, s.isLoading = false →
        (refreshWeatherData z s now (some json)).weatherData = some json) := by
  have hinv : isCacheValid { s with cache := { s.cache with timestamp := 0 } } now
      = some false := by
    cases hw : s.cache.weatherData with
    | none => exact isCacheValid_of_no_series _ now hw
    | some w =>
      cases hl : s.cache.locationData with
      | none => exact isCacheValid_of_no_location _ now hl
      | some stored =>
        rw [isCacheValid_of_stored { s with cache := { s.cache with timestamp := 0 } }
          now w stored loc hw hl hloc]
        split_ifs
        · have : ¬ (now - 0 < 5 * 60 * 1000) := by omega
          simp only [Option.some.injEq, decide_eq_false_iff_not]
          exact this
        · rfl
  refine ⟨hinv, ?_⟩
  intro json hload
  have hg : ¬ (s.currentLocation = none ∨ s.isLoading = true) := by simp [hloc, hload]
  have hne : isCacheValid { s with cache := { s.cache with timestamp := 0 } } now
      ≠ some true := by rw [hinv]; simp
  unfold refreshWeatherData
  rw [if_neg hg]
  by_cases hlive : s.selectedDate = none
  · rw [fetchWeatherData_live z { s with cache := { s.cache with timestamp := 0 } }
      now json loc hloc hne hlive]
  · rw [fetchWeatherData_pinned z { s with cache := { s.cache with timestamp := 0 } }
      now json loc hloc hne hlive]

/-- C13: for every cache state and every location, at every clock value of
at least 300000 ms (five minutes past the epoch, as any present-day clock
reads), the validity check made right after `refreshWeatherData` zeroed the
cache timestamp returns `false`, whatever the age of the entry; so the
refresh, when it is not blocked by a missing location or a load in progress,
takes the response of the network. -/
theorem invalid_after_invalidate (z : Zone) (s : App) (loc : Location) (now : Int)
    (hloc : s.currentLocation = some loc) (hnow : 5 * 60 * 1000 ≤ now) :
    isCacheValid { s with cache := { s.cache with timestamp := 0 } } now = some false ∧
      (∀ json, s.isLoading = false →
        (refreshWeatherData z s now (some json)).weatherData = some json) :=
  refresh_forces_network z s loc now hloc hnow

/-- Witness for C13: the example entry, stored one minute before, is valid;
after the timestamp is zeroed the check fails. -/
theorem invalid_after_invalidate_witness :
    exampleApp.currentLocation = some exampleLocation ∧
      5 * 60 * 1000 ≤ localIST 2024 1 1 10 + 60000 ∧
      isCacheValid exampleApp (localIST 2024 1 1 10 + 60000) = some true ∧
      isCacheValid { exampleApp with cache := { exampleApp.cache with timestamp := 0 } }
        (localIST 2024 1 1 10 + 60000) = some false :=
  ⟨rfl, by decide, by with_unfolding_all decide,
    (invalid_after_invalidate exampleZone exampleApp exampleLocation
      (localIST 2024 1 1 10 + 60000) rfl (by decide)).1⟩

/-- C14: after the successful-fetch path of `fetchWeatherData` ran at clock
time `t` for location `loc`, the cache holds the fetched series, that location
and `timestamp = t`; the validity check for the same location is then `true`
at time `t` and at every `t'` with `t' - t < 300000` ms, and `false` at every
`t'` with `t' - t ≥ 300000` ms. -/
theorem cache_valid_after_store (z : Zone) (s : App) (loc : Location) (t : Int)
    (json : WeatherData) (hloc : s.currentLocation = some loc)
    (hnet : isCacheValid s t ≠ some true) :
    (fetchWeatherData z s t (some json)).cache
        = { weatherData := some json, locationData := some loc, timestamp := t } ∧
      (fetchWeatherData z s t (some json)).currentLocation = some loc ∧
      isCacheValid (fetchWeatherData z s t (some json)) t = some true ∧
      (∀ t', t' - t < 5 * 60 * 1000 →
        isCacheValid (fetchWeatherData z s t (some json)) t' = some true) ∧
      (∀ t', 5 * 60 * 1000 ≤ t' - t →
        isCacheValid (fetchWeatherData z s t (some json)) t' = some false) := by
  have hc : (fetchWeatherData z s t (some json)).cache
      = { weatherData := some json, locationData := some loc, timestamp := t } := by
    by_cases hlive : s.selectedDate = none
    · rw [fetchWeatherData_live z s t json loc hloc hnet hlive]
    · rw [fetchWeatherData_pinned z s t json loc hloc hnet hlive]
  have hl : (fetchWeatherData z s t (some json)).currentLocation = some loc := by
    by_cases hlive : s.selectedDate = none
    · rw [fetchWeatherData_live z s t json loc hloc hnet hlive]; exact hloc
    · rw [fetchWeatherData_pinned z s t json loc hloc hnet hlive]; exact hloc
  have hv : ∀ t', isCacheValid (fetchWeatherData z s t (some json)) t'
      = some (decide (t' - t < 5 * 60 * 1000)) := by
    intro t'
    rw [isCacheValid_of_stored _ t' json loc loc (by rw [hc]) (by rw [hc]) hl, hc]
    simp
  refine ⟨hc, hl, ?_, ?_, ?_⟩
  · rw [hv]; simp
  · intro t' h
    rw [hv]
    simp only [Option.some.injEq, decide_eq_true_eq]
    exact h
  · intro t' h
    rw [hv]
    have : ¬ (t' - t < 5 * 60 * 1000) := by omega
    simp only [Option.some.injEq, decide_eq_false_iff_not]
    exact this

/-- Witness for C14: the first fetch of the example session, checked at once,
four minutes later and five minutes later. -/
theorem cache_valid_after_store_witness :
    ({ App.init with currentLocation := some exampleLocation } : App).currentLocation
        = some exampleLocation ∧
      isCacheValid { App.init with currentLocation := some exampleLocation }
        (localIST 2024 1 1 10) ≠ some true ∧
      isCacheValid exampleApp (localIST 2024 1 1 10) = some true ∧
      isCacheValid exampleApp (localIST 2024 1 1 10 + 4 * 60000) = some true ∧
      isCacheValid exampleApp (localIST 2024 1 1 10 + 5 * 60000) = some false :=
  ⟨rfl, by decide,
    (cache_valid_after_store exampleZone { App.init with currentLocation := some exampleLocation }
      exampleLocation (localIST 2024 1 1 10) exampleData rfl (by decide)).2.2.1,
    (cache_valid_after_store exampleZone { App.init with currentLocation := some exampleLocation }
      exampleLocation (localIST 2024 1 1 10) exampleData rfl (by decide)).2.2.2.1 _ (by decide),
    (cache_valid_after_store exampleZone { App.init with currentLocation := some exampleLocation }
      exampleLocation (localIST 2024 1 1 10) exampleData rfl (by decide)).2.2.2.2 _ (by decide)⟩

/-! ## The periodic tick and the periodic refresh -/

theorem updateTime_eq (s : App) (now : Instant) : updateTime s now = s := by
  unfold updateTime
  cases s.selectedDate <;> rfl

/-- C15, as stated, fails: in the Live example state, loaded at 10:00 with
`selectedHourIndex = 10`, the tick at 11:05 leaves `selectedHourIndex = 10`
although `getCurrentHourIndex()` is then 11. -/
theorem tick_counterexample :
    exampleApp.selectedDate = none ∧ exampleApp.weatherData = some exampleData ∧
      (updateTime exampleApp (localIST 2024 1 1 11 + 5 * 60000)).selectedHourIndex = 10 ∧
      getCurrentHourIndex exampleZone exampleApp (localIST 2024 1 1 11 + 5 * 60000) = 11 := by
  refine ⟨by decide, rfl, by decide, by decide⟩

theorem refreshWeatherData_live (z : Zone) (s : App) (loc : Location) (now : Instant)
    (json : WeatherData) (hloc : s.currentLocation = some loc) (hload : s.isLoading = false)
    (hnow : 5 * 60 * 1000 ≤ now) (hlive : s.selectedDate = none) :
    (refreshWeatherData z s now (some json)).selectedDate = none ∧
      (refreshWeatherData z s now (some json)).selectedDayIndex = 0 ∧
      (refreshWeatherData z s now (some json)).selectedHourIndex
        = getCurrentHourIndex z (refreshWeatherData z s now (some json)) now := by
  have hg : ¬ (s.currentLocation = none ∨ s.isLoading = true) := by simp [hloc, hload]
  have hne : isCacheValid { s with cache := { s.cache with timestamp := 0 } } now
      ≠ some true := by
    rw [(refresh_forces_network z s loc now hloc hnow).1]; simp
  unfold refreshWeatherData
  rw [if_neg hg, fetchWeatherData_live z { s with cache := { s.cache with timestamp := 0 } }
    now json loc hloc hne hlive]
  refine ⟨hlive, rfl, ?_⟩
  unfold getCurrentHourIndex
  rfl

/-- C15, amended: while the selection is Live, the one-minute tick
(`updateTime`) leaves `selectedDate` null and leaves both `selectedDayIndex`
and `selectedHourIndex` unchanged; it only rewrites the displayed clock.
`selectedHourIndex` is set to `getCurrentHourIndex()` at the current instant,
with `selectedDate` null and `selectedDayIndex = 0`, by the periodic refresh
when it runs (a location is set, no load is in progress, the clock reads at
least 300000 ms) and its request succeeds. -/
theorem tick_keeps_selection (z : Zone) (s : App) (now : Instant)
    (hlive : s.selectedDate = none) :
    ((updateTime s now).selectedDate = none ∧
        (updateTime s now).selectedDayIndex = s.selectedDayIndex ∧
        (updateTime s now).selectedHourIndex = s.selectedHourIndex) ∧
      (∀ (loc : Location) (json : WeatherData), s.currentLocation = some loc →
        s.isLoading = false → 5 * 60 * 1000 ≤ now →
        (refreshWeatherData z s now (some json)).selectedDate = none ∧
        (refreshWeatherData z s now (some json)).selectedDayIndex = 0 ∧
        (refreshWeatherData z s now (some json)).selectedHourIndex
          = getCurrentHourIndex z (refreshWeatherData z s now (some json)) now) := by
  refine ⟨?_, ?_⟩
  · rw [updateTime_eq]
    exact ⟨hlive, rfl, rfl⟩
  · intro loc json hloc hload hnow
    exact refreshWeatherData_live z s loc now json hloc hload hnow hlive

/-- Witness for C15: in the Live example state the tick at 11:05 keeps row 10
selected, and a successful refresh at that instant selects the row of the
current hour. -/
theorem tick_keeps_selection_witness :
    exampleApp.selectedDate = none ∧
      (updateTime exampleApp (localIST 2024 1 1 11 + 5 * 60000)).selectedDate = none ∧
      (updateTime exampleApp (localIST 2024 1 1 11 + 5 * 60000)).selectedDayIndex
        = exampleApp.selectedDayIndex ∧
      (updateTime exampleApp (localIST 2024 1 1 11 + 5 * 60000)).selectedHourIndex
        = exampleApp.selectedHourIndex ∧
      (refreshWeatherData exampleZone exampleApp (localIST 2024 1 1 11 + 5 * 60000)
          (some exampleData)).selectedHourIndex
        = getCurrentHourIndex exampleZone
            (refreshWeatherData exampleZone exampleApp (localIST 2024 1 1 11 + 5 * 60000)
              (some exampleData)) (localIST 2024 1 1 11 + 5 * 60000) := by
  have h := tick_keeps_selection exampleZone exampleApp (localIST 2024 1 1 11 + 5 * 60000)
    (by decide)
  exact ⟨by decide, h.1.1, h.1.2.1, h.1.2.2,
    (h.2 exampleLocation exampleData rfl rfl (by decide)).2.2⟩

/-- C16: while the selection is Pinned, neither the one-minute tick
(`updateTime`) nor a periodic refresh (`refreshWeatherData`, hence
`fetchWeatherData`), successful or not, changes `selectedDate`,
`selectedDayIndex` or `selectedHourIndex`. -/
theorem pinned_selection_frame (z : Zone) (s : App) (now : Instant)
    (response : Option WeatherData) (hpinned : s.selectedDate ≠ none) :
    ((updateTime s now).selectedDate = s.selectedDate ∧
        (updateTime s now).selectedDayIndex = s.selectedDayIndex ∧
        (updateTime s now).selectedHourIndex = s.selectedHourIndex) ∧
      ((refreshWeatherData z s now response).selectedDate = s.selectedDate ∧
        (refreshWeatherData z s now response).selectedDayIndex = s.selectedDayIndex ∧
        (refreshWeatherData z s now response).selectedHourIndex = s.selectedHourIndex) ∧
      ((fetchWeatherData z s now response).selectedDate = s.selectedDate ∧
        (fetchWeatherData z s now response).selectedDayIndex = s.selectedDayIndex ∧
        (fetchWeatherData z s now response).selectedHourIndex = s.selectedHourIndex) := by
  refine ⟨?_, ?_, fetchWeatherData_selection_of_pinned z s now response hpinned⟩
  · rw [updateTime_eq]; exact ⟨rfl, rfl, rfl⟩
  · unfold refreshWeatherData
    split_ifs with hg
    · exact ⟨rfl, rfl, rfl⟩
    · exact fetchWeatherData_selection_of_pinned z
        { s with cache := { s.cache with timestamp := 0 } } now response hpinned

/-- Witness for C16: Pinned at row 30 of the example, a refresh one hour later
that receives a fresh payload leaves the selection where it was, while the
payload is replaced. -/
theorem pinned_selection_frame_witness :
    (selectHour exampleZone exampleApp 30).selectedDate ≠ none ∧
      (refreshWeatherData exampleZone (selectHour exampleZone exampleApp 30)
          (localIST 2024 1 1 11) (some scenarioBData)).selectedDate
        = (selectHour exampleZone exampleApp 30).selectedDate ∧
      (refreshWeatherData exampleZone (selectHour exampleZone exampleApp 30)
          (localIST 2024 1 1 11) (some scenarioBData)).selectedDayIndex = 1 ∧
      (refreshWeatherData exampleZone (selectHour exampleZone exampleApp 30)
          (localIST 2024 1 1 11) (some scenarioBData)).selectedHourIndex = 30 ∧
      (refreshWeatherData exampleZone (selectHour exampleZone exampleApp 30)
          (localIST 2024 1 1 11) (some scenarioBData)).weatherData = some scenarioBData := by
  have h := (pinned_selection_frame exampleZone (selectHour exampleZone exampleApp 30)
    (localIST 2024 1 1 11) (some scenarioBData) (by decide)).2.1
  refine ⟨by decide, h.1, ?_, ?_, ?_⟩
  · rw [h.2.1]; decide
  · rw [h.2.2]; decide
  · exact (refresh_forces_network exampleZone (selectHour exampleZone exampleApp 30)
      exampleLocation (localIST 2024 1 1 11) rfl (by decide)).2 scenarioBData rfl

/-! ## The selected hour and the selected date -/

theorem getAt_natCast {α : Type} (xs : List α) (k : Nat) : getAt xs (k : Int) = xs[k]? := by
  unfold getAt
  have h : ¬ ((k : Int) < 0) := by omega
  simp [h]

theorem hourOnSelectedDate_of (z : Zone) (s : App) (d : Instant) (ts : List Instant)
    (t : Instant) (hd : s.selectedDate = some d) (hT : s.hourlyTime = some ts)
    (hrow : getAt ts s.selectedHourIndex = some t) (hday : sameCalendarDay z t d) :
    hourOnSelectedDate z s := by
  refine ⟨d, t, hd, ?_, hday⟩
  rw [hT]
  simp only [Option.some_bind, hrow]

theorem selectDayLoop_on_day (z : Zone) (target : Instant) (ts : List Instant)
    (hex : ∃ (k : Nat) (t : Instant), ts[k]? = some t ∧ sameCalendarDay z t target) :
    ∃ (k : Nat) (t : Instant), selectDayLoop z target ts 0 (-1) = (k : Int) ∧
      ts[k]? = some t ∧ sameCalendarDay z t target := by
  by_cases hnoon : ∃ (k : Nat) (t : Instant), ts[k]? = some t ∧
      (sameCalendarDay z t target ∧ getHours z t = 12)
  · obtain ⟨k, t, hk, hq, hmin⟩ :=
      exists_first (fun t => sameCalendarDay z t target ∧ getHours z t = 12) ts hnoon
    refine ⟨k, t, ?_, hk, hq.1⟩
    rw [selectDayLoop_noon z target ts 0 k (-1) t hk hq hmin]
    simp
  · have hno : ∀ (k : Nat) (t : Instant), ts[k]? = some t →
        ¬ (sameCalendarDay z t target ∧ getHours z t = 12) :=
      fun k t hk hq => hnoon ⟨k, t, hk, hq⟩
    obtain ⟨k, t, hk, hp, hmin⟩ := exists_first (fun t => sameCalendarDay z t target) ts hex
    refine ⟨k, t, ?_, hk, hp⟩
    rw [selectDayLoop_first z target ts 0 k t hk hp hmin hno]
    simp

/-- C17, as stated, fails.  In a browser five and a half hours east of
Greenwich, with the two-day example loaded, `selectHour(27)` (03:00 on
2 January) sets `selectedDate` to `2024-01-01`, the UTC date of that hour, a
different calendar day from the row's.  With no hourly row on the chosen day,
`selectDay(1)` keeps the hour index 10 of the day before.  A `fetchDataForDate`
that receives six rows points at row 12, which does not exist. -/
theorem hour_on_date_counterexample :
    ((selectHour exampleZone exampleApp 27).selectedDate ≠ none ∧
        (selectHour exampleZone exampleApp 27).weatherData = some exampleData ∧
        getAt exampleHourly 27 = some (localIST 2024 1 2 3) ∧
        ¬ hourOnSelectedDate exampleZone (selectHour exampleZone exampleApp 27)) ∧
      ((selectDay exampleZone missingSecondDayApp 1).selectedDate ≠ none ∧
        (selectDay exampleZone missingSecondDayApp 1).weatherData = some missingSecondDayData ∧
        ¬ hourOnSelectedDate exampleZone (selectDay exampleZone missingSecondDayApp 1)) ∧
      ((fetchDataForDate exampleApp (some shortDayData)).selectedDate ≠ none ∧
        (fetchDataForDate exampleApp (some shortDayData)).weatherData = some shortDayData ∧
        ¬ hourOnSelectedDate exampleZone (fetchDataForDate exampleApp (some shortDayData))) := by
  refine ⟨⟨by decide, ?_, by decide, by decide⟩, ⟨by decide, ?_, by decide⟩,
    ⟨by decide, rfl, by decide⟩⟩
  · rw [selectHour_weatherData]; rfl
  · rw [selectDay_weatherData]; rfl

/-- C17, amended: the hourly row at `selectedHourIndex` falls on the calendar
day of `selectedDate` after `selectDay(i)` for a valid `i` whenever some
loaded hourly row falls on the day of `daily.time[i]`; after a completed
`fetchDataForDate` whenever row 12 of the payload falls on the day
`selectedDate` is set to; and after `selectHour(i)` for a valid `i` whenever
the row's calendar day is the one its UTC date denotes.  Nothing is said of
`selectHour` on rows whose local and UTC dates differ, nor of states reached by
later fetches. -/
theorem hour_on_date (z : Zone) (s : App) :
    (∀ (dt ht : List Instant) (i : Int) (target : Instant), s.dailyTime = some dt →
        getAt dt i = some target → s.hourlyTime = some ht →
        (∃ (k : Nat) (t : Instant), ht[k]? = some t ∧ sameCalendarDay z t target) →
        hourOnSelectedDate z (selectDay z s i)) ∧
      (∀ (loc : Location) (json : WeatherData) (daily : Daily) (hourly : Hourly)
          (t0 t : Instant), s.currentLocation = some loc → json.daily = some daily →
        daily.time[0]? = some t0 → json.hourly = some hourly → hourly.time[12]? = some t →
        sameCalendarDay z t (isoDate t0) →
        hourOnSelectedDate z (fetchDataForDate s (some json))) ∧
      (∀ (ht : List Instant) (i : Int) (t : Instant), s.hourlyTime = some ht →
        getAt ht i = some t → sameCalendarDay z t (isoDate t) →
        hourOnSelectedDate z (selectHour z s i)) := by
  refine ⟨?_, ?_, ?_⟩
  · intro dt ht i target hD hi hT hex
    obtain ⟨k, t, hloop, hk, hp⟩ := selectDayLoop_on_day z target ht hex
    have hne : selectDayLoop z target ht 0 (-1) ≠ -1 := by rw [hloop]; omega
    rw [selectDay_of_valid z s dt ht i target hD hi hT, if_pos hne, hloop]
    exact hourOnSelectedDate_of z _ target ht t rfl hT
      (by rw [← getAt_natCast] at hk; exact hk) hp
  · intro loc json daily hourly t0 t hloc hdaily h0 hh h12 hday
    rw [fetchDataForDate_of_first_day s loc json daily t0 hloc hdaily h0]
    refine hourOnSelectedDate_of z _ (isoDate t0) hourly.time t rfl ?_ ?_ hday
    · simp [App.hourlyTime, hh]
    · have : getAt hourly.time ((12 : Nat) : Int) = hourly.time[12]? := getAt_natCast _ 12
      rw [← h12, ← this]; rfl
  · intro ht i t hT hi hday
    rw [selectHour_of_valid z s ht i t hT hi]
    split
    · exact hourOnSelectedDate_of z _ (isoDate t) ht t rfl hT hi hday
    · exact hourOnSelectedDate_of z _ (isoDate t) ht t rfl hT hi hday

/-- Witness for C17: in the example, `selectDay(1)` lands on an hour of
2 January, a completed `fetchDataForDate` for 2 January on its row 12, and
`selectHour(30)` (06:00 on 2 January) on a row of its own date. -/
theorem hour_on_date_witness :
    hourOnSelectedDate exampleZone (selectDay exampleZone exampleApp 1) ∧
      hourOnSelectedDate exampleZone (fetchDataForDate exampleApp (some secondDayData)) ∧
      hourOnSelectedDate exampleZone (selectHour exampleZone exampleApp 30) := by
  have h1 := (hour_on_date exampleZone exampleApp).1 exampleDaily exampleHourly 1
    (utc 2024 1 2 0)
  have h2 := (hour_on_date exampleZone exampleApp).2.1 exampleLocation secondDayData
    { time := [utc 2024 1 2 0] } { time := exampleHourly.drop 24 } (utc 2024 1 2 0)
    (localIST 2024 1 2 12)
  have h3 := (hour_on_date exampleZone exampleApp).2.2 exampleHourly 30 (localIST 2024 1 2 6)
  exact ⟨h1 (by decide) (by decide) (by decide) ⟨30, localIST 2024 1 2 6, by decide, by decide⟩,
    h2 rfl rfl rfl rfl (by decide) (by decide),
    h3 (by decide) (by decide) (by decide)⟩

/-! ## Replacing the series -/

/-- C18, as stated, fails: Pinned at row 30 of day 1 of the two-day example, a
refresh that receives the 24-row, one-day payload leaves
`selectedHourIndex = 30 > 23` and `selectedDayIndex = 1 > 0`. -/
theorem replace_counterexample :
    (selectHour exampleZone exampleApp 30).selectedDate ≠ none ∧
      (refreshWeatherData exampleZone (selectHour exampleZone exampleApp 30)
          (localIST 2024 1 1 11) (some scenarioAData)).weatherData = some scenarioAData ∧
      scenarioAData.hourlyRows = 24 ∧ scenarioAData.dailyRows = 1 ∧
      ¬ ((refreshWeatherData exampleZone (selectHour exampleZone exampleApp 30)
          (localIST 2024 1 1 11) (some scenarioAData)).selectedHourIndex
            ≤ (scenarioAData.hourlyRows : Int) - 1) ∧
      ¬ ((refreshWeatherData exampleZone (selectHour exampleZone exampleApp 30)
          (localIST 2024 1 1 11) (some scenarioAData)).selectedDayIndex
            ≤ (scenarioAData.dailyRows : Int) - 1) := by
  have hp : (selectHour exampleZone exampleApp 30).selectedDate ≠ none := by decide
  have hsel := fetchWeatherData_selection_of_pinned exampleZone
    { selectHour exampleZone exampleApp 30 with
      cache := { (selectHour exampleZone exampleApp 30).cache with timestamp := 0 } }
    (localIST 2024 1 1 11) (some scenarioAData) hp
  have hr : refreshWeatherData exampleZone (selectHour exampleZone exampleApp 30)
      (localIST 2024 1 1 11) (some scenarioAData)
      = fetchWeatherData exampleZone
        { selectHour exampleZone exampleApp 30 with
          cache := { (selectHour exampleZone exampleApp 30).cache with timestamp := 0 } }
        (localIST 2024 1 1 11) (some scenarioAData) := by
    unfold refreshWeatherData
    rw [if_neg (by decide)]
  refine ⟨hp, ?_, by decide, by decide, ?_, ?_⟩
  · exact (refresh_forces_network exampleZone (selectHour exampleZone exampleApp 30)
      exampleLocation (localIST 2024 1 1 11) rfl (by decide)).2 scenarioAData rfl
  · rw [hr, hsel.2.2]; decide
  · rw [hr, hsel.2.1]; decide

theorem hourlyLen_of_weatherData (s : App) (w : WeatherData) (h : s.weatherData = some w) :
    s.hourlyLen = (w.hourlyRows : Int) := by
  unfold App.hourlyLen; rw [h]

theorem dailyLen_of_weatherData (s : App) (w : WeatherData) (h : s.weatherData = some w) :
    s.dailyLen = (w.dailyRows : Int) := by
  unfold App.dailyLen; rw [h]

/-- C18, amended: when the series is replaced by a successful network fetch
while the selection is Live and the new series has non-empty hourly and daily
arrays, the indices are recomputed within the new bounds:
`0 ≤ selectedHourIndex ≤ len(new hourly) - 1` and
`selectedDayIndex = 0 ≤ len(new daily) - 1`.  While Pinned, the fetch leaves
both indices exactly as they were; they are not clamped. -/
theorem replace_selection (z : Zone) (s : App) (loc : Location) (now : Instant)
    (json : WeatherData) (hloc : s.currentLocation = some loc)
    (hnet : isCacheValid s now ≠ some true) (hrows : json.hasRows = true) :
    (fetchWeatherData z s now (some json)).weatherData = some json ∧
      (s.selectedDate = none →
        0 ≤ (fetchWeatherData z s now (some json)).selectedHourIndex ∧
        (fetchWeatherData z s now (some json)).selectedHourIndex
          ≤ (json.hourlyRows : Int) - 1 ∧
        (fetchWeatherData z s now (some json)).selectedDayIndex = 0 ∧
        (fetchWeatherData z s now (some json)).selectedDayIndex ≤ (json.dailyRows : Int) - 1) ∧
      (s.selectedDate ≠ none →
        (fetchWeatherData z s now (some json)).selectedHourIndex = s.selectedHourIndex ∧
        (fetchWeatherData z s now (some json)).selectedDayIndex = s.selectedDayIndex) := by
  obtain ⟨hpos, dpos⟩ := hasRows_pos json hrows
  refine ⟨?_, ?_, ?_⟩
  · by_cases hlive : s.selectedDate = none
    · rw [fetchWeatherData_live z s now json loc hloc hnet hlive]
    · rw [fetchWeatherData_pinned z s now json loc hloc hnet hlive]
  · intro hlive
    rw [fetchWeatherData_live z s now json loc hloc hnet hlive]
    have hr := getCurrentHourIndex_range z
      { s with
        weatherData := some json
        cache := { weatherData := some json, locationData := some loc, timestamp := now } } now
    rw [hourlyLen_of_weatherData _ json rfl] at hr
    refine ⟨hr.1, ?_, rfl, ?_⟩
    · rcases hr.2 with h | h
      · simp only; rw [h]; omega
      · simp only; omega
    · simp only; omega
  · intro hpinned
    have h := fetchWeatherData_selection_of_pinned z s now (some json) hpinned
    exact ⟨h.2.2, h.2.1⟩

/-- Witness for C18: Live at row 10 of the two-day example, a refresh at 11:05
that receives the 24-row payload of scenario A moves the selection to row 11
of day 0. -/
theorem replace_selection_witness :
    ({ exampleApp with cache := { exampleApp.cache with timestamp := 0 } } : App).currentLocation
        = some exampleLocation ∧
      exampleApp.selectedDate = none ∧ scenarioAData.hasRows = true ∧
      (fetchWeatherData exampleZone
          { exampleApp with cache := { exampleApp.cache with timestamp := 0 } }
          (localIST 2024 1 1 11 + 5 * 60000) (some scenarioAData)).selectedHourIndex ≤ 23 ∧
      (fetchWeatherData exampleZone
          { exampleApp with cache := { exampleApp.cache with timestamp := 0 } }
          (localIST 2024 1 1 11 + 5 * 60000) (some scenarioAData)).selectedDayIndex = 0 := by
  have h := (replace_selection exampleZone
    { exampleApp with cache := { exampleApp.cache with timestamp := 0 } } exampleLocation
    (localIST 2024 1 1 11 + 5 * 60000) scenarioAData rfl
    (by with_unfolding_all decide) (by decide)).2.1 (by decide)
  exact ⟨rfl, by decide, by decide, h.2.1, h.2.2.1⟩

/-! ## A new location -/

/-- C19, as stated, fails: Pinned at row 30 of day 1 of the example, selecting
another location whose forecast is fetched and loaded leaves `selectedDate`
set, `selectedDayIndex = 1` and `selectedHourIndex = 30`, while
`getCurrentHourIndex()` on the new series is 2. -/
theorem new_location_counterexample :
    (selectLocation exampleZone (selectHour exampleZone exampleApp 30) nearbyLocation
        (localIST 2024 1 1 12) (some scenarioBData)).weatherData = some scenarioBData ∧
      (selectLocation exampleZone (selectHour exampleZone exampleApp 30) nearbyLocation
        (localIST 2024 1 1 12) (some scenarioBData)).selectedDate ≠ none ∧
      (selectLocation exampleZone (selectHour exampleZone exampleApp 30) nearbyLocation
        (localIST 2024 1 1 12) (some scenarioBData)).selectedDayIndex = 1 ∧
      (selectLocation exampleZone (selectHour exampleZone exampleApp 30) nearbyLocation
        (localIST 2024 1 1 12) (some scenarioBData)).selectedHourIndex = 30 ∧
      getCurrentHourIndex exampleZone
        (selectLocation exampleZone (selectHour exampleZone exampleApp 30) nearbyLocation
          (localIST 2024 1 1 12) (some scenarioBData)) (localIST 2024 1 1 12) = 2 := by
  have hp : (selectHour exampleZone exampleApp 30).selectedDate ≠ none := by decide
  have hnet : isCacheValid
      { selectHour exampleZone exampleApp 30 with currentLocation := some nearbyLocation }
      (localIST 2024 1 1 12) ≠ some true := by with_unfolding_all decide
  have hs : selectLocation exampleZone (selectHour exampleZone exampleApp 30) nearbyLocation
      (localIST 2024 1 1 12) (some scenarioBData)
      = { selectHour exampleZone exampleApp 30 with
          currentLocation := some nearbyLocation
          weatherData := some scenarioBData
          cache := { weatherData := some scenarioBData, locationData := some nearbyLocation,
                     timestamp := localIST 2024 1 1 12 }
          isLoading := false } :=
    fetchWeatherData_pinned exampleZone
      { selectHour exampleZone exampleApp 30 with currentLocation := some nearbyLocation }
      (localIST 2024 1 1 12) scenarioBData nearbyLocation rfl hnet hp
  rw [hs]
  refine ⟨rfl, hp, by decide, by decide, by decide⟩

/-- C19, amended: when a new location is supplied and its forecast is loaded
by a network fetch (the cache entry is not valid for it) while the selection
is Live, afterwards `selectedDate = null`, `selectedDayIndex = 0` and
`selectedHourIndex = getCurrentHourIndex()` on the new series; while the
selection is Pinned the same fetch loads the forecast and leaves
`selectedDate`, `selectedDayIndex` and `selectedHourIndex` as they were. -/
theorem new_location_selection (z : Zone) (s : App) (loc : Location) (now : Instant)
    (json : WeatherData)
    (hnet : isCacheValid { s with currentLocation := some loc } now ≠ some true) :
    (selectLocation z s loc now (some json)).weatherData = some json ∧
      (s.selectedDate = none →
        (selectLocation z s loc now (some json)).selectedDate = none ∧
        (selectLocation z s loc now (some json)).selectedDayIndex = 0 ∧
        (selectLocation z s loc now (some json)).selectedHourIndex
          = getCurrentHourIndex z (selectLocation z s loc now (some json)) now) ∧
      (s.selectedDate ≠ none →
        (selectLocation z s loc now (some json)).selectedDate = s.selectedDate ∧
        (selectLocation z s loc now (some json)).selectedDayIndex = s.selectedDayIndex ∧
        (selectLocation z s loc now (some json)).selectedHourIndex = s.selectedHourIndex) := by
  unfold selectLocation
  refine ⟨?_, ?_, ?_⟩
  · by_cases hlive : s.selectedDate = none
    · rw [fetchWeatherData_live z { s with currentLocation := some loc } now json loc rfl
        hnet hlive]
    · rw [fetchWeatherData_pinned z { s with currentLocation := some loc } now json loc rfl
        hnet hlive]
  · intro hlive
    rw [fetchWeatherData_live z { s with currentLocation := some loc } now json loc rfl
      hnet hlive]
    refine ⟨hlive, rfl, ?_⟩
    unfold getCurrentHourIndex
    rfl
  · intro hpinned
    exact fetchWeatherData_selection_of_pinned z { s with currentLocation := some loc } now
      (some json) hpinned

/-- Witness for C19: Live in the example, a new location selected at 12:00
loads the seven-day payload of scenario B and moves the selection to its row 2
(the 12:00 row), day 0. -/
theorem new_location_selection_witness :
    isCacheValid { exampleApp with currentLocation := some nearbyLocation }
        (localIST 2024 1 1 12) ≠ some true ∧
      exampleApp.selectedDate = none ∧
      (selectLocation exampleZone exampleApp nearbyLocation (localIST 2024 1 1 12)
        (some scenarioBData)).selectedDate = none ∧
      (selectLocation exampleZone exampleApp nearbyLocation (localIST 2024 1 1 12)
        (some scenarioBData)).selectedDayIndex = 0 ∧
      (selectLocation exampleZone exampleApp nearbyLocation (localIST 2024 1 1 12)
        (some scenarioBData)).selectedHourIndex
        = getCurrentHourIndex exampleZone
            (selectLocation exampleZone exampleApp nearbyLocation (localIST 2024 1 1 12)
              (some scenarioBData)) (localIST 2024 1 1 12) := by
  have hnet : isCacheValid { exampleApp with currentLocation := some nearbyLocation }
      (localIST 2024 1 1 12) ≠ some true := by with_unfolding_all decide
  have h := (new_location_selection exampleZone exampleApp nearbyLocation
    (localIST 2024 1 1 12) scenarioBData hnet).2.1 (by decide)
  exact ⟨hnet, by decide, h⟩

/-! ## The row of the selected hour -/

theorem getSelectedHourData_of_hourly (s : App) (w : WeatherData) (h : Hourly)
    (hw : s.weatherData = some w) (hh : w.hourly = some h) :
    getSelectedHourData s
      = compositeRow h (min (max s.selectedHourIndex 0) ((h.time.length : Int) - 1)) := by
  unfold getSelectedHourData compositeRow
  simp only [hw, hh]

/-- C20, as stated, fails: with the two-row payload loaded (temperatures 10 and
20), reading at index 5 returns the last row, temperature 20 and the timestamp
of row 1, not a row with every field undefined; reading at index -3 returns
the first row. -/
theorem hourlyRow_counterexample :
    twoRowApp.weatherData = some twoRowData ∧ twoRowData.hourlyRows = 2 ∧
      (getSelectedHourData { twoRowApp with selectedHourIndex := 5 }).temperature_2m
        = Val.num 20 ∧
      (getSelectedHourData { twoRowApp with selectedHourIndex := 5 }).time
        = some (localIST 2024 1 1 1) ∧
      getSelectedHourData { twoRowApp with selectedHourIndex := 5 } ≠ unknownRow ∧
      (getSelectedHourData { twoRowApp with selectedHourIndex := -3 }).temperature_2m
        = Val.num 10 ∧
      getSelectedHourData { twoRowApp with selectedHourIndex := -3 } ≠ unknownRow := by
  have h5 : (getSelectedHourData { twoRowApp with selectedHourIndex := 5 }).time
      = some (localIST 2024 1 1 1) := by decide
  have h3 : (getSelectedHourData { twoRowApp with selectedHourIndex := -3 }).time
      = some (localIST 2024 1 1 0) := by decide
  refine ⟨rfl, by decide, rfl, h5, ?_, rfl, ?_⟩
  · intro h
    rw [h] at h5
    exact absurd h5 (by decide)
  · intro h
    rw [h] at h3
    exact absurd h3 (by decide)

/-- C20, amended: with an hourly series of `N` rows loaded,
`getSelectedHourData` reading index `i` returns the composite row at index
`min(max(i, 0), N - 1)`: the row at exactly `i` when `0 ≤ i < N`, the first
row when `i < 0` and the last row when `i ≥ N` (for `N ≥ 1`), never a sentinel
row for an out-of-bounds index.  Every field is undefined only when no payload
is loaded, or when the payload has neither an hourly block nor a `current`
block; without an hourly block the `current` block is returned.  The function
is total: it never raises. -/
theorem hourlyRow_clamped (s : App) (index : Int) :
    (∀ (w : WeatherData) (h : Hourly), s.weatherData = some w → w.hourly = some h →
        getSelectedHourData { s with selectedHourIndex := index }
            = compositeRow h (min (max index 0) ((h.time.length : Int) - 1)) ∧
          (0 ≤ index → index < (h.time.length : Int) →
            getSelectedHourData { s with selectedHourIndex := index } = compositeRow h index) ∧
          (index < 0 → 1 ≤ h.time.length →
            getSelectedHourData { s with selectedHourIndex := index } = compositeRow h 0) ∧
          ((h.time.length : Int) ≤ index → 1 ≤ h.time.length →
            getSelectedHourData { s with selectedHourIndex := index }
              = compositeRow h ((h.time.length : Int) - 1))) ∧
      (s.weatherData = none →
        getSelectedHourData { s with selectedHourIndex := index } = unknownRow) ∧
      (∀ (w : WeatherData), s.weatherData = some w → w.hourly = none →
        getSelectedHourData { s with selectedHourIndex := index }
          = match w.current with
            | some current => current
            | none => unknownRow) := by
  refine ⟨?_, ?_, ?_⟩
  · intro w h hw hh
    have hrow := getSelectedHourData_of_hourly { s with selectedHourIndex := index } w h hw hh
    refine ⟨hrow, ?_, ?_, ?_⟩
    · intro h0 h1
      rw [hrow]
      congr 1
      show min (max index 0) ((h.time.length : Int) - 1) = index
      rw [max_eq_left h0, min_eq_left (by omega)]
    · intro h0 h1
      rw [hrow]
      congr 1
      show min (max index 0) ((h.time.length : Int) - 1) = 0
      rw [max_eq_right (by omega), min_eq_left (by omega)]
    · intro h0 h1
      rw [hrow]
      congr 1
      show min (max index 0) ((h.time.length : Int) - 1) = (h.time.length : Int) - 1
      rw [max_eq_left (by omega), min_eq_right (by omega)]
  · intro hw
    unfold getSelectedHourData unknownRow
    simp only [hw]
  · intro w hw hh
    unfold getSelectedHourData unknownRow
    simp only [hw, hh]

/-- Witness for C20: in the two-row example, index 1 reads row 1, index 5
reads the last row and index -3 the first. -/
theorem hourlyRow_clamped_witness :
    twoRowApp.weatherData = some twoRowData ∧
      getSelectedHourData { twoRowApp with selectedHourIndex := 1 }
        = compositeRow { time := exampleHourly.take 2, temperature_2m := some [some 10, some 20] }
            1 ∧
      getSelectedHourData { twoRowApp with selectedHourIndex := 5 }
        = compositeRow { time := exampleHourly.take 2, temperature_2m := some [some 10, some 20] }
            ((2 : Nat) - 1 : Int) ∧
      getSelectedHourData { twoRowApp with selectedHourIndex := -3 }
        = compositeRow { time := exampleHourly.take 2, temperature_2m := some [some 10, some 20] }
            0 := by
  have h1 := ((hourlyRow_clamped twoRowApp 1).1 twoRowData
    { time := exampleHourly.take 2, temperature_2m := some [some 10, some 20] } rfl rfl).2.1
  have h5 := ((hourlyRow_clamped twoRowApp 5).1 twoRowData
    { time := exampleHourly.take 2, temperature_2m := some [some 10, some 20] } rfl rfl).2.2.2
  have h3 := ((hourlyRow_clamped twoRowApp (-3)).1 twoRowData
    { time := exampleHourly.take 2, temperature_2m := some [some 10, some 20] } rfl rfl).2.2.1
  exact ⟨rfl, h1 (by decide) (by decide), h5 (by decide) (by decide),
    h3 (by decide) (by decide)⟩

/-! ## The weather code table -/

theorem weatherCodes_zero : ∃ info, weatherCodes 0 = some info := ⟨_, rfl⟩

theorem weatherCodes_of_mapped (code : Int) (h : code ∈ mappedCodes) :
    ∃ info, weatherCodes code = some info := by
  simp only [mappedCodes, List.mem_cons, List.mem_singleton, List.not_mem_nil, or_false] at h
  rcases h with h | h | h | h | h | h | h | h | h | h | h | h | h | h | h | h | h | h | h | h |
    h | h | h | h | h | h | h | h <;> (subst h; exact ⟨_, rfl⟩)

theorem weatherCodes_of_not_mapped (code : Int) (h : code ∉ mappedCodes) :
    weatherCodes code = none := by
  simp only [mappedCodes, List.mem_cons, List.mem_singleton, List.not_mem_nil, or_false,
    not_or] at h
  unfold weatherCodes
  split <;> first | rfl | (exfalso; simp_all)

theorem weatherCodesAt_intCast (code : Int) :
    weatherCodesAt (Val.num (code : ℚ)) = weatherCodes code := by
  simp [weatherCodesAt]

/-- C21: for every integer weather code the lookup
`weatherCodes[code] || weatherCodes[0]` returns an entry: the code's own entry
when the code is one of the 28 mapped codes, the entry of code 0 otherwise.
An `undefined` or `null` key resolves to the entry of code 0 as well. -/
theorem lookupWeatherCode_total (code : Int) :
    mappedCodes.length = 28 ∧ mappedCodes.Nodup ∧
      (∃ info, lookupWeatherCode (Val.num code) = some info) ∧
      (code ∈ mappedCodes → lookupWeatherCode (Val.num code) = weatherCodes code) ∧
      (code ∉ mappedCodes → lookupWeatherCode (Val.num code) = weatherCodes 0) ∧
      lookupWeatherCode Val.undefined = weatherCodes 0 ∧
      lookupWeatherCode Val.null = weatherCodes 0 := by
  refine ⟨by decide, by decide, ?_, ?_, ?_, rfl, rfl⟩
  · by_cases h : code ∈ mappedCodes
    · obtain ⟨info, hi⟩ := weatherCodes_of_mapped code h
      exact ⟨info, by simp [lookupWeatherCode, weatherCodesAt_intCast, hi]⟩
    · obtain ⟨info, hi⟩ := weatherCodes_zero
      exact ⟨info, by
        simp [lookupWeatherCode, weatherCodesAt_intCast, weatherCodes_of_not_mapped code h, hi]⟩
  · intro h
    obtain ⟨info, hi⟩ := weatherCodes_of_mapped code h
    simp [lookupWeatherCode, weatherCodesAt_intCast, hi]
  · intro h
    simp [lookupWeatherCode, weatherCodesAt_intCast, weatherCodes_of_not_mapped code h]

/-- Witness for C21: the unmapped code 4 resolves to the entry of code 0, the
mapped code 95 to its own entry. -/
theorem lookupWeatherCode_total_witness :
    (95 : Int) ∈ mappedCodes ∧ (4 : Int) ∉ mappedCodes ∧
      lookupWeatherCode (Val.num ((95 : Int) : ℚ)) = weatherCodes 95 ∧
      lookupWeatherCode (Val.num ((4 : Int) : ℚ)) = weatherCodes 0 ∧
      (weatherCodes 95).map (fun i => i.desc) = some "Thunderstorm" ∧
      (weatherCodes 0).map (fun i => i.desc) = some "Clear sky" :=
  ⟨by decide, by decide, (lookupWeatherCode_total 95).2.2.2.1 (by decide),
    (lookupWeatherCode_total 4).2.2.2.2.1 (by decide), by decide, by decide⟩

/-! ## The sun -/

/-- C27: for a daytime hour whose weather code resolves to a table entry with
`sunVisible = "intermittent"`, the sun opacity is 0.2 when the cloud cover
exceeds 70 and 0.8 otherwise; code 2 is such a code, so code 2 with cloud
cover 80 gives 0.2. -/
theorem sun_opacity_intermittent (weatherCode cloudCover : ℚ) (info : WeatherInfo)
    (hinfo : lookupWeatherCode (Val.num weatherCode) = some info)
    (hsun : info.sunVisible = SunVisible.intermittent) :
    (70 < cloudCover → updateCelestialBodies weatherCode true cloudCover = some (2 / 10)) ∧
      (cloudCover ≤ 70 → updateCelestialBodies weatherCode true cloudCover = some (8 / 10)) ∧
      (lookupWeatherCode (Val.num 2)).map (fun i => i.sunVisible)
        = some SunVisible.intermittent ∧
      updateCelestialBodies 2 true 80 = some (2 / 10) := by
  have key : ∀ c : ℚ, updateCelestialBodies weatherCode true c
      = some (if c > 70 then 2 / 10 else 8 / 10) := by
    intro c
    unfold updateCelestialBodies
    simp only [hinfo, hsun, if_true]
  have h2 : (lookupWeatherCode (Val.num 2)).map (fun i => i.sunVisible)
      = some SunVisible.intermittent := by
    with_unfolding_all decide
  refine ⟨?_, ?_, h2, ?_⟩
  · intro h; rw [key, if_pos h]
  · intro h; rw [key, if_neg (not_lt.mpr h)]
  · with_unfolding_all decide

/-- Witness for C27: code 2 by day with cloud cover 80 and with cloud cover
40. -/
theorem sun_opacity_intermittent_witness :
    updateCelestialBodies 2 true 80 = some (2 / 10) ∧
      updateCelestialBodies 2 true 40 = some (8 / 10) := by
  have hinfo : lookupWeatherCode (Val.num 2) = weatherCodes 2 := rfl
  have h := sun_opacity_intermittent 2 80 _ hinfo rfl
  have h' := sun_opacity_intermittent 2 40 _ hinfo rfl
  exact ⟨h.1 (by norm_num), h'.2.1 (by norm_num)⟩

/-! ## A failed request -/

/-- C30: if the request made by `fetchWeatherData` fails (a location is set,
the cache entry is not valid, and no response body arrives), the loaded
series, the cache entry and the selection triple are exactly as before the
call; only the loading flag is cleared, by the error display. -/
theorem fetch_failure_frame (z : Zone) (s : App) (now : Instant) (loc : Location)
    (hloc : s.currentLocation = some loc) (hnet : isCacheValid s now ≠ some true) :
    (fetchWeatherData z s now none).weatherData = s.weatherData ∧
      (fetchWeatherData z s now none).cache = s.cache ∧
      (fetchWeatherData z s now none).selectedDate = s.selectedDate ∧
      (fetchWeatherData z s now none).selectedDayIndex = s.selectedDayIndex ∧
      (fetchWeatherData z s now none).selectedHourIndex = s.selectedHourIndex ∧
      (fetchWeatherData z s now none).currentLocation = s.currentLocation ∧
      fetchWeatherData z s now none = { s with isLoading := false } := by
  rw [fetchWeatherData_failed z s now loc hloc hnet]
  exact ⟨rfl, rfl, rfl, rfl, rfl, rfl, rfl⟩

/-- Witness for C30: Pinned at row 30 of the example, a fetch six minutes
after the entry was stored fails; series, cache and selection are untouched. -/
theorem fetch_failure_frame_witness :
    (selectHour exampleZone exampleApp 30).currentLocation = some exampleLocation ∧
      isCacheValid (selectHour exampleZone exampleApp 30) (localIST 2024 1 1 10 + 6 * 60000)
        ≠ some true ∧
      fetchWeatherData exampleZone (selectHour exampleZone exampleApp 30)
          (localIST 2024 1 1 10 + 6 * 60000) none
        = { selectHour exampleZone exampleApp 30 with isLoading := false } := by
  have hnet : isCacheValid (selectHour exampleZone exampleApp 30)
      (localIST 2024 1 1 10 + 6 * 60000) ≠ some true := by with_unfolding_all decide
  exact ⟨rfl, hnet,
    (fetch_failure_frame exampleZone (selectHour exampleZone exampleApp 30)
      (localIST 2024 1 1 10 + 6 * 60000) exampleLocation rfl hnet).2.2.2.2.2.2⟩

/-! ## Weather insights -/

theorem push_if (c : Prop) [Decidable c] (l : List Insight) (a : Insight) :
    (if c then l ++ [a] else l) = l ++ (if c then some a else none).toList := by
  split_ifs <;> simp

theorem push_if_else (c : Prop) [Decidable c] (l : List Insight) (a : Insight)
    (o : Option Insight) :
    (if c then l ++ [a] else l ++ o.toList) = l ++ (if c then some a else o).toList := by
  split_ifs <;> simp

theorem pushes_eq (a b c d e f : Option Insight) :
    [] ++ a.toList ++ b.toList ++ c.toList ++ d.toList ++ e.toList ++ f.toList
      = [a, b, c, d, e, f].reduceOption := by
  cases a <;> cases b <;> cases c <;> cases d <;> cases e <;> cases f <;> rfl

theorem generateWeatherInsights_eq (s : App) (w : WeatherData) (hw : s.weatherData = some w) :
    generateWeatherInsights s = some ((triggeredInsights s w).take 4) := by
  unfold generateWeatherInsights triggeredInsights
  simp only [hw, push_if, push_if_else]
  rw [pushes_eq]
  unfold temperatureFeelRule uvRule windRule visibilityRule weatherCodeRule weekAheadRule
    currentOrEmpty
  cases hd : w.daily <;> rfl

theorem temperatureFeelRule_rule (sel cur : HourRow) (y : Insight)
    (h : temperatureFeelRule sel cur = some y) : y.rule = 0 := by
  unfold temperatureFeelRule at h
  split_ifs at h
  simp at h; subst h; rfl

theorem uvRule_rule (sel cur : HourRow) (y : Insight) (h : uvRule sel cur = some y) :
    y.rule = 1 := by
  unfold uvRule at h
  split_ifs at h
  simp at h; subst h; rfl

theorem windRule_rule (sel cur : HourRow) (y : Insight) (h : windRule sel cur = some y) :
    y.rule = 2 := by
  unfold windRule at h
  split_ifs at h <;> (simp at h; subst h; rfl)

theorem visibilityRule_rule (sel cur : HourRow) (y : Insight)
    (h : visibilityRule sel cur = some y) : y.rule = 3 := by
  unfold visibilityRule at h
  split_ifs at h <;> (simp at h; subst h; rfl)

theorem weatherCodeRule_rule (sel : HourRow) (y : Insight)
    (h : weatherCodeRule sel = some y) : y.rule = 4 := by
  unfold weatherCodeRule at h
  split_ifs at h <;> (simp at h; subst h; rfl)

theorem weekAheadRule_rule (daily : Option Daily) (y : Insight)
    (h : weekAheadRule daily = some y) : y.rule = 5 := by
  unfold weekAheadRule at h
  cases daily with
  | none => simp at h
  | some d =>
    simp only at h
    split_ifs at h
    simp at h; subst h; rfl

theorem reduceOption_rules_sorted (a b c d e f : Option Insight)
    (ha : ∀ y, a = some y → y.rule = 0) (hb : ∀ y, b = some y → y.rule = 1)
    (hc : ∀ y, c = some y → y.rule = 2) (hd : ∀ y, d = some y → y.rule = 3)
    (he : ∀ y, e = some y → y.rule = 4) (hf : ∀ y, f = some y → y.rule = 5) :
    (([a, b, c, d, e, f].reduceOption).map Insight.rule).Pairwise (fun m n => m < n) := by
  have e0 : a.toList.map Insight.rule = (a.map fun _ => 0).toList := by
    cases a with
    | none => rfl
    | some y => simp [ha y rfl]
  have e1 : b.toList.map Insight.rule = (b.map fun _ => 1).toList := by
    cases b with
    | none => rfl
    | some y => simp [hb y rfl]
  have e2 : c.toList.map Insight.rule = (c.map fun _ => 2).toList := by
    cases c with
    | none => rfl
    | some y => simp [hc y rfl]
  have e3 : d.toList.map Insight.rule = (d.map fun _ => 3).toList := by
    cases d with
    | none => rfl
    | some y => simp [hd y rfl]
  have e4 : e.toList.map Insight.rule = (e.map fun _ => 4).toList := by
    cases e with
    | none => rfl
    | some y => simp [he y rfl]
  have e5 : f.toList.map Insight.rule = (f.map fun _ => 5).toList := by
    cases f with
    | none => rfl
    | some y => simp [hf y rfl]
  rw [← pushes_eq]
  simp only [List.map_append, List.map_nil, e0, e1, e2, e3, e4, e5]
  cases a <;> cases b <;> cases c <;> cases d <;> cases e <;> cases f <;> simp

theorem triggeredInsights_sorted (s : App) (w : WeatherData) :
    ((triggeredInsights s w).map Insight.rule).Pairwise (fun m n => m < n) :=
  reduceOption_rules_sorted _ _ _ _ _ _ (temperatureFeelRule_rule _ _) (uvRule_rule _ _)
    (windRule_rule _ _) (visibilityRule_rule _ _) (weatherCodeRule_rule _)
    (weekAheadRule_rule _)

theorem first_four_length (a b c d : Option Insight) :
    ([a, b, c, d].reduceOption).length ≤ 4 :=
  List.reduceOption_length_le [a, b, c, d]

theorem reduceOption_split (a b c d e f : Option Insight) :
    [a, b, c, d, e, f].reduceOption = [a, b, c, d].reduceOption ++ [e, f].reduceOption :=
  List.reduceOption_append [a, b, c, d] [e, f]

theorem mem_take_split (P R : List Insight) (x : Insight) (hP : P.length ≤ 4) :
    x ∈ (P ++ R).take 4 ↔ x ∈ P ∨ x ∈ R.take (4 - P.length) := by
  rw [List.take_append_eq_append_take, List.take_of_length_le hP, List.mem_append]

theorem not_mem_reduceOption_pair (e f : Option Insight) (x : Insight)
    (he : e ≠ some x) (hf : f ≠ some x) : x ∉ [e, f].reduceOption := by
  intro h
  rw [List.reduceOption_mem_iff] at h
  simp only [List.mem_cons, List.mem_singleton, List.not_mem_nil, or_false] at h
  rcases h with h | h
  · exact he h.symm
  · exact hf h.symm

theorem mem_take_third (a b c d e f : Option Insight) (x : Insight)
    (ha : a ≠ some x) (hb : b ≠ some x) (hd : d ≠ some x) (he : e ≠ some x)
    (hf : f ≠ some x) :
    x ∈ ([a, b, c, d, e, f].reduceOption).take 4 ↔ c = some x := by
  rw [reduceOption_split, mem_take_split _ _ _ (first_four_length a b c d)]
  constructor
  · rintro (h | h)
    · rw [List.reduceOption_mem_iff] at h
      simp only [List.mem_cons, List.mem_singleton, List.not_mem_nil, or_false] at h
      rcases h with h | h | h | h
      · exact absurd h.symm ha
      · exact absurd h.symm hb
      · exact h.symm
      · exact absurd h.symm hd
    · exact absurd (List.mem_of_mem_take h) (not_mem_reduceOption_pair e f x he hf)
  · intro h
    left
    rw [List.reduceOption_mem_iff, h]
    simp

theorem mem_take_fourth (a b c d e f : Option Insight) (x : Insight)
    (ha : a ≠ some x) (hb : b ≠ some x) (hc : c ≠ some x) (he : e ≠ some x)
    (hf : f ≠ some x) :
    x ∈ ([a, b, c, d, e, f].reduceOption).take 4 ↔ d = some x := by
  rw [reduceOption_split, mem_take_split _ _ _ (first_four_length a b c d)]
  constructor
  · rintro (h | h)
    · rw [List.reduceOption_mem_iff] at h
      simp only [List.mem_cons, List.mem_singleton, List.not_mem_nil, or_false] at h
      rcases h with h | h | h | h
      · exact absurd h.symm ha
      · exact absurd h.symm hb
      · exact absurd h.symm hc
      · exact h.symm
    · exact absurd (List.mem_of_mem_take h) (not_mem_reduceOption_pair e f x he hf)
  · intro h
    left
    rw [List.reduceOption_mem_iff, h]
    simp

theorem mem_take_fifth (a b c d e f : Option Insight) (x : Insight)
    (ha : a ≠ some x) (hb : b ≠ some x) (hc : c ≠ some x) (hd : d ≠ some x)
    (hf : f ≠ some x) :
    x ∈ ([a, b, c, d, e, f].reduceOption).take 4
      ↔ e = some x ∧ ([a, b, c, d].reduceOption).length ≤ 3 := by
  rw [reduceOption_split, mem_take_split _ _ _ (first_four_length a b c d)]
  constructor
  · rintro (h | h)
    · rw [List.reduceOption_mem_iff] at h
      simp only [List.mem_cons, List.mem_singleton, List.not_mem_nil, or_false] at h
      rcases h with h | h | h | h
      · exact absurd h.symm ha
      · exact absurd h.symm hb
      · exact absurd h.symm hc
      · exact absurd h.symm hd
    · by_cases hl : ([a, b, c, d].reduceOption).length ≤ 3
      · have hm := List.mem_of_mem_take h
        rw [List.reduceOption_mem_iff] at hm
        simp only [List.mem_cons, List.mem_singleton, List.not_mem_nil, or_false] at hm
        rcases hm with hm | hm
        · exact ⟨hm.symm, hl⟩
        · exact absurd hm.symm hf
      · have h0 : 4 - ([a, b, c, d].reduceOption).length = 0 := by omega
        rw [h0] at h
        simp at h
  · rintro ⟨h, hl⟩
    right
    obtain ⟨k, hk⟩ : ∃ k, 4 - ([a, b, c, d].reduceOption).length = k + 1 :=
      ⟨3 - ([a, b, c, d].reduceOption).length, by omega⟩
    rw [hk, h, List.reduceOption_cons_of_some, List.take_succ_cons]
    exact List.mem_cons_self _ _

theorem visibilityRule_of_num (sel cur : HourRow) (v : ℚ) (h : sel.visibility = Val.num v) :
    visibilityRule sel cur
      = if v = 0 then none
        else if v < 1000 then some Insight.veryPoorVisibility
        else if v < 5000 then some Insight.reducedVisibility
        else none := by
  unfold visibilityRule
  rw [h]
  simp only [Val.orElse, Val.orNumber]
  by_cases h0 : v = 0
  · subst h0
    norm_num
  · have e1 : v / 1000 < 1 ↔ v < 1000 := by
      constructor <;> intro h <;> linarith
    have e5 : v / 1000 < 5 ↔ v < 5000 := by
      constructor <;> intro h <;> linarith
    simp only [h0, if_false, e1, e5]

theorem windRule_of_num (sel cur : HourRow) (x : ℚ) (h : sel.wind_speed_10m = Val.num x) :
    windRule sel cur
      = if x ≥ 25 then some Insight.strongWinds
        else if x ≥ 15 then some Insight.breezyConditions
        else none := by
  unfold windRule
  rw [h]
  have e : (Val.num x).orNumber 0 = x := by
    simp only [Val.orNumber]
    split_ifs with h0
    · exact h0.symm
    · rfl
  simp only [Val.orElse, e]

theorem weatherCodeRule_of_thunderstorm (sel : HourRow) (h : sel.weather_code = Val.num 95) :
    weatherCodeRule sel = some Insight.thunderstormSafety := by
  unfold weatherCodeRule
  rw [h]
  have e : (Val.num 95).orNumber 0 = 95 := by
    simp only [Val.orNumber]
    norm_num
  simp [e]

theorem mem_generateWeatherInsights_wind (s : App) (w : WeatherData) (x : Insight)
    (hx : x.rule = 2) :
    x ∈ (triggeredInsights s w).take 4
      ↔ windRule (getSelectedHourData s) (currentOrEmpty w) = some x := by
  unfold triggeredInsights
  apply mem_take_third
  · intro h; have := temperatureFeelRule_rule _ _ _ h; omega
  · intro h; have := uvRule_rule _ _ _ h; omega
  · intro h; have := visibilityRule_rule _ _ _ h; omega
  · intro h; have := weatherCodeRule_rule _ _ h; omega
  · intro h; have := weekAheadRule_rule _ _ h; omega

theorem mem_generateWeatherInsights_visibility (s : App) (w : WeatherData) (x : Insight)
    (hx : x.rule = 3) :
    x ∈ (triggeredInsights s w).take 4
      ↔ visibilityRule (getSelectedHourData s) (currentOrEmpty w) = some x := by
  unfold triggeredInsights
  apply mem_take_fourth
  · intro h; have := temperatureFeelRule_rule _ _ _ h; omega
  · intro h; have := uvRule_rule _ _ _ h; omega
  · intro h; have := windRule_rule _ _ _ h; omega
  · intro h; have := weatherCodeRule_rule _ _ h; omega
  · intro h; have := weekAheadRule_rule _ _ h; omega

theorem mem_generateWeatherInsights_code (s : App) (w : WeatherData) (x : Insight)
    (hx : x.rule = 4) :
    x ∈ (triggeredInsights s w).take 4
      ↔ weatherCodeRule (getSelectedHourData s) = some x ∧ (earlierInsights s w).length ≤ 3 := by
  unfold triggeredInsights earlierInsights
  apply mem_take_fifth
  · intro h; have := temperatureFeelRule_rule _ _ _ h; omega
  · intro h; have := uvRule_rule _ _ _ h; omega
  · intro h; have := windRule_rule _ _ _ h; omega
  · intro h; have := visibilityRule_rule _ _ _ h; omega
  · intro h; have := weekAheadRule_rule _ _ h; omega

/-- C22: whenever a payload is loaded, `generateWeatherInsights` returns at
most 4 insights, and the returned list is the first min(4, k) of the k
triggered insights, which stand in rule order: temperature feel, UV, wind,
visibility, weather code, week ahead, at most one insight for each rule. -/
theorem insights_first_four (s : App) (w : WeatherData) (hw : s.weatherData = some w) :
    ∃ result, generateWeatherInsights s = some result ∧
      result.length ≤ 4 ∧
      result = (triggeredInsights s w).take (min 4 (triggeredInsights s w).length) ∧
      result.length = min 4 (triggeredInsights s w).length ∧
      ((triggeredInsights s w).map Insight.rule).Pairwise (fun m n => m < n) ∧
      (result.map Insight.rule).Pairwise (fun m n => m < n) := by
  refine ⟨_, generateWeatherInsights_eq s w hw, ?_, ?_, ?_, triggeredInsights_sorted s w, ?_⟩
  · rw [List.length_take]
    exact Nat.min_le_left _ _
  · rcases Nat.le_total 4 (triggeredInsights s w).length with h | h
    · rw [Nat.min_eq_left h]
    · rw [Nat.min_eq_right h, List.take_of_length_le h, List.take_length]
  · rw [List.length_take]
  · rw [List.map_take]
    exact (triggeredInsights_sorted s w).sublist (List.take_sublist _ _)

/-- Witness for C22: the storm hour triggers all six rules and the first four
insights are returned; the mild storm hour triggers two, both returned. -/
theorem insights_first_four_witness :
    (∃ result, generateWeatherInsights stormApp = some result ∧ result.length ≤ 4 ∧
      result = (triggeredInsights stormApp stormData).take
        (min 4 (triggeredInsights stormApp stormData).length)) ∧
      triggeredInsights stormApp stormData
        = [Insight.temperatureFeel, Insight.uvProtection, Insight.strongWinds,
            Insight.veryPoorVisibility, Insight.thunderstormSafety, Insight.weekAhead] ∧
      generateWeatherInsights stormApp
        = some [Insight.temperatureFeel, Insight.uvProtection, Insight.strongWinds,
            Insight.veryPoorVisibility] ∧
      generateWeatherInsights mildStormApp
        = some [Insight.thunderstormSafety, Insight.weekAhead] := by
  obtain ⟨result, h1, h2, h3, _⟩ := insights_first_four stormApp stormData rfl
  refine ⟨⟨result, h1, h2, h3⟩, ?_, ?_, ?_⟩
  · with_unfolding_all decide
  · with_unfolding_all decide
  · with_unfolding_all decide

/-- C23, as stated, fails: the storm hour has weather code 95, but temperature
feel, UV, wind and visibility all trigger before the weather-code rule, so the
four returned insights do not include Thunderstorm Safety. -/
theorem thunderstorm_counterexample :
    (getSelectedHourData stormApp).weather_code = Val.num 95 ∧
      generateWeatherInsights stormApp
        = some [Insight.temperatureFeel, Insight.uvProtection, Insight.strongWinds,
            Insight.veryPoorVisibility] ∧
      Insight.thunderstormSafety ∉
        [Insight.temperatureFeel, Insight.uvProtection, Insight.strongWinds,
          Insight.veryPoorVisibility] := by
  refine ⟨?_, ?_, by decide⟩
  · with_unfolding_all decide
  · with_unfolding_all decide

/-- C23, amended: when the selected hour has weather code 95, the returned
list includes Thunderstorm Safety exactly when at most three of the four
earlier rules (temperature feel, UV, wind, visibility) trigger. -/
theorem thunderstorm_insight (s : App) (w : WeatherData) (hw : s.weatherData = some w)
    (hcode : (getSelectedHourData s).weather_code = Val.num 95) :
    ∃ result, generateWeatherInsights s = some result ∧
      (Insight.thunderstormSafety ∈ result ↔ (earlierInsights s w).length ≤ 3) := by
  refine ⟨_, generateWeatherInsights_eq s w hw, ?_⟩
  rw [mem_generateWeatherInsights_code s w Insight.thunderstormSafety rfl,
    weatherCodeRule_of_thunderstorm _ hcode]
  simp

/-- Witness for C23: the mild storm hour triggers none of the four earlier
rules, and Thunderstorm Safety is returned. -/
theorem thunderstorm_insight_witness :
    (getSelectedHourData mildStormApp).weather_code = Val.num 95 ∧
      (earlierInsights mildStormApp mildStormData).length ≤ 3 ∧
      ∃ result, generateWeatherInsights mildStormApp = some result ∧
        Insight.thunderstormSafety ∈ result := by
  have hcode : (getSelectedHourData mildStormApp).weather_code = Val.num 95 := by
    with_unfolding_all decide
  have hlen : (earlierInsights mildStormApp mildStormData).length ≤ 3 := by
    with_unfolding_all decide
  obtain ⟨result, h1, h2⟩ := thunderstorm_insight mildStormApp mildStormData rfl hcode
  exact ⟨hcode, hlen, result, h1, h2.mpr hlen⟩

/-- C24: with a payload loaded, a selected-hour visibility of `v` metres puts
Very Poor Visibility in the returned list when 0 < v < 1000, Reduced
Visibility when 1000 ≤ v < 5000 and neither when v ≥ 5000, never both; but at
v = 0 the reading is replaced by 10000 and neither insight is returned.  A
selected-hour wind of `x` km/h gives Strong Winds when x ≥ 25, Breezy
Conditions when 15 ≤ x < 25 and neither below 15. -/
theorem visibility_and_wind_rules (s : App) (w : WeatherData) (hw : s.weatherData = some w) :
    ∃ result, generateWeatherInsights s = some result ∧
      (∀ v : ℚ, (getSelectedHourData s).visibility = Val.num v → 0 ≤ v →
        (v = 0 → Insight.veryPoorVisibility ∉ result ∧ Insight.reducedVisibility ∉ result) ∧
        (0 < v → v < 1000 →
          Insight.veryPoorVisibility ∈ result ∧ Insight.reducedVisibility ∉ result) ∧
        (1000 ≤ v → v < 5000 →
          Insight.reducedVisibility ∈ result ∧ Insight.veryPoorVisibility ∉ result) ∧
        (5000 ≤ v →
          Insight.veryPoorVisibility ∉ result ∧ Insight.reducedVisibility ∉ result)) ∧
      (∀ x : ℚ, (getSelectedHourData s).wind_speed_10m = Val.num x →
        (25 ≤ x → Insight.strongWinds ∈ result ∧ Insight.breezyConditions ∉ result) ∧
        (15 ≤ x → x < 25 →
          Insight.breezyConditions ∈ result ∧ Insight.strongWinds ∉ result) ∧
        (x < 15 → Insight.strongWinds ∉ result ∧ Insight.breezyConditions ∉ result)) := by
  refine ⟨_, generateWeatherInsights_eq s w hw, ?_, ?_⟩
  · intro v hv hv0
    rw [mem_generateWeatherInsights_visibility s w Insight.veryPoorVisibility rfl,
      mem_generateWeatherInsights_visibility s w Insight.reducedVisibility rfl,
      visibilityRule_of_num _ _ v hv]
    refine ⟨?_, ?_, ?_, ?_⟩
    · intro h
      simp [h]
    · intro h1 h2
      simp [ne_of_gt h1, h2]
    · intro h1 h2
      have h3 : v ≠ 0 := by intro h; rw [h] at h1; norm_num at h1
      simp [h3, not_lt.mpr h1, h2]
    · intro h1
      have h3 : v ≠ 0 := by intro h; rw [h] at h1; norm_num at h1
      have h4 : ¬ v < 1000 := by intro h; linarith
      have h5 : ¬ v < 5000 := by intro h; linarith
      simp [h3, h4, h5]
  · intro x hx
    rw [mem_generateWeatherInsights_wind s w Insight.strongWinds rfl,
      mem_generateWeatherInsights_wind s w Insight.breezyConditions rfl,
      windRule_of_num _ _ x hx]
    refine ⟨?_, ?_, ?_⟩
    · intro h1
      simp [h1]
    · intro h1 h2
      simp [h1, not_le.mpr h2]
    · intro h1
      have h2 : ¬ x ≥ 25 := by intro h; linarith
      have h3 : ¬ x ≥ 15 := by intro h; linarith
      simp [h2, h3]

/-- Witness for C24: the hour with visibility 0 metres and wind 20 km/h gets
Breezy Conditions and no visibility insight. -/
theorem visibility_and_wind_rules_witness :
    (getSelectedHourData zeroVisibilityApp).visibility = Val.num 0 ∧
      (getSelectedHourData zeroVisibilityApp).wind_speed_10m = Val.num 20 ∧
      ∃ result, generateWeatherInsights zeroVisibilityApp = some result ∧
        Insight.veryPoorVisibility ∉ result ∧ Insight.reducedVisibility ∉ result ∧
        Insight.breezyConditions ∈ result := by
  have hv : (getSelectedHourData zeroVisibilityApp).visibility = Val.num 0 := by
    with_unfolding_all decide
  have hx : (getSelectedHourData zeroVisibilityApp).wind_speed_10m = Val.num 20 := by
    with_unfolding_all decide
  obtain ⟨result, h1, h2, h3⟩ :=
    visibility_and_wind_rules zeroVisibilityApp zeroVisibilityData rfl
  have hz := (h2 0 hv (le_refl 0)).1 rfl
  have hb := ((h3 20 hx).2.1 (by norm_num) (by norm_num)).1
  exact ⟨hv, hx, result, h1, hz.1, hz.2, hb⟩

/-! ## The index `getSelectedHourData` reads -/

/-- C29: for every integer `selectedHourIndex` and every hourly series of
N ≥ 1 rows, `getSelectedHourData` reads the arrays at
min(max(selectedHourIndex, 0), N - 1), which lies in 0..N-1: it is 0 for a
negative index, the index itself when in range and N - 1 from N on; the
`time` array and every array of length N have an element there. -/
theorem selected_hour_read_in_bounds (s : App) (w : WeatherData) (h : Hourly)
    (hw : s.weatherData = some w) (hh : w.hourly = some h) (hN : 1 ≤ h.time.length) :
    ∃ idx : Int, idx = min (max s.selectedHourIndex 0) ((h.time.length : Int) - 1) ∧
      getSelectedHourData s = compositeRow h idx ∧
      0 ≤ idx ∧ idx ≤ (h.time.length : Int) - 1 ∧
      (s.selectedHourIndex < 0 → idx = 0) ∧
      (0 ≤ s.selectedHourIndex → s.selectedHourIndex < h.time.length →
        idx = s.selectedHourIndex) ∧
      ((h.time.length : Int) ≤ s.selectedHourIndex → idx = (h.time.length : Int) - 1) ∧
      (∃ t, (getSelectedHourData s).time = some t) ∧
      (∀ xs : List (Option ℚ), xs.length = h.time.length →
        readArray (some xs) idx ≠ Val.undefined) := by
  have hN' : (1 : Int) ≤ (h.time.length : Int) := by exact_mod_cast hN
  refine ⟨_, rfl, getSelectedHourData_of_hourly s w h hw hh, ?_, ?_, ?_, ?_, ?_, ?_, ?_⟩
  · omega
  · omega
  · intro hneg; omega
  · intro h0 h1; omega
  · intro hge; omega
  · rw [getSelectedHourData_of_hourly s w h hw hh]
    obtain ⟨k, hk⟩ : ∃ k : Nat,
        min (max s.selectedHourIndex 0) ((h.time.length : Int) - 1) = (k : Int) :=
      Int.eq_ofNat_of_zero_le (by omega)
    have hlt : k < h.time.length := by omega
    refine ⟨h.time[k], ?_⟩
    simp only [compositeRow, hk, getAt_natCast]
    exact List.getElem?_eq_getElem hlt
  · intro xs hxs
    obtain ⟨k, hk⟩ : ∃ k : Nat,
        min (max s.selectedHourIndex 0) ((h.time.length : Int) - 1) = (k : Int) :=
      Int.eq_ofNat_of_zero_le (by omega)
    have hlt : k < xs.length := by omega
    simp only [readArray, hk, getAt_natCast, List.getElem?_eq_getElem hlt]
    cases xs[k] <;> simp

/-- Witness for C29: in the two-row example an index of 5 reads row 1 and an
index of -3 reads row 0. -/
theorem selected_hour_read_in_bounds_witness :
    (∃ idx : Int, idx = min (max (5 : Int) 0) (2 - 1) ∧
      getSelectedHourData { twoRowApp with selectedHourIndex := 5 }
        = compositeRow { time := exampleHourly.take 2, temperature_2m := some [some 10, some 20] }
            idx) ∧
      (getSelectedHourData { twoRowApp with selectedHourIndex := 5 }).temperature_2m
        = Val.num 20 ∧
      (getSelectedHourData { twoRowApp with selectedHourIndex := -3 }).temperature_2m
        = Val.num 10 := by
  obtain ⟨idx, h1, h2, _⟩ :=
    selected_hour_read_in_bounds { twoRowApp with selectedHourIndex := 5 } twoRowData
      { time := exampleHourly.take 2, temperature_2m := some [some 10, some 20] }
      rfl rfl (by decide)
  refine ⟨⟨idx, h1, h2⟩, ?_, ?_⟩
  · with_unfolding_all decide
  · with_unfolding_all decide

/-! ## The daily strip -/

theorem filter_range_eq (n m : Nat) :
    (List.range n).filter (fun k => decide (k = m)) = if m < n then [m] else [] := by
  induction n with
  | zero => simp
  | succ n ih =>
    rw [List.range_succ, List.filter_append, ih]
    by_cases h1 : m < n
    · have h2 : n ≠ m := by omega
      have h3 : m < n + 1 := by omega
      simp [h1, h2, h3]
    · by_cases h2 : n = m
      · subst h2
        simp
      · have h3 : ¬ m < n + 1 := by omega
        simp [h1, h2, h3]

theorem renderDailyForecast_of_daily (s : App) (w : WeatherData) (d : Daily)
    (hw : s.weatherData = some w) (hd : w.daily = some d) :
    renderDailyForecast s
      = (List.range (min 7 d.time.length)).map fun (i : Nat) =>
          { index := (i : Int)
            selected := decide ((i : Int) = s.selectedDayIndex)
            tHigh := readArray d.temperature_2m_max (i : Int)
            tLow := readArray d.temperature_2m_min (i : Int) } := by
  unfold renderDailyForecast
  simp only [hw, hd]

/-- C25, as stated, fails: the forecast request asks for fourteen days and
`renderDailyForecast` renders the first seven; after `selectDay(7)` on the
fourteen-day payload no rendered row is flagged selected. -/
theorem daily_selected_counterexample :
    fortnightApp.dailyTime.map List.length = some 14 ∧
      (selectDay exampleZone fortnightApp 7).selectedDayIndex = 7 ∧
      (renderDailyForecast (selectDay exampleZone fortnightApp 7)).length = 7 ∧
      (renderDailyForecast (selectDay exampleZone fortnightApp 7)).filter
        (fun c => c.selected) = [] := by
  refine ⟨?_, selectDay_selectedDayIndex _ _ _, ?_, ?_⟩
  · rfl
  · rw [renderDailyForecast_of_daily _ fortnightData _
      ((selectDay_weatherData exampleZone fortnightApp 7).trans rfl) rfl]
    rfl
  · rw [renderDailyForecast_of_daily _ fortnightData _
      ((selectDay_weatherData exampleZone fortnightApp 7).trans rfl) rfl,
      selectDay_selectedDayIndex]
    decide

/-- C25, amended: for a daily series of D rows and 0 ≤ i < D, after
`selectDay(i)` the strip has min(7, D) rows, for days 0 onwards; a row is
flagged selected exactly when it is the row of day i, so exactly one row is
flagged when i < 7 and none when i ≥ 7. -/
theorem daily_selected_row (z : Zone) (s : App) (w : WeatherData) (d : Daily) (i : Int)
    (hw : s.weatherData = some w) (hd : w.daily = some d)
    (h0 : 0 ≤ i) (hi : i < d.time.length) :
    (renderDailyForecast (selectDay z s i)).map (fun c => c.index)
        = (List.range (min 7 d.time.length)).map (fun (k : Nat) => (k : Int)) ∧
      (∀ c ∈ renderDailyForecast (selectDay z s i), c.selected = true ↔ c.index = i) ∧
      (i < 7 →
        ((renderDailyForecast (selectDay z s i)).filter (fun c => c.selected)).map
          (fun c => c.index) = [i]) ∧
      (7 ≤ i →
        (renderDailyForecast (selectDay z s i)).filter (fun c => c.selected) = []) := by
  have hw' : (selectDay z s i).weatherData = some w := by
    rw [selectDay_weatherData]; exact hw
  obtain ⟨m, hm⟩ : ∃ m : Nat, i = (m : Int) := Int.eq_ofNat_of_zero_le h0
  subst hm
  rw [renderDailyForecast_of_daily _ w d hw' hd, selectDay_selectedDayIndex]
  have hfilter : ((List.range (min 7 d.time.length)).map fun k : Nat =>
        ({ index := (k : Int)
           selected := decide ((k : Int) = (m : Int))
           tHigh := readArray d.temperature_2m_max (k : Int)
           tLow := readArray d.temperature_2m_min (k : Int) } : DayCard)).filter
        (fun c => c.selected)
      = ((List.range (min 7 d.time.length)).filter (fun k => decide (k = m))).map fun k : Nat =>
        ({ index := (k : Int)
           selected := decide ((k : Int) = (m : Int))
           tHigh := readArray d.temperature_2m_max (k : Int)
           tLow := readArray d.temperature_2m_min (k : Int) } : DayCard) := by
    rw [List.filter_map]
    congr 1
    apply List.filter_congr
    intro k _
    simp
  refine ⟨?_, ?_, ?_, ?_⟩
  · rw [List.map_map]
    rfl
  · intro c hc
    rw [List.mem_map] at hc
    obtain ⟨k, _, rfl⟩ := hc
    simp
  · intro h7
    have hlt : m < min 7 d.time.length := by
      have : m < d.time.length := by exact_mod_cast hi
      omega
    rw [hfilter, filter_range_eq, if_pos hlt]
    rfl
  · intro h7
    have hge : ¬ m < min 7 d.time.length := by omega
    rw [hfilter, filter_range_eq, if_neg hge]
    rfl

/-- Witness for C25: on the fourteen-day payload `selectDay(3)` flags the row
of day 3 and no other, and `selectDay(9)` flags none. -/
theorem daily_selected_row_witness :
    ((renderDailyForecast (selectDay exampleZone fortnightApp 3)).filter
        (fun c => c.selected)).map (fun c => c.index) = [3] ∧
      (renderDailyForecast (selectDay exampleZone fortnightApp 9)).filter
        (fun c => c.selected) = [] := by
  have h3 := daily_selected_row exampleZone fortnightApp fortnightData
    { time := (List.range 14).map (fun d => utc 2024 1 1 0 + (d : Int) * msPerDay) } 3
    rfl rfl (by decide) (by decide)
  have h9 := daily_selected_row exampleZone fortnightApp fortnightData
    { time := (List.range 14).map (fun d => utc 2024 1 1 0 + (d : Int) * msPerDay) } 9
    rfl rfl (by decide) (by decide)
  exact ⟨h3.2.2.1 (by decide), h9.2.2.2 (by decide)⟩

/-! ## The hourly strip -/

theorem renderHourlyForecastLoop_spec (z : Zone) (target : Instant) :
    ∀ (ts : List Instant) (i : Nat),
      (∃ (k : Nat) (t : Instant), ts[k]? = some t ∧ sameCalendarDay z t target ∧
        (∀ (j : Nat) (t' : Instant), j < k → ts[j]? = some t' → ¬ sameCalendarDay z t' target) ∧
        renderHourlyForecastLoop z target ts i = ((i + k : Nat) : Int)) ∨
      ((∀ t ∈ ts, ¬ sameCalendarDay z t target) ∧ renderHourlyForecastLoop z target ts i = 0) := by
  intro ts
  induction ts with
  | nil =>
    intro i
    right
    exact ⟨by simp, rfl⟩
  | cons a rest ih =>
    intro i
    by_cases ha : sameCalendarDay z a target
    · left
      refine ⟨0, a, by simp, ha, by intro j t' hj; omega, ?_⟩
      obtain ⟨h1, h2, h3⟩ := ha
      simp [renderHourlyForecastLoop, h1, h2, h3]
    · have ha' : ¬ (getDate z a = getDate z target ∧ getMonth z a = getMonth z target ∧
          getFullYear z a = getFullYear z target) := by
        intro h
        exact ha ⟨h.2.2, h.2.1, h.1⟩
      have hstep : renderHourlyForecastLoop z target (a :: rest) i
          = renderHourlyForecastLoop z target rest (i + 1) := by
        simp only [renderHourlyForecastLoop, ha', if_false]
      rcases ih (i + 1) with ⟨k, t, hk, ht, hmin, hres⟩ | ⟨hno, hres⟩
      · left
        refine ⟨k + 1, t, by simpa using hk, ht, ?_, ?_⟩
        · intro j t' hj hj'
          cases j with
          | zero =>
            simp only [List.getElem?_cons_zero, Option.some.injEq] at hj'
            subst hj'
            exact ha
          | succ j => exact hmin j t' (by omega) (by simpa using hj')
        · rw [hstep, hres]
          congr 1
          omega
      · right
        refine ⟨?_, by rw [hstep, hres]⟩
        intro t ht
        rcases List.mem_cons.mp ht with h | h
        · subst h; exact ha
        · exact hno t h

theorem hourlyStartIndex_pinned (z : Zone) (s : App) (now : Instant) (h : Hourly)
    (target : Instant) (hsel : s.selectedDate = some target) :
    (∃ (k : Nat) (t : Instant), hourlyStartIndex z s now h = (k : Int) ∧
        h.time[k]? = some t ∧ sameCalendarDay z t target ∧
        ∀ (j : Nat) (t' : Instant), j < k → h.time[j]? = some t' →
          ¬ sameCalendarDay z t' target) ∨
      (hourlyStartIndex z s now h = 0 ∧ ∀ t ∈ h.time, ¬ sameCalendarDay z t target) := by
  unfold hourlyStartIndex
  simp only [hsel]
  rcases renderHourlyForecastLoop_spec z target h.time 0 with ⟨k, t, hk, ht, hmin, hres⟩ | ⟨hno, hres⟩
  · left
    refine ⟨k, t, ?_, hk, ht, hmin⟩
    rw [hres]
    congr 1
    omega
  · right
    exact ⟨hres, hno⟩

theorem hourlyStartIndex_live (z : Zone) (s : App) (now : Instant) (h : Hourly)
    (hsel : s.selectedDate = none) :
    hourlyStartIndex z s now h = getCurrentHourIndex z s now := by
  unfold hourlyStartIndex
  simp only [hsel]
  exact max_eq_right (getCurrentHourIndex_range z s now).1

theorem hourlyStartIndex_range (z : Zone) (s : App) (now : Instant) (w : WeatherData)
    (h : Hourly) (hw : s.weatherData = some w) (hh : w.hourly = some h) :
    0 ≤ hourlyStartIndex z s now h ∧ hourlyStartIndex z s now h ≤ (h.time.length : Int) := by
  cases hsel : s.selectedDate with
  | some target =>
    rcases hourlyStartIndex_pinned z s now h target hsel with ⟨k, t, hk, ht, _⟩ | ⟨h0, _⟩
    · have hlt : k < h.time.length := by
        by_contra hge
        rw [List.getElem?_eq_none (by omega)] at ht
        cases ht
      rw [hk]
      omega
    · rw [h0]
      omega
  | none =>
    rw [hourlyStartIndex_live z s now h hsel]
    have hr := getCurrentHourIndex_range z s now
    have hlen : s.hourlyLen = (h.time.length : Int) := by
      unfold App.hourlyLen WeatherData.hourlyRows
      simp only [hw, hh]
    rw [hlen] at hr
    omega

theorem renderHourlyForecast_of_temps (z : Zone) (s : App) (now : Instant) (w : WeatherData)
    (h : Hourly) (temps : List (Option ℚ)) (hw : s.weatherData = some w)
    (hh : w.hourly = some h) (ht : h.temperature_2m = some temps) :
    renderHourlyForecast z s now
      = some ((List.range (min (hourlyStartIndex z s now h + 24) (h.time.length : Int)
            - hourlyStartIndex z s now h).toNat).map fun (k : Nat) =>
          { index := hourlyStartIndex z s now h + (k : Int)
            selected := decide (hourlyStartIndex z s now h + (k : Int) = s.selectedHourIndex)
            isCurrent :=
              match s.selectedDate, getAt h.time (hourlyStartIndex z s now h + (k : Int)) with
              | none, some time => decide (sameCalendarHour z time now)
              | _, _ => false
            temp := readArray (some temps) (hourlyStartIndex z s now h + (k : Int))
            badge :=
              extremesTag (readArray (some temps) (hourlyStartIndex z s now h + (k : Int)))
                (mathMax ((slice temps (hourlyStartIndex z s now h)
                  (min (hourlyStartIndex z s now h + 24) (h.time.length : Int))).map
                    elementToNumber))
                (mathMin ((slice temps (hourlyStartIndex z s now h)
                  (min (hourlyStartIndex z s now h + 24) (h.time.length : Int))).map
                    elementToNumber)) }) := by
  unfold renderHourlyForecast
  simp only [hw, hh, ht]

/-- C26: for a loaded hourly series of N rows with its temperature array,
`renderHourlyForecast` emits one card for each index of the contiguous run
from `start` up to but excluding min(start + 24, N), in order; `start` is the
index of the first hourly row on the calendar day of `selectedDate` when one
is set (0 if no row is on that day) and `getCurrentHourIndex()` when none is
set.  So it emits at most 24 cards and none for an index of N or more. -/
theorem hourly_window (z : Zone) (s : App) (now : Instant) (w : WeatherData) (h : Hourly)
    (temps : List (Option ℚ)) (hw : s.weatherData = some w) (hh : w.hourly = some h)
    (ht : h.temperature_2m = some temps) :
    ∃ (start : Int) (cards : List HourCard),
      renderHourlyForecast z s now = some cards ∧
      cards.map (fun c => c.index)
        = (List.range (min (start + 24) (h.time.length : Int) - start).toNat).map
            (fun (k : Nat) => start + (k : Int)) ∧
      (∀ target, s.selectedDate = some target →
        (∃ (k : Nat) (t : Instant), start = (k : Int) ∧
            h.time[k]? = some t ∧ sameCalendarDay z t target ∧
            ∀ (j : Nat) (t' : Instant), j < k → h.time[j]? = some t' →
              ¬ sameCalendarDay z t' target) ∨
          (start = 0 ∧ ∀ t ∈ h.time, ¬ sameCalendarDay z t target)) ∧
      (s.selectedDate = none → start = getCurrentHourIndex z s now) ∧
      cards.length ≤ 24 ∧
      (∀ c ∈ cards, 0 ≤ c.index ∧ start ≤ c.index ∧ c.index < start + 24 ∧
        c.index < (h.time.length : Int)) := by
  obtain ⟨h0, hN⟩ := hourlyStartIndex_range z s now w h hw hh
  refine ⟨hourlyStartIndex z s now h, _, renderHourlyForecast_of_temps z s now w h temps hw hh ht,
    ?_, ?_, ?_, ?_, ?_⟩
  · rw [List.map_map]
    rfl
  · intro target hsel
    exact hourlyStartIndex_pinned z s now h target hsel
  · intro hsel
    exact hourlyStartIndex_live z s now h hsel
  · rw [List.length_map, List.length_range]
    omega
  · intro c hc
    rw [List.mem_map] at hc
    obtain ⟨k, hk, rfl⟩ := hc
    rw [List.mem_range] at hk
    simp only
    omega

/-- Witness for C26: Live at 10:00 on the two-day payload the strip shows
rows 10 to 33; Pinned to 2 January it shows rows 24 to 47. -/
theorem hourly_window_witness :
    (renderHourlyForecast exampleZone twoDayApp (localIST 2024 1 1 10)).map
        (fun cards => cards.map (fun c => c.index))
      = some ((List.range 24).map (fun (k : Nat) => (10 : Int) + (k : Int))) ∧
    (renderHourlyForecast exampleZone (selectHour exampleZone twoDayApp 30)
        (localIST 2024 1 1 10)).map (fun cards => cards.map (fun c => c.index))
      = some ((List.range 24).map (fun (k : Nat) => (24 : Int) + (k : Int))) := by
  obtain ⟨start, cards, h1, h2, _, h4, _⟩ :=
    hourly_window exampleZone twoDayApp (localIST 2024 1 1 10) twoDayData _ _ rfl rfl rfl
  have hs : start = 10 := by
    rw [h4 rfl]
    decide
  subst hs
  obtain ⟨start', cards', k1, k2, k3, _⟩ :=
    hourly_window exampleZone (selectHour exampleZone twoDayApp 30) (localIST 2024 1 1 10)
      twoDayData _ _ rfl rfl rfl
  have hs' : start' = 24 := by
    rcases k3 (utc 2024 1 2 0) rfl with ⟨k, t, e1, e2, e3, e4⟩ | ⟨e1, e2⟩
    · by_contra hne
      rcases Nat.lt_trichotomy k 24 with hlt | heq | hgt
      · have hk : k < exampleHourly.length := by
          have : exampleHourly.length = 48 := by decide
          omega
        have ht : t = exampleHourly[k] := by
          have := List.getElem?_eq_getElem hk
          rw [this] at e2
          exact (Option.some.inj e2).symm
        subst ht
        have hall : ∀ j : Fin 24, ¬ sameCalendarDay exampleZone
            (exampleHourly[j.val]?.getD 0) (utc 2024 1 2 0) := by decide
        have := hall ⟨k, hlt⟩
        simp only [List.getElem?_eq_getElem hk, Option.getD_some] at this
        exact this e3
      · exact hne (by rw [e1, heq]; rfl)
      · exact e4 24 (localIST 2024 1 2 0) hgt (by decide) (by decide)
    · exact absurd (e2 (localIST 2024 1 2 0) (by decide)) (by decide)
  subst hs'
  rw [h1, k1]
  exact ⟨congrArg some h2, congrArg some k2⟩

/-! ## The high and low tags of the hourly strip -/

theorem foldl_larger_fin (qs : List ℚ) :
    ∀ acc : ℚ, ∃ m, (qs.map JSNum.fin).foldl JSNum.larger (JSNum.fin acc) = JSNum.fin m ∧
      (m = acc ∨ m ∈ qs) ∧ acc ≤ m ∧ ∀ q ∈ qs, q ≤ m := by
  induction qs with
  | nil =>
    intro acc
    exact ⟨acc, rfl, Or.inl rfl, le_refl _, by simp⟩
  | cons x rest ih =>
    intro acc
    obtain ⟨m, h1, h2, h3, h4⟩ := ih (if acc ≤ x then x else acc)
    refine ⟨m, h1, ?_, ?_, ?_⟩
    · rcases h2 with h2 | h2
      · by_cases hc : acc ≤ x
        · rw [if_pos hc] at h2
          exact Or.inr (by rw [h2]; exact List.mem_cons_self _ _)
        · rw [if_neg hc] at h2
          exact Or.inl h2
      · exact Or.inr (List.mem_cons_of_mem _ h2)
    · by_cases hc : acc ≤ x
      · rw [if_pos hc] at h3
        exact le_trans hc h3
      · rw [if_neg hc] at h3
        exact h3
    · intro q hq
      rcases List.mem_cons.mp hq with hq | hq
      · subst hq
        by_cases hc : acc ≤ q
        · rw [if_pos hc] at h3
          exact h3
        · rw [if_neg hc] at h3
          exact le_trans (le_of_lt (not_le.mp hc)) h3
      · exact h4 q hq

theorem foldl_smaller_fin (qs : List ℚ) :
    ∀ acc : ℚ, ∃ m, (qs.map JSNum.fin).foldl JSNum.smaller (JSNum.fin acc) = JSNum.fin m ∧
      (m = acc ∨ m ∈ qs) ∧ m ≤ acc ∧ ∀ q ∈ qs, m ≤ q := by
  induction qs with
  | nil =>
    intro acc
    exact ⟨acc, rfl, Or.inl rfl, le_refl _, by simp⟩
  | cons x rest ih =>
    intro acc
    obtain ⟨m, h1, h2, h3, h4⟩ := ih (if acc ≤ x then acc else x)
    refine ⟨m, h1, ?_, ?_, ?_⟩
    · rcases h2 with h2 | h2
      · by_cases hc : acc ≤ x
        · rw [if_pos hc] at h2
          exact Or.inl h2
        · rw [if_neg hc] at h2
          exact Or.inr (by rw [h2]; exact List.mem_cons_self _ _)
      · exact Or.inr (List.mem_cons_of_mem _ h2)
    · by_cases hc : acc ≤ x
      · rw [if_pos hc] at h3
        exact h3
      · rw [if_neg hc] at h3
        exact le_trans h3 (le_of_lt (not_le.mp hc))
    · intro q hq
      rcases List.mem_cons.mp hq with hq | hq
      · subst hq
        by_cases hc : acc ≤ q
        · rw [if_pos hc] at h3
          exact le_trans h3 hc
        · rw [if_neg hc] at h3
          exact h3
      · exact h4 q hq

theorem mathMax_fin (qs : List ℚ) (hne : qs ≠ []) :
    ∃ m, mathMax (qs.map JSNum.fin) = JSNum.fin m ∧ m ∈ qs ∧ ∀ q ∈ qs, q ≤ m := by
  cases qs with
  | nil => exact absurd rfl hne
  | cons x rest =>
    obtain ⟨m, h1, h2, h3, h4⟩ := foldl_larger_fin rest x
    refine ⟨m, h1, ?_, ?_⟩
    · rcases h2 with h2 | h2
      · rw [h2]; exact List.mem_cons_self _ _
      · exact List.mem_cons_of_mem _ h2
    · intro q hq
      rcases List.mem_cons.mp hq with hq | hq
      · rw [hq]; exact h3
      · exact h4 q hq

theorem mathMin_fin (qs : List ℚ) (hne : qs ≠ []) :
    ∃ m, mathMin (qs.map JSNum.fin) = JSNum.fin m ∧ m ∈ qs ∧ ∀ q ∈ qs, m ≤ q := by
  cases qs with
  | nil => exact absurd rfl hne
  | cons x rest =>
    obtain ⟨m, h1, h2, h3, h4⟩ := foldl_smaller_fin rest x
    refine ⟨m, h1, ?_, ?_⟩
    · rcases h2 with h2 | h2
      · rw [h2]; exact List.mem_cons_self _ _
      · exact List.mem_cons_of_mem _ h2
    · intro q hq
      rcases List.mem_cons.mp hq with hq | hq
      · rw [hq]; exact h3
      · exact h4 q hq

theorem strictEq_round_fin (x y : ℚ) :
    strictEq (mathRound (JSNum.fin x)) (mathRound (JSNum.fin y)) = true
      ↔ ⌊x + 1 / 2⌋ = ⌊y + 1 / 2⌋ := by
  simp [strictEq, mathRound]

theorem extremesTag_fin (q hi lo : ℚ) :
    (extremesTag (Val.num q) (JSNum.fin hi) (JSNum.fin lo) = Badge.high
        ↔ ⌊q + 1 / 2⌋ = ⌊hi + 1 / 2⌋) ∧
      (extremesTag (Val.num q) (JSNum.fin hi) (JSNum.fin lo) = Badge.low
        ↔ ⌊q + 1 / 2⌋ = ⌊lo + 1 / 2⌋ ∧ ⌊q + 1 / 2⌋ ≠ ⌊hi + 1 / 2⌋) := by
  unfold extremesTag
  simp only [Val.toNumber]
  by_cases h1 : ⌊q + 1 / 2⌋ = ⌊hi + 1 / 2⌋
  · rw [if_pos ((strictEq_round_fin q hi).mpr h1)]
    exact ⟨⟨fun _ => h1, fun _ => rfl⟩, ⟨fun h => Badge.noConfusion h, fun h => absurd h1 h.2⟩⟩
  · have h1' : ¬ strictEq (mathRound (JSNum.fin q)) (mathRound (JSNum.fin hi)) = true :=
      fun h => h1 ((strictEq_round_fin q hi).mp h)
    rw [if_neg h1']
    by_cases h2 : ⌊q + 1 / 2⌋ = ⌊lo + 1 / 2⌋
    · rw [if_pos ((strictEq_round_fin q lo).mpr h2)]
      exact ⟨⟨fun h => Badge.noConfusion h, fun h => absurd h h1⟩, ⟨fun _ => ⟨h2, h1⟩, fun _ => rfl⟩⟩
    · have h2' : ¬ strictEq (mathRound (JSNum.fin q)) (mathRound (JSNum.fin lo)) = true :=
        fun h => h2 ((strictEq_round_fin q lo).mp h)
      rw [if_neg h2']
      exact ⟨⟨fun h => Badge.noConfusion h, fun h => absurd h h1⟩,
        ⟨fun h => Badge.noConfusion h, fun h => absurd h.1 h2⟩⟩

theorem slice_of_le {α : Type} (xs : List α) (a n : Nat) (h : a + n ≤ xs.length) :
    slice xs (a : Int) ((a : Int) + (n : Int)) = (xs.drop a).take n := by
  have h1 : sliceIndex xs.length (a : Int) = a := by
    unfold sliceIndex
    rw [if_neg (by omega)]
    simp only [Int.toNat_ofNat]
    omega
  have h2 : sliceIndex xs.length ((a : Int) + (n : Int)) = a + n := by
    unfold sliceIndex
    rw [if_neg (by omega)]
    have : ((a : Int) + (n : Int)).toNat = a + n := by omega
    rw [this]
    omega
  unfold slice
  rw [h1, h2]
  congr 1
  omega

theorem readArray_num_iff (temps : List (Option ℚ)) (k : Nat) (q : ℚ) :
    readArray (some temps) (k : Int) = Val.num q ↔ temps[k]? = some (some q) := by
  simp only [readArray, getAt_natCast]
  cases hk : temps[k]? with
  | none => simp
  | some e =>
    cases e with
    | none => simp
    | some x => simp


theorem badges_core (temps : List (Option ℚ)) (a n : Nat)
    (F : Nat → Val → Badge → HourCard)
    (hFt : ∀ k v b, (F k v b).temp = v) (hFb : ∀ k v b, (F k v b).badge = b)
    (cards : List HourCard)
    (hcards : cards = (List.range n).map fun (k : Nat) =>
      F k (readArray (some temps) ((a : Int) + (k : Int)))
        (extremesTag (readArray (some temps) ((a : Int) + (k : Int)))
          (mathMax ((slice temps (a : Int) ((a : Int) + (n : Int))).map elementToNumber))
          (mathMin ((slice temps (a : Int) ((a : Int) + (n : Int))).map elementToNumber))))
    (hne : cards ≠ []) (hnum : ∀ c ∈ cards, ∃ q, c.temp = Val.num q) :
    ∃ hi lo : ℚ,
      (∃ c ∈ cards, c.temp = Val.num hi) ∧
      (∀ c ∈ cards, ∀ q, c.temp = Val.num q → q ≤ hi) ∧
      (∃ c ∈ cards, c.temp = Val.num lo) ∧
      (∀ c ∈ cards, ∀ q, c.temp = Val.num q → lo ≤ q) ∧
      (∀ c ∈ cards, ∀ q, c.temp = Val.num q →
        (c.badge = Badge.high ↔ ⌊q + 1 / 2⌋ = ⌊hi + 1 / 2⌋) ∧
        (c.badge = Badge.low
          ↔ ⌊q + 1 / 2⌋ = ⌊lo + 1 / 2⌋ ∧ ⌊q + 1 / 2⌋ ≠ ⌊hi + 1 / 2⌋)) ∧
      (∃ c ∈ cards, c.badge = Badge.high) := by
  have hn : 0 < n := by
    rcases Nat.eq_zero_or_pos n with h | h
    · subst h
      exact absurd hcards hne
    · exact h
  have hcast : ∀ k : Nat, (a : Int) + (k : Int) = ((a + k : Nat) : Int) := by
    intro k; push_cast; rfl
  -- every row of the window has a numeric temperature in the array
  have hq : ∀ k, k < n → ∃ q, temps[a + k]? = some (some q) := by
    intro k hk
    have hmem : F k (readArray (some temps) ((a : Int) + (k : Int)))
        (extremesTag (readArray (some temps) ((a : Int) + (k : Int)))
          (mathMax ((slice temps (a : Int) ((a : Int) + (n : Int))).map elementToNumber))
          (mathMin ((slice temps (a : Int) ((a : Int) + (n : Int))).map elementToNumber)))
        ∈ cards := by
      rw [hcards]
      exact List.mem_map.mpr ⟨k, List.mem_range.mpr hk, rfl⟩
    obtain ⟨q, hq⟩ := hnum _ hmem
    rw [hFt, hcast, readArray_num_iff] at hq
    exact ⟨q, hq⟩
  have hlen : a + n ≤ temps.length := by
    obtain ⟨q, hq'⟩ := hq (n - 1) (by omega)
    by_contra hgt
    rw [List.getElem?_eq_none (by omega)] at hq'
    cases hq'
  -- the temperatures of the window as numbers
  let qAt : Nat → ℚ := fun k => ((temps[a + k]?).getD none).getD 0
  have hqAt : ∀ k, k < n → temps[a + k]? = some (some (qAt k)) := by
    intro k hk
    obtain ⟨q, hq'⟩ := hq k hk
    simp only [qAt, hq', Option.getD_some]
  have hslice : (slice temps (a : Int) ((a : Int) + (n : Int))).map elementToNumber
      = ((List.range n).map qAt).map JSNum.fin := by
    rw [slice_of_le temps a n hlen]
    apply List.ext_getElem?
    intro k
    by_cases hk : k < n
    · simp only [List.getElem?_map, List.getElem?_take, hk, if_true, List.getElem?_drop,
        hqAt k hk, List.getElem?_range hk, Option.map_some']
      rfl
    · have h1 : ((List.take n (List.drop a temps)).map elementToNumber)[k]? = none := by
        apply List.getElem?_eq_none
        simp only [List.length_map, List.length_take]
        omega
      have h2 : (((List.range n).map qAt).map JSNum.fin)[k]? = none := by
        apply List.getElem?_eq_none
        simp only [List.length_map, List.length_range]
        omega
      rw [h1, h2]
  have hqs : (List.range n).map qAt ≠ [] := by
    intro h
    have := congrArg List.length h
    simp only [List.length_map, List.length_range, List.length_nil] at this
    omega
  obtain ⟨hi, hhi, hhimem, hhimax⟩ := mathMax_fin _ hqs
  obtain ⟨lo, hlo, hlomem, hlomin⟩ := mathMin_fin _ hqs
  rw [hslice, hhi, hlo] at hcards
  -- each card in terms of its position in the window
  have hcard : ∀ c ∈ cards, ∃ k, k < n ∧ c.temp = Val.num (qAt k) ∧
      c.badge = extremesTag (Val.num (qAt k)) (JSNum.fin hi) (JSNum.fin lo) := by
    intro c hc
    rw [hcards] at hc
    obtain ⟨k, hk, rfl⟩ := List.mem_map.mp hc
    have hk' := List.mem_range.mp hk
    have hr : readArray (some temps) ((a : Int) + (k : Int)) = Val.num (qAt k) := by
      rw [hcast, readArray_num_iff]
      exact hqAt k hk'
    exact ⟨k, hk', by rw [hFt, hr], by rw [hFb, hr]⟩
  have hexists : ∀ k, k < n → ∃ c ∈ cards, c.temp = Val.num (qAt k) ∧
      c.badge = extremesTag (Val.num (qAt k)) (JSNum.fin hi) (JSNum.fin lo) := by
    intro k hk
    have hr : readArray (some temps) ((a : Int) + (k : Int)) = Val.num (qAt k) := by
      rw [hcast, readArray_num_iff]
      exact hqAt k hk
    refine ⟨F k (readArray (some temps) ((a : Int) + (k : Int)))
        (extremesTag (readArray (some temps) ((a : Int) + (k : Int))) (JSNum.fin hi)
          (JSNum.fin lo)), ?_, ?_, ?_⟩
    · rw [hcards]
      exact List.mem_map.mpr ⟨k, List.mem_range.mpr hk, rfl⟩
    · rw [hFt, hr]
    · rw [hFb, hr]
  obtain ⟨khi, hkhi, hkhi'⟩ := List.mem_map.mp hhimem
  obtain ⟨klo, hklo, hklo'⟩ := List.mem_map.mp hlomem
  refine ⟨hi, lo, ?_, ?_, ?_, ?_, ?_, ?_⟩
  · obtain ⟨c, hc, ht, _⟩ := hexists khi (List.mem_range.mp hkhi)
    exact ⟨c, hc, by rw [ht, hkhi']⟩
  · intro c hc q hcq
    obtain ⟨k, hk, ht, _⟩ := hcard c hc
    rw [ht] at hcq
    have : qAt k = q := by injection hcq
    rw [← this]
    exact hhimax _ (List.mem_map.mpr ⟨k, List.mem_range.mpr hk, rfl⟩)
  · obtain ⟨c, hc, ht, _⟩ := hexists klo (List.mem_range.mp hklo)
    exact ⟨c, hc, by rw [ht, hklo']⟩
  · intro c hc q hcq
    obtain ⟨k, hk, ht, _⟩ := hcard c hc
    rw [ht] at hcq
    have : qAt k = q := by injection hcq
    rw [← this]
    exact hlomin _ (List.mem_map.mpr ⟨k, List.mem_range.mpr hk, rfl⟩)
  · intro c hc q hcq
    obtain ⟨k, hk, ht, hb⟩ := hcard c hc
    rw [ht] at hcq
    have : qAt k = q := by injection hcq
    rw [hb, this]
    exact extremesTag_fin q hi lo
  · obtain ⟨c, hc, ht, hb⟩ := hexists khi (List.mem_range.mp hkhi)
    refine ⟨c, hc, ?_⟩
    rw [hb, hkhi']
    exact (extremesTag_fin hi hi lo).1.mpr rfl

/-- C28: whenever the hourly strip is not empty and every card has a numeric
temperature, a card carries the high tag exactly when its rounded temperature
equals the rounded maximum of the window, and the low tag exactly when its
rounded temperature equals the rounded minimum of the window and not the
rounded maximum; some card carries the high tag and none carries both.
Rounding is `Math.round`, the floor of the number plus one half. -/
theorem hourly_badges (z : Zone) (s : App) (now : Instant) (cards : List HourCard)
    (hres : renderHourlyForecast z s now = some cards) (hne : cards ≠ [])
    (hnum : ∀ c ∈ cards, ∃ q, c.temp = Val.num q) :
    ∃ hi lo : ℚ,
      (∃ c ∈ cards, c.temp = Val.num hi) ∧
      (∀ c ∈ cards, ∀ q, c.temp = Val.num q → q ≤ hi) ∧
      (∃ c ∈ cards, c.temp = Val.num lo) ∧
      (∀ c ∈ cards, ∀ q, c.temp = Val.num q → lo ≤ q) ∧
      (∀ c ∈ cards, ∀ q, c.temp = Val.num q →
        (c.badge = Badge.high ↔ ⌊q + 1 / 2⌋ = ⌊hi + 1 / 2⌋) ∧
        (c.badge = Badge.low
          ↔ ⌊q + 1 / 2⌋ = ⌊lo + 1 / 2⌋ ∧ ⌊q + 1 / 2⌋ ≠ ⌊hi + 1 / 2⌋)) ∧
      (∃ c ∈ cards, c.badge = Badge.high) ∧
      (∀ c ∈ cards, ¬ (c.badge = Badge.high ∧ c.badge = Badge.low)) := by
  have hboth : ∀ c ∈ cards, ¬ (c.badge = Badge.high ∧ c.badge = Badge.low) := by
    intro c _ hb
    have := hb.1.symm.trans hb.2
    exact Badge.noConfusion this
  cases hw : s.weatherData with
  | none =>
    unfold renderHourlyForecast at hres
    simp only [hw, Option.some.injEq] at hres
    exact absurd hres.symm hne
  | some w =>
    cases hh : w.hourly with
    | none =>
      unfold renderHourlyForecast at hres
      simp only [hw, hh, Option.some.injEq] at hres
      exact absurd hres.symm hne
    | some h =>
      cases ht : h.temperature_2m with
      | none =>
        unfold renderHourlyForecast at hres
        simp only [hw, hh, ht] at hres
        cases hres
      | some temps =>
        rw [renderHourlyForecast_of_temps z s now w h temps hw hh ht] at hres
        obtain ⟨h0, hN⟩ := hourlyStartIndex_range z s now w h hw hh
        obtain ⟨a, ha⟩ := Int.eq_ofNat_of_zero_le h0
        obtain ⟨n, hn⟩ : ∃ n : Nat,
            min (hourlyStartIndex z s now h + 24) (h.time.length : Int) = (a : Int) + (n : Int) :=
          ⟨(min (hourlyStartIndex z s now h + 24) (h.time.length : Int) - (a : Int)).toNat, by
            omega⟩
        rw [hn, ha] at hres
        have hnn : ((a : Int) + (n : Int) - (a : Int)).toNat = n := by omega
        rw [hnn] at hres
        obtain ⟨hi, lo, h1, h2, h3, h4, h5, h6⟩ :=
          badges_core temps a n
            (fun k v b =>
              { index := (a : Int) + (k : Int)
                selected := decide ((a : Int) + (k : Int) = s.selectedHourIndex)
                isCurrent :=
                  match s.selectedDate, getAt h.time ((a : Int) + (k : Int)) with
                  | none, some time => decide (sameCalendarHour z time now)
                  | _, _ => false
                temp := v
                badge := b })
            (fun _ _ _ => rfl) (fun _ _ _ => rfl) cards (Option.some.inj hres).symm hne hnum
        exact ⟨hi, lo, h1, h2, h3, h4, h5, h6, hboth⟩

/-- Witness for C28: the four-row strip with temperatures 10.4, 11.2, 12.4
and 11.8: the rows rounding to 12, the rounded maximum, carry the high tag and
the row rounding to 10 carries the low tag. -/
theorem hourly_badges_witness :
    renderHourlyForecast exampleZone fourRowApp (localIST 2024 1 1 0)
        = some
          [{ index := 0, selected := true, isCurrent := true, temp := Val.num (52 / 5),
             badge := Badge.low },
           { index := 1, selected := false, isCurrent := false, temp := Val.num (56 / 5),
             badge := Badge.absent },
           { index := 2, selected := false, isCurrent := false, temp := Val.num (62 / 5),
             badge := Badge.high },
           { index := 3, selected := false, isCurrent := false, temp := Val.num (59 / 5),
             badge := Badge.high }] ∧
      ∃ hi lo : ℚ, ⌊hi + 1 / 2⌋ = 12 ∧ ⌊lo + 1 / 2⌋ = 10 := by
  have hres : renderHourlyForecast exampleZone fourRowApp (localIST 2024 1 1 0)
      = some
        [{ index := 0, selected := true, isCurrent := true, temp := Val.num (52 / 5),
           badge := Badge.low },
         { index := 1, selected := false, isCurrent := false, temp := Val.num (56 / 5),
           badge := Badge.absent },
         { index := 2, selected := false, isCurrent := false, temp := Val.num (62 / 5),
           badge := Badge.high },
         { index := 3, selected := false, isCurrent := false, temp := Val.num (59 / 5),
           badge := Badge.high }] := by
    with_unfolding_all decide
  obtain ⟨hi, lo, ⟨c1, hc1, e1⟩, _, ⟨c2, hc2, e2⟩, _, h5, _⟩ :=
    hourly_badges exampleZone fourRowApp (localIST 2024 1 1 0) _ hres (by simp)
      (by
        intro c hc
        simp only [List.mem_cons, List.mem_singleton, List.not_mem_nil, or_false] at hc
        rcases hc with rfl | rfl | rfl | rfl
        · exact ⟨_, rfl⟩
        · exact ⟨_, rfl⟩
        · exact ⟨_, rfl⟩
        · exact ⟨_, rfl⟩)
  refine ⟨hres, hi, lo, ?_, ?_⟩
  · have hm := (h5
      { index := 2, selected := false, isCurrent := false, temp := Val.num (62 / 5),
        badge := Badge.high } (by simp) (62 / 5) rfl).1.mp rfl
    rw [← hm]
    norm_num [Int.floor_eq_iff]
  · have hm := (h5
      { index := 0, selected := true, isCurrent := true, temp := Val.num (52 / 5),
        badge := Badge.low } (by simp) (52 / 5) rfl).2.mp rfl
    rw [← hm.1]
    norm_num [Int.floor_eq_iff]

end EnvironmentReader
